import Mathlib

/-!
Shallow embedding of the external-import reconciliation engine of the
triiio-backend repository (Go sources under `internal/imoveis`:
`import_service.go`, `service.go`, `repository.go`, and the GORM models).

Modelling conventions:
* Go `uint` ids are `Nat`; Go `int` and `float64` business fields are `Int`
  (the import code only copies these values and compares them with 0, so no
  floating-point arithmetic is involved).
* The database handle is an explicit `DB` state: one list of rows per table
  plus one id sequence per table, threaded through every operation.
* GORM specifics that the code relies on are modelled explicitly:
  - `Where(...).First(...)` on a unique-indexed key returns the first (and,
    by the unique index, only) matching row;
  - nullable foreign-key columns written with `Omit`/conditional assignment
    are `Option Nat` (`none` = SQL NULL, never a zero id);
  - `Delete` on the soft-deletable `Anexo` model sets its `deleted` flag
    (GORM soft delete) and all reads filter that flag;
  - `Updates` with a struct argument (used by `repository.Update` for the
    property row) skips zero-valued fields, which `updatesNonZero` mirrors
    field by field.
* HTTP calls and fallible persistence calls are abstracted: the fetches are
  functions in a `FetchEnv`, and persistence failures are injected through
  `Oracle` flags (one per kind of persistence call, per item), so that the
  error-handling paths of the Go code are faithfully reachable.
-/

namespace Imoveis

/-! ### External API DTOs (external_api_dto.go) -/

/-- `ExternalEndereco`: address as delivered by the provider. -/
structure ExternalEndereco where
  id : Nat := 0
  rua : String := ""
  numero : Int := 0
  bairro : String := ""
  cidade : String := ""
  estado : String := ""
  cep : String := ""
  latitude : Int := 0
  longitude : Int := 0
  deriving Repr, DecidableEq

/-- `ExternalOrganizacao`. -/
structure ExternalOrganizacao where
  id : Nat := 0
  nome : String := ""
  perfil : String := ""
  deriving Repr, DecidableEq

/-- `ExternalCorretor`: broker as delivered by the provider (the photo field
is never read by the import engine and is omitted). -/
structure ExternalCorretor where
  id : Nat := 0
  nome : String := ""
  email : String := ""
  whatsapp : String := ""
  idiomas : List String := []
  bairrosAtuacao : List String := []
  organizacao : ExternalOrganizacao := {}
  deriving Repr, DecidableEq

/-- `ExternalPrecoVenda` (the nested `Pacote` is never read by the import). -/
structure ExternalPrecoVenda where
  id : Nat := 0
  preco : Int := 0
  aceitaFinanciamentoBancario : Bool := false
  aceitaFinanciamentoDireto : Bool := false
  aceitaPermuta : Bool := false
  aceitaCartaDeCredito : Bool := false
  aceitaFGTS : Bool := false
  ativo : Bool := false
  deriving Repr, DecidableEq

/-- `ExternalPrecoAluguel`. -/
structure ExternalPrecoAluguel where
  id : Nat := 0
  preco : Int := 0
  aceitaFiador : Bool := false
  ativo : Bool := false
  deriving Repr, DecidableEq

/-- `ExternalEmpreendimento` (its nested address, towers and floor plans are
never read by `upsertEmpreendimento` and are omitted). -/
structure ExternalEmpreendimento where
  id : Nat := 0
  codigo : String := ""
  titulo : String := ""
  descricao : String := ""
  dataEntrega : String := ""
  etapaLancamento : String := ""
  finalidade : String := ""
  tipo : String := ""
  status : String := ""
  localizacao : String := ""
  deriving Repr, DecidableEq

/-- `ExternalDetailedImovel`: the full detail record fetched per property. -/
structure ExternalDetailedImovel where
  id : Nat := 0
  codigo : String := ""
  titulo : String := ""
  descricao : String := ""
  tipo : String := ""
  objetivo : String := ""
  finalidade : String := ""
  metragem : Int := 0
  numQuartos : Int := 0
  numSuites : Int := 0
  numBanheiros : Int := 0
  numVagas : Int := 0
  numAndar : Int := 0
  unidade : String := ""
  condominio : Int := 0
  status : String := ""
  visualizacoes : Int := 0
  imagens : List String := []
  endereco : ExternalEndereco := {}
  corretorPrincipal : ExternalCorretor := {}
  precoVenda : Option ExternalPrecoVenda := none
  precoAluguel : Option ExternalPrecoAluguel := none
  empreendimento : Option ExternalEmpreendimento := none
  deriving Repr, DecidableEq

/-! ### Local rows (GORM models)

Only the `Anexo` table carries the soft-delete flag in the model: the import
engine soft-deletes attachments, but never deletes rows of any other table,
so no soft-deleted row of the other tables arises in the modelled flow. -/

/-- `Empreendimento` row. -/
structure Empreendimento where
  id : Nat
  idIntegracao : String
  titulo : String
  descricao : String
  dataEntrega : String
  etapaLancamento : String
  finalidade : String
  tipo : String
  status : String
  localizacao : String
  enderecoID : Nat
  deriving Repr, DecidableEq

/-- `PrecoVenda` row. -/
structure PrecoVenda where
  id : Nat
  idIntegracao : String
  preco : Int
  aceitaFinanciamentoBancario : Bool
  aceitaFinanciamentoDireto : Bool
  aceitaPermuta : Bool
  aceitaCartaDeCredito : Bool
  aceitaFGTS : Bool
  ativo : Bool
  deriving Repr, DecidableEq

/-- `PrecoAluguel` row. -/
structure PrecoAluguel where
  id : Nat
  idIntegracao : String
  preco : Int
  aceitaFiador : Bool
  ativo : Bool
  deriving Repr, DecidableEq

/-- `Organizacao` row. -/
structure Organizacao where
  id : Nat
  nome : String
  perfil : String
  deriving Repr, DecidableEq

/-- `CorretorPrincipal` row (the photo reference is omitted on create by
the import engine — `Omit("FotoID")` — and never written afterwards). -/
structure CorretorPrincipal where
  id : Nat
  idIntegracao : String
  nome : String
  email : String
  whatsapp : String
  idiomas : List String
  bairrosAtuacao : List String
  organizacaoID : Nat
  deriving Repr, DecidableEq

/-- `Endereco` row. -/
structure Endereco where
  id : Nat
  rua : String
  numero : Int
  bairro : String
  cidade : String
  estado : String
  cep : String
  latitude : Int
  longitude : Int
  deriving Repr, DecidableEq

/-- `Anexo` row. `deleted` is the GORM soft-delete column (`DeletedAt`). -/
structure Anexo where
  id : Nat
  nome : String
  url : String
  tipo : String
  image : Bool
  video : Bool
  isExternalURL : Bool
  canPublish : Bool
  imovelID : Nat
  deleted : Bool
  deriving Repr, DecidableEq

/-- `Imovel` row. Foreign keys that `CreateImovel` conditionally omits from
the insert are `Option Nat` (none = SQL NULL); `enderecoID` is always written
by the insert (possibly as 0) and is a plain `Nat`. `createdAt` stands for the
`CreatedAt` timestamp (an abstract non-zero tick). -/
structure Imovel where
  id : Nat
  idIntegracao : String
  titulo : String
  codigo : String
  tipo : String
  objetivo : String
  finalidade : String
  descricao : String
  metragem : Int
  numQuartos : Int
  numSuites : Int
  numBanheiros : Int
  numVagas : Int
  numAndar : Int
  unidade : String
  condominio : Int
  iptu : Int
  inscricaoIPTU : String
  enderecoID : Nat
  empreendimentoID : Option Nat
  precoVendaID : Option Nat
  precoAluguelID : Option Nat
  plantaID : Option Nat
  corretorPrincipalID : Option Nat
  pacoteID : Option Nat
  status : String
  published : Bool
  closed : Bool
  visualizacoes : Int
  createdAt : Nat
  deriving Repr, DecidableEq

/-- The database state: one list of rows and one id sequence per table, plus
a clock used for `CreatedAt`. -/
structure DB where
  imoveis : List Imovel
  empreendimentos : List Empreendimento
  precoVendas : List PrecoVenda
  precoAlugueis : List PrecoAluguel
  corretores : List CorretorPrincipal
  organizacoes : List Organizacao
  enderecos : List Endereco
  anexos : List Anexo
  nextImovelId : Nat
  nextEmpId : Nat
  nextPvId : Nat
  nextPaId : Nat
  nextCorId : Nat
  nextOrgId : Nat
  nextEndId : Nat
  nextAnexoId : Nat
  clock : Nat
  deriving Repr, DecidableEq

/-- The empty database (fresh schema: every sequence starts at 1). -/
def DB.empty : DB :=
  { imoveis := [], empreendimentos := [], precoVendas := [], precoAlugueis := []
    corretores := [], organizacoes := [], enderecos := [], anexos := []
    nextImovelId := 1, nextEmpId := 1, nextPvId := 1, nextPaId := 1
    nextCorId := 1, nextOrgId := 1, nextEndId := 1, nextAnexoId := 1, clock := 1 }

/-! ### Lookups (`Where(key = ?).First`) -/

/-- `repository.FindByIdIntegracao` on the property table. -/
def findImovelByKey (db : DB) (k : String) : Option Imovel :=
  db.imoveis.find? (fun r => r.idIntegracao == k)

/-- `Where("id = ?").First` on the property table (`repository.FindByID`). -/
def findImovelById (db : DB) (i : Nat) : Option Imovel :=
  db.imoveis.find? (fun r => r.id == i)

/-- `Where("id_integracao = ?").First` on `empreendimentos`. -/
def findEmpByKey (db : DB) (k : String) : Option Empreendimento :=
  db.empreendimentos.find? (fun r => r.idIntegracao == k)

/-- `Where("id_integracao = ?").First` on `preco_vendas`. -/
def findPvByKey (db : DB) (k : String) : Option PrecoVenda :=
  db.precoVendas.find? (fun r => r.idIntegracao == k)

/-- `Where("id_integracao = ?").First` on `preco_alugueis`. -/
def findPaByKey (db : DB) (k : String) : Option PrecoAluguel :=
  db.precoAlugueis.find? (fun r => r.idIntegracao == k)

/-- `Where("id_integracao = ?").First` on `corretores_principais`. -/
def findCorByKey (db : DB) (k : String) : Option CorretorPrincipal :=
  db.corretores.find? (fun r => r.idIntegracao == k)

/-- `Where("nome = ?").First` on `organizacoes`. -/
def findOrgByNome (db : DB) (n : String) : Option Organizacao :=
  db.organizacoes.find? (fun r => r.nome == n)

/-- `repository.ExistsByCodigo`. -/
def existsByCodigo (db : DB) (c : String) : Bool :=
  db.imoveis.any (fun r => r.codigo == c)

/-- `repository.ExistsByIdIntegracao`. -/
def existsByIdIntegracao (db : DB) (k : String) : Bool :=
  db.imoveis.any (fun r => r.idIntegracao == k)

/-- Live (not soft-deleted) attachments of a property, as any GORM read with
the default scope sees them (`repository.GetAnexos` modulo its ordering). -/
def anexosLive (db : DB) (imovelID : Nat) : List Anexo :=
  db.anexos.filter (fun a => a.imovelID == imovelID && !a.deleted)

/-! ### Per-item persistence failure injection

Each flag makes the corresponding persistence call of the Go code return an
error (GORM statements are per-statement atomic, so a failed call leaves the
state unchanged). `anexoAddFailAt = some i` makes the i-th `AddAnexo` call of
the attachment sync fail. -/

structure Oracle where
  empFail : Bool := false
  pvFail : Bool := false
  paFail : Bool := false
  orgFail : Bool := false
  corFail : Bool := false
  endFail : Bool := false
  createFail : Bool := false
  updateFail : Bool := false
  endAttachFail : Bool := false
  anexoDeleteFail : Bool := false
  anexoAddFailAt : Option Nat := none
  deriving Repr, DecidableEq

/-- The all-success oracle: every persistence call succeeds. -/
def Oracle.ok : Oracle := {}

end Imoveis

namespace Imoveis

/-! ### Entity upserters (import_service.go) -/

/-- `upsertEmpreendimento`: correlate by stringified external id; update the
business fields in place when found (map-based `Updates`, `finalidade` only
when non-empty); otherwise insert a new row with
`Omit("DataEntrega", "EtapaLancamento", "EnderecoID")`. -/
def upsertEmpreendimento (o : Oracle) (db : DB) (ext : Option ExternalEmpreendimento) :
    Except Unit Nat × DB :=
  match ext with
  | none => (.error (), db)
  | some e =>
    if e.id = 0 then (.error (), db)
    else
      let idIntegracao := toString e.id
      match findEmpByKey db idIntegracao with
      | some existing =>
        if o.empFail then (.error (), db)
        else
          let updated := { existing with
            titulo := e.titulo, descricao := e.descricao, tipo := e.tipo
            status := e.status, localizacao := e.localizacao
            finalidade := if e.finalidade ≠ "" then e.finalidade else existing.finalidade }
          (.ok existing.id,
            { db with empreendimentos :=
                db.empreendimentos.map (fun r => if r.id = existing.id then updated else r) })
      | none =>
        if o.empFail then (.error (), db)
        else
          let row : Empreendimento :=
            { id := db.nextEmpId, idIntegracao := idIntegracao
              titulo := e.titulo, descricao := e.descricao
              dataEntrega := "", etapaLancamento := ""
              finalidade := if e.finalidade ≠ "" then e.finalidade else ""
              tipo := e.tipo, status := e.status, localizacao := e.localizacao
              enderecoID := 0 }
          (.ok row.id,
            { db with empreendimentos := db.empreendimentos ++ [row]
                      nextEmpId := db.nextEmpId + 1 })

/-- `upsertPrecoVenda`: correlate by stringified external id; `Save` (full
field overwrite) when found, insert otherwise. -/
def upsertPrecoVenda (o : Oracle) (db : DB) (ext : Option ExternalPrecoVenda) :
    Except Unit Nat × DB :=
  match ext with
  | none => (.error (), db)
  | some e =>
    if e.id = 0 then (.error (), db)
    else
      let idIntegracao := toString e.id
      match findPvByKey db idIntegracao with
      | some existing =>
        if o.pvFail then (.error (), db)
        else
          let updated := { existing with
            preco := e.preco
            aceitaFinanciamentoBancario := e.aceitaFinanciamentoBancario
            aceitaFinanciamentoDireto := e.aceitaFinanciamentoDireto
            aceitaPermuta := e.aceitaPermuta
            aceitaCartaDeCredito := e.aceitaCartaDeCredito
            aceitaFGTS := e.aceitaFGTS
            ativo := e.ativo }
          (.ok existing.id,
            { db with precoVendas :=
                db.precoVendas.map (fun r => if r.id = existing.id then updated else r) })
      | none =>
        if o.pvFail then (.error (), db)
        else
          let row : PrecoVenda :=
            { id := db.nextPvId, idIntegracao := idIntegracao, preco := e.preco
              aceitaFinanciamentoBancario := e.aceitaFinanciamentoBancario
              aceitaFinanciamentoDireto := e.aceitaFinanciamentoDireto
              aceitaPermuta := e.aceitaPermuta
              aceitaCartaDeCredito := e.aceitaCartaDeCredito
              aceitaFGTS := e.aceitaFGTS, ativo := e.ativo }
          (.ok row.id,
            { db with precoVendas := db.precoVendas ++ [row], nextPvId := db.nextPvId + 1 })

/-- `upsertPrecoAluguel`: correlate by stringified external id; `Save` (full
field overwrite) when found, insert otherwise. -/
def upsertPrecoAluguel (o : Oracle) (db : DB) (ext : Option ExternalPrecoAluguel) :
    Except Unit Nat × DB :=
  match ext with
  | none => (.error (), db)
  | some e =>
    if e.id = 0 then (.error (), db)
    else
      let idIntegracao := toString e.id
      match findPaByKey db idIntegracao with
      | some existing =>
        if o.paFail then (.error (), db)
        else
          let updated := { existing with
            preco := e.preco, aceitaFiador := e.aceitaFiador, ativo := e.ativo }
          (.ok existing.id,
            { db with precoAlugueis :=
                db.precoAlugueis.map (fun r => if r.id = existing.id then updated else r) })
      | none =>
        if o.paFail then (.error (), db)
        else
          let row : PrecoAluguel :=
            { id := db.nextPaId, idIntegracao := idIntegracao, preco := e.preco
              aceitaFiador := e.aceitaFiador, ativo := e.ativo }
          (.ok row.id,
            { db with precoAlugueis := db.precoAlugueis ++ [row], nextPaId := db.nextPaId + 1 })

/-- `upsertOrganizacao`: correlate by name; update `perfil` only when it
changed, insert otherwise. -/
def upsertOrganizacao (o : Oracle) (db : DB) (ext : ExternalOrganizacao) :
    Except Unit Nat × DB :=
  if ext.nome = "" then (.error (), db)
  else
    match findOrgByNome db ext.nome with
    | some org =>
      if org.perfil ≠ ext.perfil then
        if o.orgFail then (.error (), db)
        else
          (.ok org.id,
            { db with organizacoes :=
                db.organizacoes.map (fun r => if r.id = org.id then { r with perfil := ext.perfil } else r) })
      else (.ok org.id, db)
    | none =>
      if o.orgFail then (.error (), db)
      else
        let row : Organizacao := { id := db.nextOrgId, nome := ext.nome, perfil := ext.perfil }
        (.ok row.id,
          { db with organizacoes := db.organizacoes ++ [row], nextOrgId := db.nextOrgId + 1 })

/-- The update-if-changed field assignments of `upsertCorretorPrincipal` on
an existing broker row (name, email, whatsapp, and the organization
reference only when resolved and different). The Go code applies them
sequentially and sets an `updated` flag when any guard fires; since each
guarded assignment touches a distinct field and fires only when the new
value differs, the row changed exactly when the result differs from the
input, which is how the caller tests the flag. -/
def corApplyUpdates (corretor : CorretorPrincipal) (ext : ExternalCorretor)
    (organizacaoID : Nat) : CorretorPrincipal :=
  { corretor with
    nome := if corretor.nome ≠ ext.nome then ext.nome else corretor.nome
    email := if corretor.email ≠ ext.email then ext.email else corretor.email
    whatsapp := if corretor.whatsapp ≠ ext.whatsapp then ext.whatsapp else corretor.whatsapp
    organizacaoID := if organizacaoID ≠ 0 ∧ corretor.organizacaoID ≠ organizacaoID then
                       organizacaoID else corretor.organizacaoID }

/-- `upsertCorretorPrincipal`: resolve the organization dependency first (a
failed organization upsert aborts the broker upsert); then correlate the
broker by stringified external id; when found, update only name, email,
whatsapp and (if resolved and different) the organization reference — the
`updated` flag makes the save happen only when something changed; when not
found, insert a new row with `Omit("FotoID")`. -/
def upsertCorretorPrincipal (o : Oracle) (db : DB) (ext : ExternalCorretor) :
    Except Unit Nat × DB :=
  if ext.email = "" then (.error (), db)
  else
    match (if ext.organizacao.nome ≠ "" then upsertOrganizacao o db ext.organizacao
           else (.ok 0, db)) with
    | (.error _, db1) => (.error (), db1)
    | (.ok organizacaoID, db1) =>
      let idIntegracao := toString ext.id
      match findCorByKey db1 idIntegracao with
      | some corretor =>
        let c4 := corApplyUpdates corretor ext organizacaoID
        if c4 ≠ corretor then
          if o.corFail then (.error (), db1)
          else
            (.ok corretor.id,
              { db1 with corretores :=
                  db1.corretores.map (fun r => if r.id = corretor.id then c4 else r) })
        else (.ok corretor.id, db1)
      | none =>
        if o.corFail then (.error (), db1)
        else
          let row : CorretorPrincipal :=
            { id := db1.nextCorId, idIntegracao := idIntegracao
              nome := ext.nome, email := ext.email, whatsapp := ext.whatsapp
              idiomas := ext.idiomas, bairrosAtuacao := ext.bairrosAtuacao
              organizacaoID := organizacaoID }
          (.ok row.id,
            { db1 with corretores := db1.corretores ++ [row], nextCorId := db1.nextCorId + 1 })

/-- `createEndereco`: addresses are never correlated — always insert fresh. -/
def createEndereco (o : Oracle) (db : DB) (ext : ExternalEndereco) :
    Except Unit Nat × DB :=
  if ext.rua = "" then (.error (), db)
  else if o.endFail then (.error (), db)
  else
    let row : Endereco :=
      { id := db.nextEndId, rua := ext.rua, numero := ext.numero, bairro := ext.bairro
        cidade := ext.cidade, estado := ext.estado, cep := ext.cep
        latitude := ext.latitude, longitude := ext.longitude }
    (.ok row.id, { db with enderecos := db.enderecos ++ [row], nextEndId := db.nextEndId + 1 })

end Imoveis

namespace Imoveis

/-! ### Service layer (service.go) -/

/-- `CreateImovelRequest` (dto.go); the `Caracteristicas` list is ignored by
`CreateImovel` and is omitted. -/
structure CreateImovelRequest where
  idIntegracao : String := ""
  titulo : String := ""
  codigo : String := ""
  tipo : String := ""
  objetivo : String := ""
  finalidade : String := ""
  descricao : String := ""
  metragem : Int := 0
  numQuartos : Int := 0
  numSuites : Int := 0
  numBanheiros : Int := 0
  numVagas : Int := 0
  numAndar : Int := 0
  unidade : String := ""
  condominio : Int := 0
  iptu : Int := 0
  inscricaoIPTU : String := ""
  enderecoID : Nat := 0
  empreendimentoID : Nat := 0
  plantaID : Nat := 0
  corretorPrincipalID : Nat := 0
  pacoteID : Nat := 0
  precoVendaID : Nat := 0
  precoAluguelID : Nat := 0
  deriving Repr, DecidableEq

/-- `UpdateImovelRequest` (dto.go); `Caracteristicas` is ignored by
`UpdateImovel` and is omitted. -/
structure UpdateImovelRequest where
  titulo : String := ""
  codigo : String := ""
  tipo : String := ""
  objetivo : String := ""
  finalidade : String := ""
  descricao : String := ""
  metragem : Option Int := none
  numQuartos : Option Int := none
  numSuites : Option Int := none
  numBanheiros : Option Int := none
  numVagas : Option Int := none
  numAndar : Option Int := none
  unidade : String := ""
  condominio : Option Int := none
  iptu : Option Int := none
  inscricaoIPTU : String := ""
  enderecoID : Option Nat := none
  empreendimentoID : Option Nat := none
  plantaID : Option Nat := none
  corretorPrincipalID : Option Nat := none
  pacoteID : Option Nat := none
  precoVendaID : Option Nat := none
  precoAluguelID : Option Nat := none
  status : String := ""
  published : Option Bool := none
  closed : Option Bool := none
  deriving Repr, DecidableEq

/-- `service.CreateImovel`: business validations, uniqueness checks, then an
insert that omits every zero-valued optional foreign key (`Omit(omitFields)`),
so an unresolved reference becomes SQL NULL (`none`), never id 0. Returns the
new row's id (the Go code then re-reads and returns the full response; its
callers only use the id). -/
def CreateImovel (o : Oracle) (db : DB) (req : CreateImovelRequest) :
    Except Unit Nat × DB :=
  if req.objetivo = "ALUGAR" ∧ req.precoAluguelID = 0 then (.error (), db)
  else if req.objetivo = "VENDER" ∧ req.precoVendaID = 0 then (.error (), db)
  else if existsByCodigo db req.codigo then (.error (), db)
  else if req.idIntegracao ≠ "" ∧ existsByIdIntegracao db req.idIntegracao then (.error (), db)
  else if o.createFail then (.error (), db)
  else
    let row : Imovel :=
      { id := db.nextImovelId
        idIntegracao := req.idIntegracao, titulo := req.titulo, codigo := req.codigo
        tipo := req.tipo, objetivo := req.objetivo, finalidade := req.finalidade
        descricao := req.descricao, metragem := req.metragem
        numQuartos := req.numQuartos, numSuites := req.numSuites
        numBanheiros := req.numBanheiros, numVagas := req.numVagas
        numAndar := req.numAndar, unidade := req.unidade
        condominio := req.condominio, iptu := req.iptu
        inscricaoIPTU := req.inscricaoIPTU
        enderecoID := req.enderecoID
        empreendimentoID := if req.empreendimentoID ≠ 0 then some req.empreendimentoID else none
        precoVendaID := if req.precoVendaID ≠ 0 then some req.precoVendaID else none
        precoAluguelID := if req.precoAluguelID ≠ 0 then some req.precoAluguelID else none
        plantaID := if req.plantaID ≠ 0 then some req.plantaID else none
        corretorPrincipalID := if req.corretorPrincipalID ≠ 0 then some req.corretorPrincipalID else none
        pacoteID := if req.pacoteID ≠ 0 then some req.pacoteID else none
        status := "EM_EDICAO", published := false, closed := false
        visualizacoes := 0, createdAt := db.clock }
    (.ok row.id,
      { db with imoveis := db.imoveis ++ [row]
                nextImovelId := db.nextImovelId + 1, clock := db.clock + 1 })

/-- The in-memory field assignments of `service.UpdateImovel` (lines 253-331):
each scalar is copied only when the request value passes its guard, each
relationship only when the request pointer is non-nil. -/
def applyUpdateReq (imovel : Imovel) (req : UpdateImovelRequest) : Imovel :=
  { imovel with
    titulo := if req.titulo ≠ "" then req.titulo else imovel.titulo
    tipo := if req.tipo ≠ "" then req.tipo else imovel.tipo
    objetivo := if req.objetivo ≠ "" then req.objetivo else imovel.objetivo
    finalidade := if req.finalidade ≠ "" then req.finalidade else imovel.finalidade
    descricao := if req.descricao ≠ "" then req.descricao else imovel.descricao
    metragem := match req.metragem with
                | some v => if v > 0 then v else imovel.metragem
                | none => imovel.metragem
    numQuartos := match req.numQuartos with
                  | some v => if v ≥ 0 then v else imovel.numQuartos
                  | none => imovel.numQuartos
    numSuites := match req.numSuites with
                 | some v => if v ≥ 0 then v else imovel.numSuites
                 | none => imovel.numSuites
    numBanheiros := match req.numBanheiros with
                    | some v => if v ≥ 0 then v else imovel.numBanheiros
                    | none => imovel.numBanheiros
    numVagas := match req.numVagas with
                | some v => if v ≥ 0 then v else imovel.numVagas
                | none => imovel.numVagas
    numAndar := match req.numAndar with
                | some v => v
                | none => imovel.numAndar
    unidade := if req.unidade ≠ "" then req.unidade else imovel.unidade
    condominio := match req.condominio with
                  | some v => if v ≥ 0 then v else imovel.condominio
                  | none => imovel.condominio
    iptu := match req.iptu with
            | some v => if v ≥ 0 then v else imovel.iptu
            | none => imovel.iptu
    inscricaoIPTU := if req.inscricaoIPTU ≠ "" then req.inscricaoIPTU else imovel.inscricaoIPTU
    enderecoID := match req.enderecoID with
                  | some v => v
                  | none => imovel.enderecoID
    empreendimentoID := match req.empreendimentoID with
                        | some v => some v
                        | none => imovel.empreendimentoID
    plantaID := match req.plantaID with
                | some v => some v
                | none => imovel.plantaID
    corretorPrincipalID := match req.corretorPrincipalID with
                           | some v => some v
                           | none => imovel.corretorPrincipalID
    pacoteID := match req.pacoteID with
                | some v => some v
                | none => imovel.pacoteID
    precoVendaID := match req.precoVendaID with
                    | some v => some v
                    | none => imovel.precoVendaID
    precoAluguelID := match req.precoAluguelID with
                      | some v => some v
                      | none => imovel.precoAluguelID
    status := if req.status ≠ "" then req.status else imovel.status
    published := match req.published with
                 | some v => v
                 | none => imovel.published
    closed := match req.closed with
              | some v => v
              | none => imovel.closed }

/-- `repository.Update` persistence semantics: GORM `Updates` with a struct
argument skips zero-valued fields, so a column keeps its old value whenever
the in-memory field is the type's zero value ("" / 0 / false / NULL-as-0).
The primary key is the WHERE clause, never part of the SET. -/
def updatesNonZero (old m : Imovel) : Imovel :=
  { id := old.id
    idIntegracao := if m.idIntegracao ≠ "" then m.idIntegracao else old.idIntegracao
    titulo := if m.titulo ≠ "" then m.titulo else old.titulo
    codigo := if m.codigo ≠ "" then m.codigo else old.codigo
    tipo := if m.tipo ≠ "" then m.tipo else old.tipo
    objetivo := if m.objetivo ≠ "" then m.objetivo else old.objetivo
    finalidade := if m.finalidade ≠ "" then m.finalidade else old.finalidade
    descricao := if m.descricao ≠ "" then m.descricao else old.descricao
    metragem := if m.metragem ≠ 0 then m.metragem else old.metragem
    numQuartos := if m.numQuartos ≠ 0 then m.numQuartos else old.numQuartos
    numSuites := if m.numSuites ≠ 0 then m.numSuites else old.numSuites
    numBanheiros := if m.numBanheiros ≠ 0 then m.numBanheiros else old.numBanheiros
    numVagas := if m.numVagas ≠ 0 then m.numVagas else old.numVagas
    numAndar := if m.numAndar ≠ 0 then m.numAndar else old.numAndar
    unidade := if m.unidade ≠ "" then m.unidade else old.unidade
    condominio := if m.condominio ≠ 0 then m.condominio else old.condominio
    iptu := if m.iptu ≠ 0 then m.iptu else old.iptu
    inscricaoIPTU := if m.inscricaoIPTU ≠ "" then m.inscricaoIPTU else old.inscricaoIPTU
    enderecoID := if m.enderecoID ≠ 0 then m.enderecoID else old.enderecoID
    empreendimentoID := if m.empreendimentoID.getD 0 ≠ 0 then some (m.empreendimentoID.getD 0) else old.empreendimentoID
    precoVendaID := if m.precoVendaID.getD 0 ≠ 0 then some (m.precoVendaID.getD 0) else old.precoVendaID
    precoAluguelID := if m.precoAluguelID.getD 0 ≠ 0 then some (m.precoAluguelID.getD 0) else old.precoAluguelID
    plantaID := if m.plantaID.getD 0 ≠ 0 then some (m.plantaID.getD 0) else old.plantaID
    corretorPrincipalID := if m.corretorPrincipalID.getD 0 ≠ 0 then some (m.corretorPrincipalID.getD 0) else old.corretorPrincipalID
    pacoteID := if m.pacoteID.getD 0 ≠ 0 then some (m.pacoteID.getD 0) else old.pacoteID
    status := if m.status ≠ "" then m.status else old.status
    published := if m.published then m.published else old.published
    closed := if m.closed then m.closed else old.closed
    visualizacoes := if m.visualizacoes ≠ 0 then m.visualizacoes else old.visualizacoes
    createdAt := if m.createdAt ≠ 0 then m.createdAt else old.createdAt }

/-- `repository.Update`: persist the in-memory property struct `m` with
GORM `Updates` zero-skip semantics against the row with the same primary
key. -/
def repoUpdateImovel (db : DB) (id : Nat) (m : Imovel) : DB :=
  { db with imoveis := db.imoveis.map (fun r => if r.id = id then updatesNonZero r m else r) }

/-- `service.UpdateImovel`: load by id, optional codigo change with
uniqueness check, guarded field copies, then `repository.Update`. -/
def UpdateImovel (o : Oracle) (db : DB) (id : Nat) (req : UpdateImovelRequest) :
    Except Unit Nat × DB :=
  if id = 0 then (.error (), db)
  else
    match findImovelById db id with
    | none => (.error (), db)
    | some imovel =>
      if req.codigo ≠ "" ∧ req.codigo ≠ imovel.codigo ∧ existsByCodigo db req.codigo then
        (.error (), db)
      else
        let imovel := if req.codigo ≠ "" ∧ req.codigo ≠ imovel.codigo then
                        { imovel with codigo := req.codigo } else imovel
        let m := applyUpdateReq imovel req
        if o.updateFail then (.error (), db)
        else (.ok id, repoUpdateImovel db id m)

/-- `service.AttachEndereco` / `repository.UpdateEndereco`: single-column
update of the property's address reference. -/
def AttachEndereco (o : Oracle) (db : DB) (imovelID enderecoID : Nat) :
    Except Unit Unit × DB :=
  if imovelID = 0 ∨ enderecoID = 0 then (.error (), db)
  else
    match findImovelById db imovelID with
    | none => (.error (), db)
    | some _ =>
      if o.endAttachFail then (.error (), db)
      else
        (.ok (),
          { db with imoveis := db.imoveis.map (fun r => if r.id = imovelID then { r with enderecoID := enderecoID } else r) })

/-- `service.AddAnexo` / `repository.AddAnexo`: verify the property exists,
point the attachment at it and insert (the empreendimento/planta owner
references are nil and omitted). -/
def AddAnexo (failFlag : Bool) (db : DB) (imovelID : Nat) (a : Anexo) :
    Except Unit Unit × DB :=
  if imovelID = 0 then (.error (), db)
  else
    match findImovelById db imovelID with
    | none => (.error (), db)
    | some _ =>
      if failFlag then (.error (), db)
      else
        let row := { a with id := db.nextAnexoId, imovelID := imovelID, deleted := false }
        (.ok (), { db with anexos := db.anexos ++ [row], nextAnexoId := db.nextAnexoId + 1 })

end Imoveis

namespace Imoveis

/-! ### Attachment synchronization (import_service.go) -/

/-- The `for i, imageURL := range imageURLs` loop of `syncAnexosFromImages`:
one new attachment per URL, named by its 1-based position, marked
image / external-url / can-publish; the loop aborts on the first failed add. -/
def addAnexosLoop (o : Oracle) (db : DB) (imovelID : Nat) (i : Nat) :
    List String → Except Unit Unit × DB
  | [] => (.ok (), db)
  | imageURL :: rest =>
    let anexo : Anexo :=
      { id := 0, nome := "Image " ++ toString (i + 1), url := imageURL, tipo := "image"
        image := true, video := false, isExternalURL := true, canPublish := true
        imovelID := 0, deleted := false }
    match AddAnexo (o.anexoAddFailAt == some i) db imovelID anexo with
    | (.error _, db1) => (.error (), db1)
    | (.ok _, db1) => addAnexosLoop o db1 imovelID (i + 1) rest

/-- `syncAnexosFromImages`: step 1 deletes every attachment of the property
(`db.Where("imovel_id = ?").Delete(&Anexo)` — a GORM soft delete, because
`Anexo` has a `DeletedAt` column); step 2 recreates one attachment per
current external image URL, in input order. -/
def syncAnexosFromImages (o : Oracle) (db : DB) (imovelID : Nat)
    (imageURLs : List String) : Except Unit Unit × DB :=
  if o.anexoDeleteFail then (.error (), db)
  else
    let db1 :=
      { db with
        anexos := db.anexos.map (fun a =>
          if a.imovelID == imovelID && !a.deleted then { a with deleted := true } else a) }
    addAnexosLoop o db1 imovelID 0 imageURLs

/-- `upsertEndereco`: create a fresh address row, then attach it. -/
def upsertEndereco (o : Oracle) (db : DB) (imovelID : Nat) (ext : ExternalEndereco) :
    Except Unit Unit × DB :=
  match createEndereco o db ext with
  | (.error _, db1) => (.error (), db1)
  | (.ok enderecoID, db1) =>
    match AttachEndereco o db1 imovelID enderecoID with
    | (.error _, db2) => (.error (), db2)
    | (.ok _, db2) => (.ok (), db2)

/-! ### The property reconciler (upsertImovelAndRelationships) -/

/-- Step labels, recorded in invocation order by the reconciler. -/
inductive Ev where
  | empUpsert
  | pvUpsert
  | paUpsert
  | corUpsert
  | endUpsert
  | endCreate
  | imovelCreate
  | imovelUpdate
  | anexoSync
  deriving Repr, DecidableEq

/-- `var empreendimentoID uint; if ext.Empreendimento != nil { ... }`:
the resolved local id, 0 when absent or when the upsert failed (logged). -/
def resolveEmpreendimento (o : Oracle) (db : DB) (ext : Option ExternalEmpreendimento) :
    Nat × DB × List Ev :=
  match ext with
  | none => (0, db, [])
  | some _ =>
    match upsertEmpreendimento o db ext with
    | (.ok i, db1) => (i, db1, [.empUpsert])
    | (.error _, db1) => (0, db1, [.empUpsert])

/-- `var precoVendaID uint; if ext.PrecoVenda != nil && ext.PrecoVenda.Ativo { ... }`. -/
def resolvePrecoVenda (o : Oracle) (db : DB) (ext : Option ExternalPrecoVenda) :
    Nat × DB × List Ev :=
  match ext with
  | none => (0, db, [])
  | some pv =>
    if pv.ativo then
      match upsertPrecoVenda o db ext with
      | (.ok i, db1) => (i, db1, [.pvUpsert])
      | (.error _, db1) => (0, db1, [.pvUpsert])
    else (0, db, [])

/-- `var precoAluguelID uint; if ext.PrecoAluguel != nil && ext.PrecoAluguel.Ativo { ... }`. -/
def resolvePrecoAluguel (o : Oracle) (db : DB) (ext : Option ExternalPrecoAluguel) :
    Nat × DB × List Ev :=
  match ext with
  | none => (0, db, [])
  | some pa =>
    if pa.ativo then
      match upsertPrecoAluguel o db ext with
      | (.ok i, db1) => (i, db1, [.paUpsert])
      | (.error _, db1) => (0, db1, [.paUpsert])
    else (0, db, [])

/-- `var corretorPrincipalID uint; if ext.CorretorPrincipal.Email != "" { ... }`. -/
def resolveCorretorPrincipal (o : Oracle) (db : DB) (ext : ExternalCorretor) :
    Nat × DB × List Ev :=
  if ext.email ≠ "" then
    match upsertCorretorPrincipal o db ext with
    | (.ok i, db1) => (i, db1, [.corUpsert])
    | (.error _, db1) => (0, db1, [.corUpsert])
  else (0, db, [])

/-- `transformExternalToCreateRequest`: map the external detail to a creation
request, defaulting an empty description and keeping only non-zero resolved
relationship ids. -/
def transformExternalToCreateRequest (ext : ExternalDetailedImovel)
    (enderecoID empreendimentoID precoVendaID precoAluguelID corretorPrincipalID : Nat) :
    CreateImovelRequest :=
  let descricao := if ext.descricao = "" then ext.titulo ++ " - " ++ ext.tipo else ext.descricao
  { idIntegracao := toString ext.id
    titulo := ext.titulo, codigo := ext.codigo, tipo := ext.tipo
    objetivo := ext.objetivo, finalidade := ext.finalidade, descricao := descricao
    metragem := ext.metragem
    numQuartos := ext.numQuartos, numSuites := ext.numSuites
    numBanheiros := ext.numBanheiros, numVagas := ext.numVagas, numAndar := ext.numAndar
    unidade := ext.unidade, condominio := ext.condominio
    enderecoID := enderecoID
    corretorPrincipalID := corretorPrincipalID
    empreendimentoID := if empreendimentoID ≠ 0 then empreendimentoID else 0
    precoVendaID := if precoVendaID ≠ 0 then precoVendaID else 0
    precoAluguelID := if precoAluguelID ≠ 0 then precoAluguelID else 0 }

/-- Result of one reconciliation: the Go `(*ImovelResponse, error)` pair
(reduced to the local property id its callers use), the database state at
return, and the recorded step trace. -/
structure RecResult where
  res : Except Unit Nat
  db : DB
  trace : List Ev
  deriving Repr

/-- The `updateReq := &UpdateImovelRequest{...}` literal the reconciler
builds on the update branch: all scalar business fields from the external
record, and each relationship pointer set only when the resolved id is
non-zero. -/
def buildImportUpdateReq (ext : ExternalDetailedImovel)
    (empreendimentoID precoVendaID precoAluguelID corretorPrincipalID : Nat) :
    UpdateImovelRequest :=
  { titulo := ext.titulo, tipo := ext.tipo, objetivo := ext.objetivo
    finalidade := ext.finalidade, descricao := ext.descricao
    metragem := some ext.metragem
    numQuartos := some ext.numQuartos, numSuites := some ext.numSuites
    numBanheiros := some ext.numBanheiros, numVagas := some ext.numVagas
    numAndar := some ext.numAndar
    unidade := ext.unidade, condominio := some ext.condominio
    empreendimentoID := if empreendimentoID ≠ 0 then some empreendimentoID else none
    precoVendaID := if precoVendaID ≠ 0 then some precoVendaID else none
    precoAluguelID := if precoAluguelID ≠ 0 then some precoAluguelID else none
    corretorPrincipalID := if corretorPrincipalID ≠ 0 then some corretorPrincipalID else none }

/-- The update branch's `if ext.Endereco.Rua != "" { upsertEndereco(...) }`
step (failure logged and ignored). -/
def updateEnderecoStep (o : Oracle) (db5 : DB) (imovelID : Nat)
    (endereco : ExternalEndereco) : List Ev × DB :=
  if endereco.rua ≠ "" then
    match upsertEndereco o db5 imovelID endereco with
    | (_, db6) => ([Ev.endUpsert], db6)
  else ([], db5)

/-- The create branch's `if ext.Endereco.Rua != "" { enderecoID, err =
createEndereco(...); if err != nil { return nil, err } }` step: fatal on
failure, id 0 when there is no address. -/
def createEnderecoStep (o : Oracle) (db4 : DB) (endereco : ExternalEndereco) :
    Except Unit Nat × DB × List Ev :=
  if endereco.rua ≠ "" then
    match createEndereco o db4 endereco with
    | (.ok eid, db5) => (.ok eid, db5, [Ev.endCreate])
    | (.error _, db5) => (.error (), db5, [Ev.endCreate])
  else (.ok 0, db4, [])

/-- `upsertImovelAndRelationships`: resolve Development, SalePrice, RentPrice
and Broker first (failures logged, id left 0), then update or create the
property row, then (update path) re-create and re-attach a fresh address, and
finally synchronize attachments (failure logged). -/
def upsertImovelAndRelationships (o : Oracle) (db : DB) (imovelID : Nat)
    (ext : ExternalDetailedImovel) (isUpdate : Bool) : RecResult :=
  let (empreendimentoID, db1, t1) := resolveEmpreendimento o db ext.empreendimento
  let (precoVendaID, db2, t2) := resolvePrecoVenda o db1 ext.precoVenda
  let (precoAluguelID, db3, t3) := resolvePrecoAluguel o db2 ext.precoAluguel
  let (corretorPrincipalID, db4, t4) := resolveCorretorPrincipal o db3 ext.corretorPrincipal
  let t := t1 ++ t2 ++ t3 ++ t4
  if isUpdate then
    let updateReq := buildImportUpdateReq ext empreendimentoID precoVendaID
      precoAluguelID corretorPrincipalID
    match UpdateImovel o db4 imovelID updateReq with
    | (.error _, db5) => ⟨.error (), db5, t ++ [.imovelUpdate]⟩
    | (.ok _, db5) =>
      let (endTrace, db6) := updateEnderecoStep o db5 imovelID ext.endereco
      let (_, db7) := syncAnexosFromImages o db6 imovelID ext.imagens
      ⟨.ok imovelID, db7, t ++ [.imovelUpdate] ++ endTrace ++ [.anexoSync]⟩
  else
    match createEnderecoStep o db4 ext.endereco with
    | (.error _, db5, t5) => ⟨.error (), db5, t ++ t5⟩
    | (.ok enderecoID, db5, t5) =>
      let createReq := transformExternalToCreateRequest ext enderecoID
        empreendimentoID precoVendaID precoAluguelID corretorPrincipalID
      match CreateImovel o db5 createReq with
      | (.error _, db6) => ⟨.error (), db6, t ++ t5 ++ [.imovelCreate]⟩
      | (.ok newId, db6) =>
        let (_, db7) := syncAnexosFromImages o db6 newId ext.imagens
        ⟨.ok newId, db7, t ++ t5 ++ [.imovelCreate, .anexoSync]⟩

/-! ### The batch driver (ImportPublishedProperties) -/

/-- The environment of one batch invocation: the published-list fetch (an
HTTP call that either fails or yields the summaries, of which the driver only
reads the external id), the per-id detail fetch (`none` = failed fetch), and
the per-item persistence oracle. -/
structure FetchEnv where
  list : Except Unit (List Nat)
  detail : Nat → Option ExternalDetailedImovel
  oracle : Nat → Oracle

/-- Per-item classification inside the driver loop. -/
inductive Outcome where
  | created
  | updated
  | failed
  deriving Repr, DecidableEq

/-- Aggregated batch counters (`successCount`, `updateCount`, `errorCount`). -/
structure Counts where
  created : Nat
  updated : Nat
  failed : Nat
  deriving Repr, DecidableEq

/-- One iteration of the driver loop: fetch the detail, look the property up
by `IdIntegracao` (`err == nil && existingImovel != nil` selects the update
branch; a not-found or failed lookup falls to the create branch), and run the
reconciler. -/
def processItem (env : FetchEnv) (db : DB) (sid : Nat) : Outcome × DB :=
  match env.detail sid with
  | none => (.failed, db)
  | some detailedImovel =>
    let idIntegracao := toString detailedImovel.id
    match findImovelByKey db idIntegracao with
    | some existingImovel =>
      match upsertImovelAndRelationships (env.oracle sid) db existingImovel.id detailedImovel true with
      | ⟨.ok _, db1, _⟩ => (.updated, db1)
      | ⟨.error _, db1, _⟩ => (.failed, db1)
    | none =>
      match upsertImovelAndRelationships (env.oracle sid) db 0 detailedImovel false with
      | ⟨.ok _, db1, _⟩ => (.created, db1)
      | ⟨.error _, db1, _⟩ => (.failed, db1)

/-- The driver loop over the summary list, aggregating the three counters. -/
def processItems (env : FetchEnv) : DB → List Nat → Counts × DB
  | db, [] => (⟨0, 0, 0⟩, db)
  | db, sid :: rest =>
    let (outcome, db1) := processItem env db sid
    let (c, db2) := processItems env db1 rest
    (match outcome with
     | .created => ⟨c.created + 1, c.updated, c.failed⟩
     | .updated => ⟨c.created, c.updated + 1, c.failed⟩
     | .failed => ⟨c.created, c.updated, c.failed + 1⟩, db2)

/-- The per-item outcome sequence of the same loop (used to state batch
properties; it is the loop's classification trace). -/
def outcomeTrace (env : FetchEnv) : DB → List Nat → List Outcome
  | _, [] => []
  | db, sid :: rest =>
    let (outcome, db1) := processItem env db sid
    outcome :: outcomeTrace env db1 rest

/-- The value `ImportPublishedProperties` returns in place of Go's `error`:
`nilReturn` stands for a nil error (the function has no code path producing
it), the two fatal-to-batch errors keep their identity, and `completed`
carries the three counts embedded in the final
`"import completed: %d created, %d updated, %d failed"` message. -/
inductive ImportReturn where
  | nilReturn
  | fetchFailed
  | noProperties
  | completed (created updated failed : Nat)
  deriving Repr, DecidableEq

/-- `ImportPublishedProperties`: fetch the published list (fatal on failure
or emptiness), process every item with per-item isolation, and return the
aggregate tally as a non-nil error value. -/
def ImportPublishedProperties (env : FetchEnv) (db : DB) : ImportReturn × DB :=
  match env.list with
  | .error _ => (.fetchFailed, db)
  | .ok properties =>
    if properties.length = 0 then (.noProperties, db)
    else
      let (c, db1) := processItems env db properties
      (.completed c.created c.updated c.failed, db1)

end Imoveis

namespace Imoveis

/-! ### Generic list lemmas used throughout -/

/-- `find?` over a keyed map that preserves the predicate: the first match is
the mapped first match. -/
theorem find?_map_pred_comm {α : Type} (f : α → α) (p : α → Bool)
    (l : List α) (hf : ∀ a, p (f a) = p a) :
    (l.map f).find? p = (l.find? p).map f := by
  induction l with
  | nil => rfl
  | cons a l ih =>
    by_cases h : p a
    · simp [List.find?_cons_of_pos, h, hf a]
    · have h' : ¬ p (f a) = true := by rw [hf a]; exact h
      simp only [List.map_cons]
      rw [List.find?_cons_of_neg _ h', List.find?_cons_of_neg _ h]
      exact ih

/-- Appending rows does not change the first match when one exists. -/
theorem find?_append_some {α : Type} {p : α → Bool} {l₁ : List α} {r : α}
    (l₂ : List α) (h : l₁.find? p = some r) :
    (l₁ ++ l₂).find? p = some r := by
  rw [List.find?_append, h]; rfl

/-- Appending rows when no match exists searches the appended part. -/
theorem find?_append_none {α : Type} {p : α → Bool} {l₁ : List α}
    (l₂ : List α) (h : l₁.find? p = none) :
    (l₁ ++ l₂).find? p = l₂.find? p := by
  rw [List.find?_append, h]; rfl

end Imoveis

namespace Imoveis

/-! ## C9 — completion signalled as an error -/

/-- C9: `ImportPublishedProperties` returns a non-nil error on every run that
gets past the list fetch — even when every item succeeds — and that error
carries the aggregated created, updated and failed counts of the driver loop;
a nil return never occurs on this path. -/
theorem c9_completion_signalled_as_error (env : FetchEnv) (db : DB) :
    (ImportPublishedProperties env db).1 ≠ ImportReturn.nilReturn ∧
    (∀ l, env.list = Except.ok l → l.length ≠ 0 →
      ImportPublishedProperties env db =
        (ImportReturn.completed (processItems env db l).1.created
            (processItems env db l).1.updated (processItems env db l).1.failed,
          (processItems env db l).2)) := by
  constructor
  · unfold ImportPublishedProperties
    cases henv : env.list with
    | error e => simp
    | ok l =>
      by_cases hl : l.length = 0
      · simp [hl]
      · simp only [hl, if_false]
        rcases hp : processItems env db l with ⟨c, db1⟩
        simp
  · intro l henv hl
    unfold ImportPublishedProperties
    rw [henv]
    dsimp only
    rw [if_neg hl]

/-- A one-item environment whose single detail fetch fails. -/
def c9Env : FetchEnv :=
  { list := .ok [1], detail := fun _ => none, oracle := fun _ => Oracle.ok }

/-- Witness for C9 at a concrete environment: the returned value is the
non-nil `completed` error carrying the counts (here 0 created, 0 updated,
1 failed). -/
theorem c9_completion_signalled_as_error_witness :
    (ImportPublishedProperties c9Env DB.empty).1 ≠ ImportReturn.nilReturn ∧
    ImportPublishedProperties c9Env DB.empty =
      (ImportReturn.completed 0 0 1, DB.empty) := by
  refine ⟨(c9_completion_signalled_as_error c9Env DB.empty).1, ?_⟩
  have h := (c9_completion_signalled_as_error c9Env DB.empty).2 [1] rfl (by decide)
  rw [h]
  rfl

end Imoveis

namespace Imoveis

/-! ## C5 — attachment replacement -/

/-- The attachment rows the sync loop creates for `urls`: 1-based name index
starting at `i + 1`, ids starting at `startId`, all image / external-url /
can-publish, owned by `pid`, live. -/
def mkSyncAnexos (pid : Nat) : Nat → Nat → List String → List Anexo
  | _, _, [] => []
  | i, startId, u :: rest =>
    { id := startId, nome := "Image " ++ toString (i + 1), url := u, tipo := "image"
      image := true, video := false, isExternalURL := true, canPublish := true
      imovelID := pid, deleted := false } :: mkSyncAnexos pid (i + 1) (startId + 1) rest

theorem mkSyncAnexos_length (pid : Nat) :
    ∀ (i s : Nat) (urls : List String), (mkSyncAnexos pid i s urls).length = urls.length := by
  intro i s urls
  induction urls generalizing i s with
  | nil => rfl
  | cons u rest ih => simp [mkSyncAnexos, ih]

theorem mkSyncAnexos_mem (pid : Nat) :
    ∀ (i s : Nat) (urls : List String) (b : Anexo), b ∈ mkSyncAnexos pid i s urls →
      b.imovelID = pid ∧ b.deleted = false := by
  intro i s urls
  induction urls generalizing i s with
  | nil => intro b hb; simp [mkSyncAnexos] at hb
  | cons u rest ih =>
    intro b hb
    simp only [mkSyncAnexos, List.mem_cons] at hb
    rcases hb with hb | hb
    · subst hb; exact ⟨rfl, rfl⟩
    · exact ih _ _ b hb

/-- Characterization of the insertion loop when no add fails and the
property exists: it appends exactly the `mkSyncAnexos` rows and bumps the
attachment sequence. -/
theorem addAnexosLoop_ok (o : Oracle) (pid : Nat) (hadd : o.anexoAddFailAt = none)
    (hpid : pid ≠ 0) :
    ∀ (urls : List String) (db : DB) (i : Nat),
    (findImovelById db pid).isSome →
    addAnexosLoop o db pid i urls =
      (.ok (), { db with anexos := db.anexos ++ mkSyncAnexos pid i db.nextAnexoId urls
                         nextAnexoId := db.nextAnexoId + urls.length }) := by
  intro urls
  induction urls with
  | nil =>
    intro db i hex
    simp [addAnexosLoop, mkSyncAnexos]
  | cons u rest ih =>
    intro db i hex
    obtain ⟨r, hr⟩ := Option.isSome_iff_exists.mp hex
    unfold addAnexosLoop AddAnexo
    simp only [hr, hadd, if_neg hpid,
      show ∀ j : Nat, ((none : Option Nat) == some j) = false from fun _ => rfl,
      Bool.false_eq_true, if_false]
    rw [ih _ (i + 1) (by exact hex)]
    simp [mkSyncAnexos, List.append_assoc]
    omega

/-- C5 (amended): for every property id and URL list, the attachment
synchronization first soft-deletes every live attachment row owned by the
property (the rows stay in the table, flagged deleted and invisible to
further reads), then inserts one new attachment per URL in input order, each
marked image / external-url / can-publish; afterwards the property's live
attachment set is exactly the new rows, its count equals the URL list length,
and every pre-existing live row remains in the table only as a soft-deleted
record. -/
theorem c5_attachment_replacement (o : Oracle) (db : DB) (pid : Nat) (urls : List String)
    (hdel : o.anexoDeleteFail = false) (hadd : o.anexoAddFailAt = none)
    (hpid : pid ≠ 0) (hex : (findImovelById db pid).isSome) :
    (syncAnexosFromImages o db pid urls).1 = .ok () ∧
    anexosLive (syncAnexosFromImages o db pid urls).2 pid =
      mkSyncAnexos pid 0 db.nextAnexoId urls ∧
    (anexosLive (syncAnexosFromImages o db pid urls).2 pid).length = urls.length ∧
    (∀ a ∈ db.anexos, a.imovelID = pid → a.deleted = false →
      { a with deleted := true } ∈ (syncAnexosFromImages o db pid urls).2.anexos) := by
  have hloop := addAnexosLoop_ok o pid hadd hpid urls
    { db with anexos := db.anexos.map (fun a =>
        if a.imovelID == pid && !a.deleted then { a with deleted := true } else a) }
    0 (by exact hex)
  have hsync : syncAnexosFromImages o db pid urls =
      (.ok (), { db with
        anexos := db.anexos.map (fun a =>
          if a.imovelID == pid && !a.deleted then { a with deleted := true } else a) ++
          mkSyncAnexos pid 0 db.nextAnexoId urls
        nextAnexoId := db.nextAnexoId + urls.length }) := by
    unfold syncAnexosFromImages
    rw [hdel]
    dsimp only [Bool.false_eq_true, if_false]
    rw [hloop]
    rfl
  have hlive : anexosLive (syncAnexosFromImages o db pid urls).2 pid =
      mkSyncAnexos pid 0 db.nextAnexoId urls := by
    rw [hsync]
    show List.filter _ (_ ++ _) = _
    rw [List.filter_append]
    have h1 : (db.anexos.map (fun a =>
        if a.imovelID == pid && !a.deleted then { a with deleted := true } else a)).filter
        (fun a => a.imovelID == pid && !a.deleted) = [] := by
      rw [List.filter_eq_nil_iff]
      intro b hb
      rw [List.mem_map] at hb
      obtain ⟨a, _, hfa⟩ := hb
      by_cases hc : (a.imovelID == pid && !a.deleted) = true
      · rw [if_pos hc] at hfa
        subst hfa
        simp
      · rw [if_neg hc] at hfa
        subst hfa
        exact hc
    have h2 : (mkSyncAnexos pid 0 db.nextAnexoId urls).filter
        (fun a => a.imovelID == pid && !a.deleted) = mkSyncAnexos pid 0 db.nextAnexoId urls := by
      rw [List.filter_eq_self]
      intro b hb
      obtain ⟨h1', h2'⟩ := mkSyncAnexos_mem pid 0 db.nextAnexoId urls b hb
      simp [h1', h2']
    rw [h1, h2]
    rfl
  refine ⟨by rw [hsync], hlive, ?_, ?_⟩
  · rw [hlive, mkSyncAnexos_length]
  · intro a ha hapid halive
    rw [hsync]
    show _ ∈ _ ++ _
    apply List.mem_append_left
    have hfa : (fun a => if a.imovelID == pid && !a.deleted then { a with deleted := true } else a) a
        = { a with deleted := true } := by
      show (if a.imovelID == pid && !a.deleted then { a with deleted := true } else a) = _
      rw [if_pos (by simp [hapid, halive])]
    rw [← hfa]
    exact List.mem_map_of_mem _ ha

/-- A concrete property row (id 1). -/
def c5Row : Imovel :=
  { id := 1, idIntegracao := "900", titulo := "T", codigo := "AP1", tipo := "CASA"
    objetivo := "VENDER", finalidade := "RESIDENCIAL", descricao := "D", metragem := 1
    numQuartos := 0, numSuites := 0, numBanheiros := 0, numVagas := 0, numAndar := 0
    unidade := "", condominio := 0, iptu := 0, inscricaoIPTU := "", enderecoID := 0
    empreendimentoID := none, precoVendaID := some 1, precoAluguelID := none, plantaID := none
    corretorPrincipalID := none, pacoteID := none, status := "EM_EDICAO", published := false
    closed := false, visualizacoes := 0, createdAt := 1 }

/-- A concrete live attachment row (id 1, url "A") owned by property 1. -/
def c5OldAnexo : Anexo :=
  { id := 1, nome := "Image 1", url := "A", tipo := "image", image := true
    video := false, isExternalURL := true, canPublish := true, imovelID := 1, deleted := false }

/-- A database with one property (id 1) owning one live attachment with
url "A". -/
def c5Db : DB :=
  { DB.empty with
    imoveis := [c5Row]
    anexos := [c5OldAnexo]
    nextImovelId := 2, nextAnexoId := 2 }

/-- C5 counterexample: re-importing property 1 (which owns attachment "A")
with image list ["B"] leaves the pre-existing attachment row in the
attachments table — it is soft-deleted, not removed — contradicting the
claim's "hard delete" / "none of the pre-existing attachment rows remain". -/
theorem c5_attachment_replacement_cex :
    { c5OldAnexo with deleted := true }
      ∈ (syncAnexosFromImages Oracle.ok c5Db 1 ["B"]).2.anexos := by decide

/-- Witness for C5 (amended) at a concrete database: sync succeeds, the live
attachment set becomes exactly the one new "B" row, and the old "A" row
survives only as a soft-deleted record. -/
theorem c5_attachment_replacement_witness :
    (syncAnexosFromImages Oracle.ok c5Db 1 ["B"]).1 = .ok () ∧
    anexosLive (syncAnexosFromImages Oracle.ok c5Db 1 ["B"]).2 1 =
      mkSyncAnexos 1 0 c5Db.nextAnexoId ["B"] ∧
    (anexosLive (syncAnexosFromImages Oracle.ok c5Db 1 ["B"]).2 1).length = 1 ∧
    (∀ a ∈ c5Db.anexos, a.imovelID = 1 → a.deleted = false →
      { a with deleted := true } ∈ (syncAnexosFromImages Oracle.ok c5Db 1 ["B"]).2.anexos) :=
  c5_attachment_replacement Oracle.ok c5Db 1 ["B"] rfl rfl (by decide) (by decide)

end Imoveis

namespace Imoveis

/-- `db'` differs from `db` at most in the empreendimento table and its
sequence. -/
def OnlyEmp (db db' : DB) : Prop :=
  db'.imoveis = db.imoveis ∧ db'.precoVendas = db.precoVendas ∧
  db'.precoAlugueis = db.precoAlugueis ∧ db'.corretores = db.corretores ∧
  db'.organizacoes = db.organizacoes ∧ db'.enderecos = db.enderecos ∧
  db'.anexos = db.anexos ∧ db'.nextImovelId = db.nextImovelId ∧
  db'.nextPvId = db.nextPvId ∧ db'.nextPaId = db.nextPaId ∧
  db'.nextCorId = db.nextCorId ∧ db'.nextOrgId = db.nextOrgId ∧
  db'.nextEndId = db.nextEndId ∧ db'.nextAnexoId = db.nextAnexoId ∧
  db'.clock = db.clock

/-- `db'` differs from `db` at most in the sale-price table and sequence. -/
def OnlyPv (db db' : DB) : Prop :=
  db'.imoveis = db.imoveis ∧ db'.empreendimentos = db.empreendimentos ∧
  db'.precoAlugueis = db.precoAlugueis ∧ db'.corretores = db.corretores ∧
  db'.organizacoes = db.organizacoes ∧ db'.enderecos = db.enderecos ∧
  db'.anexos = db.anexos ∧ db'.nextImovelId = db.nextImovelId ∧
  db'.nextEmpId = db.nextEmpId ∧ db'.nextPaId = db.nextPaId ∧
  db'.nextCorId = db.nextCorId ∧ db'.nextOrgId = db.nextOrgId ∧
  db'.nextEndId = db.nextEndId ∧ db'.nextAnexoId = db.nextAnexoId ∧
  db'.clock = db.clock

/-- `db'` differs from `db` at most in the rent-price table and sequence. -/
def OnlyPa (db db' : DB) : Prop :=
  db'.imoveis = db.imoveis ∧ db'.empreendimentos = db.empreendimentos ∧
  db'.precoVendas = db.precoVendas ∧ db'.corretores = db.corretores ∧
  db'.organizacoes = db.organizacoes ∧ db'.enderecos = db.enderecos ∧
  db'.anexos = db.anexos ∧ db'.nextImovelId = db.nextImovelId ∧
  db'.nextEmpId = db.nextEmpId ∧ db'.nextPvId = db.nextPvId ∧
  db'.nextCorId = db.nextCorId ∧ db'.nextOrgId = db.nextOrgId ∧
  db'.nextEndId = db.nextEndId ∧ db'.nextAnexoId = db.nextAnexoId ∧
  db'.clock = db.clock

/-- `db'` differs from `db` at most in the organization table and sequence. -/
def OnlyOrg (db db' : DB) : Prop :=
  db'.imoveis = db.imoveis ∧ db'.empreendimentos = db.empreendimentos ∧
  db'.precoVendas = db.precoVendas ∧ db'.precoAlugueis = db.precoAlugueis ∧
  db'.corretores = db.corretores ∧ db'.enderecos = db.enderecos ∧
  db'.anexos = db.anexos ∧ db'.nextImovelId = db.nextImovelId ∧
  db'.nextEmpId = db.nextEmpId ∧ db'.nextPvId = db.nextPvId ∧
  db'.nextPaId = db.nextPaId ∧ db'.nextCorId = db.nextCorId ∧
  db'.nextEndId = db.nextEndId ∧ db'.nextAnexoId = db.nextAnexoId ∧
  db'.clock = db.clock

/-- `db'` differs from `db` at most in the broker and organization tables and
their sequences. -/
def OnlyCorOrg (db db' : DB) : Prop :=
  db'.imoveis = db.imoveis ∧ db'.empreendimentos = db.empreendimentos ∧
  db'.precoVendas = db.precoVendas ∧ db'.precoAlugueis = db.precoAlugueis ∧
  db'.enderecos = db.enderecos ∧ db'.anexos = db.anexos ∧
  db'.nextImovelId = db.nextImovelId ∧ db'.nextEmpId = db.nextEmpId ∧
  db'.nextPvId = db.nextPvId ∧ db'.nextPaId = db.nextPaId ∧
  db'.nextEndId = db.nextEndId ∧ db'.nextAnexoId = db.nextAnexoId ∧
  db'.clock = db.clock

theorem upsertEmp_frame (o : Oracle) (db : DB) (x : Option ExternalEmpreendimento) :
    OnlyEmp db (upsertEmpreendimento o db x).2 := by
  unfold upsertEmpreendimento
  dsimp only
  repeat' split
  all_goals exact ⟨rfl, rfl, rfl, rfl, rfl, rfl, rfl, rfl, rfl, rfl, rfl, rfl, rfl, rfl, rfl⟩

theorem resolveEmp_frame (o : Oracle) (db : DB) (x : Option ExternalEmpreendimento) :
    OnlyEmp db (resolveEmpreendimento o db x).2.1 := by
  unfold resolveEmpreendimento
  rcases x with _ | e
  · exact ⟨rfl, rfl, rfl, rfl, rfl, rfl, rfl, rfl, rfl, rfl, rfl, rfl, rfl, rfl, rfl⟩
  · have h := upsertEmp_frame o db (some e)
    dsimp only
    split
    · next i db1 heq => rw [show db1 = (upsertEmpreendimento o db (some e)).2 from by rw [heq]]; exact h
    · next db1 heq => rw [show db1 = (upsertEmpreendimento o db (some e)).2 from by rw [heq]]; exact h

theorem upsertPv_frame (o : Oracle) (db : DB) (x : Option ExternalPrecoVenda) :
    OnlyPv db (upsertPrecoVenda o db x).2 := by
  unfold upsertPrecoVenda
  dsimp only
  repeat' split
  all_goals exact ⟨rfl, rfl, rfl, rfl, rfl, rfl, rfl, rfl, rfl, rfl, rfl, rfl, rfl, rfl, rfl⟩

theorem resolvePv_frame (o : Oracle) (db : DB) (x : Option ExternalPrecoVenda) :
    OnlyPv db (resolvePrecoVenda o db x).2.1 := by
  unfold resolvePrecoVenda
  rcases x with _ | pv
  · exact ⟨rfl, rfl, rfl, rfl, rfl, rfl, rfl, rfl, rfl, rfl, rfl, rfl, rfl, rfl, rfl⟩
  · have h := upsertPv_frame o db (some pv)
    dsimp only
    split
    · split
      · next i db1 heq => rw [show db1 = (upsertPrecoVenda o db (some pv)).2 from by rw [heq]]; exact h
      · next db1 heq => rw [show db1 = (upsertPrecoVenda o db (some pv)).2 from by rw [heq]]; exact h
    · exact ⟨rfl, rfl, rfl, rfl, rfl, rfl, rfl, rfl, rfl, rfl, rfl, rfl, rfl, rfl, rfl⟩

theorem upsertPa_frame (o : Oracle) (db : DB) (x : Option ExternalPrecoAluguel) :
    OnlyPa db (upsertPrecoAluguel o db x).2 := by
  unfold upsertPrecoAluguel
  dsimp only
  repeat' split
  all_goals exact ⟨rfl, rfl, rfl, rfl, rfl, rfl, rfl, rfl, rfl, rfl, rfl, rfl, rfl, rfl, rfl⟩

theorem resolvePa_frame (o : Oracle) (db : DB) (x : Option ExternalPrecoAluguel) :
    OnlyPa db (resolvePrecoAluguel o db x).2.1 := by
  unfold resolvePrecoAluguel
  rcases x with _ | pa
  · exact ⟨rfl, rfl, rfl, rfl, rfl, rfl, rfl, rfl, rfl, rfl, rfl, rfl, rfl, rfl, rfl⟩
  · have h := upsertPa_frame o db (some pa)
    dsimp only
    split
    · split
      · next i db1 heq => rw [show db1 = (upsertPrecoAluguel o db (some pa)).2 from by rw [heq]]; exact h
      · next db1 heq => rw [show db1 = (upsertPrecoAluguel o db (some pa)).2 from by rw [heq]]; exact h
    · exact ⟨rfl, rfl, rfl, rfl, rfl, rfl, rfl, rfl, rfl, rfl, rfl, rfl, rfl, rfl, rfl⟩

theorem upsertOrg_frame (o : Oracle) (db : DB) (x : ExternalOrganizacao) :
    OnlyOrg db (upsertOrganizacao o db x).2 := by
  unfold upsertOrganizacao
  dsimp only
  repeat' split
  all_goals exact ⟨rfl, rfl, rfl, rfl, rfl, rfl, rfl, rfl, rfl, rfl, rfl, rfl, rfl, rfl, rfl⟩

theorem upsertCor_frame (o : Oracle) (db : DB) (x : ExternalCorretor) :
    OnlyCorOrg db (upsertCorretorPrincipal o db x).2 := by
  unfold upsertCorretorPrincipal
  by_cases he : x.email = ""
  · rw [if_pos he]
    exact ⟨rfl, rfl, rfl, rfl, rfl, rfl, rfl, rfl, rfl, rfl, rfl, rfl, rfl⟩
  · rw [if_neg he]
    rcases horg : (if x.organizacao.nome ≠ "" then upsertOrganizacao o db x.organizacao
        else (.ok 0, db)) with ⟨res, db1⟩
    have hOrg : OnlyOrg db db1 := by
      by_cases hn : x.organizacao.nome ≠ ""
      · rw [if_pos hn] at horg
        rw [show db1 = (upsertOrganizacao o db x.organizacao).2 from by rw [horg]]
        exact upsertOrg_frame o db x.organizacao
      · rw [if_neg hn] at horg
        cases horg
        exact ⟨rfl, rfl, rfl, rfl, rfl, rfl, rfl, rfl, rfl, rfl, rfl, rfl, rfl, rfl, rfl⟩
    obtain ⟨h1, h2, h3, h4, h5, h6, h7, h8, h9, h10, h11, h12, h13, h14, h15⟩ := hOrg
    rcases res with u | organizacaoID
    · exact ⟨h1, h2, h3, h4, h6, h7, h8, h9, h10, h11, h13, h14, h15⟩
    · dsimp only
      rcases hfind : findCorByKey db1 (toString x.id) with _ | corretor
      · dsimp only
        by_cases hc : o.corFail = true
        · rw [if_pos hc]
          exact ⟨h1, h2, h3, h4, h6, h7, h8, h9, h10, h11, h13, h14, h15⟩
        · rw [if_neg hc]
          exact ⟨h1, h2, h3, h4, h6, h7, h8, h9, h10, h11, h13, h14, h15⟩
      · dsimp only
        repeat' split
        all_goals exact ⟨h1, h2, h3, h4, h6, h7, h8, h9, h10, h11, h13, h14, h15⟩

theorem resolveCor_frame (o : Oracle) (db : DB) (x : ExternalCorretor) :
    OnlyCorOrg db (resolveCorretorPrincipal o db x).2.1 := by
  unfold resolveCorretorPrincipal
  by_cases he : x.email ≠ ""
  · have h := upsertCor_frame o db x
    rw [if_pos he]
    split
    · next i db1 heq => rw [show db1 = (upsertCorretorPrincipal o db x).2 from by rw [heq]]; exact h
    · next db1 heq => rw [show db1 = (upsertCorretorPrincipal o db x).2 from by rw [heq]]; exact h
  · rw [if_neg he]
    exact ⟨rfl, rfl, rfl, rfl, rfl, rfl, rfl, rfl, rfl, rfl, rfl, rfl, rfl⟩

end Imoveis

namespace Imoveis

/-- Whether the sale-price resolution step yields a non-zero local id
(present, active, valid external id, and no persistence failure). -/
def pvResolvable (o : Oracle) (x : Option ExternalPrecoVenda) : Bool :=
  match x with
  | some pv => pv.ativo && !(pv.id == 0) && !o.pvFail
  | none => false

/-- Whether the rent-price resolution step yields a non-zero local id. -/
def paResolvable (o : Oracle) (x : Option ExternalPrecoAluguel) : Bool :=
  match x with
  | some pa => pa.ativo && !(pa.id == 0) && !o.paFail
  | none => false

theorem resolvePv_nonzero (o : Oracle) (db : DB) (x : Option ExternalPrecoVenda)
    (hwf : ∀ r ∈ db.precoVendas, r.id ≠ 0) (hn : db.nextPvId ≠ 0) :
    ((resolvePrecoVenda o db x).1 ≠ 0) ↔ pvResolvable o x = true := by
  unfold resolvePrecoVenda pvResolvable upsertPrecoVenda
  rcases x with _ | pv
  · simp
  · dsimp only
    by_cases ha : pv.ativo = true
    · rw [if_pos ha]
      by_cases hid : pv.id = 0
      · rw [if_pos hid]
        simp [ha, hid]
      · rw [if_neg hid]
        rcases hf : findPvByKey db (toString pv.id) with _ | r
        · dsimp only
          by_cases hfl : o.pvFail = true
          · rw [if_pos hfl]; simp [ha, hid, hfl]
          · rw [if_neg hfl]
            simp [ha, hid, hfl, hn]
        · dsimp only
          by_cases hfl : o.pvFail = true
          · rw [if_pos hfl]; simp [ha, hid, hfl]
          · rw [if_neg hfl]
            have := hwf r (List.mem_of_find?_eq_some hf)
            simp [ha, hid, hfl, this]
    · rw [if_neg ha]
      simp [ha]

theorem resolvePa_nonzero (o : Oracle) (db : DB) (x : Option ExternalPrecoAluguel)
    (hwf : ∀ r ∈ db.precoAlugueis, r.id ≠ 0) (hn : db.nextPaId ≠ 0) :
    ((resolvePrecoAluguel o db x).1 ≠ 0) ↔ paResolvable o x = true := by
  unfold resolvePrecoAluguel paResolvable upsertPrecoAluguel
  rcases x with _ | pa
  · simp
  · dsimp only
    by_cases ha : pa.ativo = true
    · rw [if_pos ha]
      by_cases hid : pa.id = 0
      · rw [if_pos hid]
        simp [ha, hid]
      · rw [if_neg hid]
        rcases hf : findPaByKey db (toString pa.id) with _ | r
        · dsimp only
          by_cases hfl : o.paFail = true
          · rw [if_pos hfl]; simp [ha, hid, hfl]
          · rw [if_neg hfl]
            simp [ha, hid, hfl, hn]
        · dsimp only
          by_cases hfl : o.paFail = true
          · rw [if_pos hfl]; simp [ha, hid, hfl]
          · rw [if_neg hfl]
            have := hwf r (List.mem_of_find?_eq_some hf)
            simp [ha, hid, hfl, this]
    · rw [if_neg ha]
      simp [ha]

end Imoveis

namespace Imoveis

/-! ## C3 — reconciler step ordering -/

/-- The six claim-relevant step kinds (address sub-steps are not among the
claim's six ordered steps). -/
def Ev.isCore : Ev → Bool
  | .endUpsert => false
  | .endCreate => false
  | _ => true

/-- Expected trace contribution of the Development step. -/
def empStep (x : Option ExternalEmpreendimento) : List Ev :=
  if x.isSome then [Ev.empUpsert] else []

/-- Expected trace contribution of the SalePrice step (only if present and
active). -/
def pvStep (x : Option ExternalPrecoVenda) : List Ev :=
  match x with
  | some pv => if pv.ativo then [Ev.pvUpsert] else []
  | none => []

/-- Expected trace contribution of the RentPrice step (only if present and
active). -/
def paStep (x : Option ExternalPrecoAluguel) : List Ev :=
  match x with
  | some pa => if pa.ativo then [Ev.paUpsert] else []
  | none => []

/-- Expected trace contribution of the Broker step (only if the email is
non-empty). -/
def corStep (x : ExternalCorretor) : List Ev :=
  if x.email ≠ "" then [Ev.corUpsert] else []

theorem resolveEmp_trace (o : Oracle) (db : DB) (x : Option ExternalEmpreendimento) :
    (resolveEmpreendimento o db x).2.2 = empStep x := by
  unfold resolveEmpreendimento empStep
  rcases x with _ | e
  · rfl
  · dsimp only
    split <;> rfl

theorem resolvePv_trace (o : Oracle) (db : DB) (x : Option ExternalPrecoVenda) :
    (resolvePrecoVenda o db x).2.2 = pvStep x := by
  unfold resolvePrecoVenda pvStep
  rcases x with _ | pv
  · rfl
  · dsimp only
    by_cases ha : pv.ativo = true
    · rw [if_pos ha, if_pos ha]
      split <;> rfl
    · rw [if_neg ha, if_neg ha]

theorem resolvePa_trace (o : Oracle) (db : DB) (x : Option ExternalPrecoAluguel) :
    (resolvePrecoAluguel o db x).2.2 = paStep x := by
  unfold resolvePrecoAluguel paStep
  rcases x with _ | pa
  · rfl
  · dsimp only
    by_cases ha : pa.ativo = true
    · rw [if_pos ha, if_pos ha]
      split <;> rfl
    · rw [if_neg ha, if_neg ha]

theorem resolveCor_trace (o : Oracle) (db : DB) (x : ExternalCorretor) :
    (resolveCorretorPrincipal o db x).2.2 = corStep x := by
  unfold resolveCorretorPrincipal corStep
  by_cases he : x.email ≠ ""
  · rw [if_pos he, if_pos he]
    split <;> rfl
  · rw [if_neg he, if_neg he]

theorem filter_isCore_empStep (x : Option ExternalEmpreendimento) :
    (empStep x).filter Ev.isCore = empStep x := by
  unfold empStep; split <;> rfl

theorem filter_isCore_pvStep (x : Option ExternalPrecoVenda) :
    (pvStep x).filter Ev.isCore = pvStep x := by
  unfold pvStep
  rcases x with _ | pv
  · rfl
  · repeat' split
    all_goals rfl

theorem filter_isCore_paStep (x : Option ExternalPrecoAluguel) :
    (paStep x).filter Ev.isCore = paStep x := by
  unfold paStep
  rcases x with _ | pa
  · rfl
  · repeat' split
    all_goals rfl

theorem filter_isCore_corStep (x : ExternalCorretor) :
    (corStep x).filter Ev.isCore = corStep x := by
  unfold corStep; split <;> rfl

end Imoveis

namespace Imoveis

/-- C3: for every external property detail, a successful reconciliation
performs its steps in the fixed order Development upsert (if present), then
SalePrice upsert (if present and active), then RentPrice upsert (if present
and active), then Broker upsert (if the email is non-empty), then the
property create-or-update, and finally the attachment synchronization —
identically on the create branch and the update branch (the address
sub-steps, which are not among the claim's six steps, are filtered out). -/
theorem c3_reconciler_step_ordering (o : Oracle) (db : DB) (imovelID : Nat)
    (ext : ExternalDetailedImovel) (isUpdate : Bool)
    (hok : ∃ n, (upsertImovelAndRelationships o db imovelID ext isUpdate).res = Except.ok n) :
    (upsertImovelAndRelationships o db imovelID ext isUpdate).trace.filter Ev.isCore =
      empStep ext.empreendimento ++ pvStep ext.precoVenda ++ paStep ext.precoAluguel ++
      corStep ext.corretorPrincipal ++
      [if isUpdate then Ev.imovelUpdate else Ev.imovelCreate] ++ [Ev.anexoSync] := by
  obtain ⟨n, hn⟩ := hok
  unfold upsertImovelAndRelationships at hn ⊢
  rcases h1 : resolveEmpreendimento o db ext.empreendimento with ⟨empreendimentoID, db1, t1⟩
  rcases h2 : resolvePrecoVenda o db1 ext.precoVenda with ⟨precoVendaID, db2, t2⟩
  rcases h3 : resolvePrecoAluguel o db2 ext.precoAluguel with ⟨precoAluguelID, db3, t3⟩
  rcases h4 : resolveCorretorPrincipal o db3 ext.corretorPrincipal with ⟨corretorPrincipalID, db4, t4⟩
  simp only [h1, h2, h3, h4] at hn ⊢
  have ht1 : t1 = empStep ext.empreendimento := by
    have h := resolveEmp_trace o db ext.empreendimento
    rw [h1] at h
    exact h
  have ht2 : t2 = pvStep ext.precoVenda := by
    have h := resolvePv_trace o db1 ext.precoVenda
    rw [h2] at h
    exact h
  have ht3 : t3 = paStep ext.precoAluguel := by
    have h := resolvePa_trace o db2 ext.precoAluguel
    rw [h3] at h
    exact h
  have ht4 : t4 = corStep ext.corretorPrincipal := by
    have h := resolveCor_trace o db3 ext.corretorPrincipal
    rw [h4] at h
    exact h
  cases isUpdate with
  | true =>
    simp only [if_true] at hn ⊢
    rcases h5 : UpdateImovel o db4 imovelID (buildImportUpdateReq ext empreendimentoID
        precoVendaID precoAluguelID corretorPrincipalID) with ⟨r5, db5⟩
    simp only [h5] at hn ⊢
    cases r5 with
    | error u => simp at hn
    | ok m =>
      rcases h6 : updateEnderecoStep o db5 imovelID ext.endereco with ⟨et, db6⟩
      simp only [h6] at hn ⊢
      have hetf : et.filter Ev.isCore = [] := by
        unfold updateEnderecoStep at h6
        by_cases hrua : ext.endereco.rua ≠ ""
        · rw [if_pos hrua] at h6
          rcases h8 : upsertEndereco o db5 imovelID ext.endereco with ⟨r8, d8⟩
          rw [h8] at h6
          cases h6
          rfl
        · rw [if_neg hrua] at h6
          cases h6
          rfl
      rw [ht1, ht2, ht3, ht4]
      simp only [List.filter_append, filter_isCore_empStep, filter_isCore_pvStep,
        filter_isCore_paStep, filter_isCore_corStep, hetf]
      simp [Ev.isCore]
  | false =>
    simp only [Bool.false_eq_true, if_false] at hn ⊢
    rcases h5 : createEnderecoStep o db4 ext.endereco with ⟨r5, db5, t5⟩
    simp only [h5] at hn ⊢
    have ht5 : t5.filter Ev.isCore = [] := by
      unfold createEnderecoStep at h5
      by_cases hrua : ext.endereco.rua ≠ ""
      · rw [if_pos hrua] at h5
        rcases h8 : createEndereco o db4 ext.endereco with ⟨r8, d8⟩
        rw [h8] at h5
        cases r8 with
        | error u => cases h5; rfl
        | ok eid => cases h5; rfl
      · rw [if_neg hrua] at h5
        cases h5
        rfl
    cases r5 with
    | error u => simp at hn
    | ok eid =>
      rcases h6 : CreateImovel o db5 (transformExternalToCreateRequest ext eid
        empreendimentoID precoVendaID precoAluguelID corretorPrincipalID) with ⟨r6, db6⟩
      simp only [h6] at hn ⊢
      cases r6 with
      | error u => simp at hn
      | ok newId =>
        rw [ht1, ht2, ht3, ht4]
        simp only [List.filter_append, filter_isCore_empStep, filter_isCore_pvStep,
          filter_isCore_paStep, filter_isCore_corStep, ht5]
        simp [Ev.isCore]

end Imoveis

namespace Imoveis

/-- A representative external property detail used by concrete witnesses. -/
def extSample : ExternalDetailedImovel :=
  { id := 900, codigo := "AP900", titulo := "Casa", tipo := "CASA", objetivo := "VENDER"
    finalidade := "RESIDENCIAL", descricao := "Uma casa", metragem := 120
    numQuartos := 3, numSuites := 1, numBanheiros := 2, numVagas := 2, numAndar := 0
    unidade := "A", condominio := 10, imagens := ["u1", "u2"]
    endereco := { rua := "Rua X", numero := 5, cidade := "SP" }
    corretorPrincipal := { id := 7, nome := "Ana", email := "a@b.c"
                           organizacao := { nome := "Acme", perfil := "P" } }
    precoVenda := some { id := 55, preco := 100, ativo := true }
    precoAluguel := none
    empreendimento := some { id := 33, titulo := "Emp", descricao := "D", tipo := "CASA"
                             status := "PUBLICADO" } }

/-- Witness for C3 at a concrete input: the create-branch reconciliation of
`extSample` on the empty database succeeds, and its core trace is exactly
the six steps in the claimed order. -/
theorem c3_reconciler_step_ordering_witness :
    (∃ n, (upsertImovelAndRelationships Oracle.ok DB.empty 0 extSample false).res = Except.ok n) ∧
    (upsertImovelAndRelationships Oracle.ok DB.empty 0 extSample false).trace.filter Ev.isCore =
      empStep extSample.empreendimento ++ pvStep extSample.precoVenda ++
      paStep extSample.precoAluguel ++ corStep extSample.corretorPrincipal ++
      [if false then Ev.imovelUpdate else Ev.imovelCreate] ++ [Ev.anexoSync] :=
  ⟨⟨1, rfl⟩, c3_reconciler_step_ordering Oracle.ok DB.empty 0 extSample false ⟨1, rfl⟩⟩

end Imoveis

namespace Imoveis

theorem createEndereco_imoveis (o : Oracle) (db : DB) (x : ExternalEndereco) :
    (createEndereco o db x).2.imoveis = db.imoveis := by
  unfold createEndereco
  repeat' split
  all_goals rfl

theorem AddAnexo_imoveis (f : Bool) (db : DB) (pid : Nat) (a : Anexo) :
    (AddAnexo f db pid a).2.imoveis = db.imoveis := by
  unfold AddAnexo
  repeat' split
  all_goals rfl

theorem addAnexosLoop_imoveis (o : Oracle) (pid : Nat) :
    ∀ (urls : List String) (db : DB) (i : Nat),
      (addAnexosLoop o db pid i urls).2.imoveis = db.imoveis := by
  intro urls
  induction urls with
  | nil => intro db i; rfl
  | cons u rest ih =>
    intro db i
    unfold addAnexosLoop
    dsimp only
    rcases ha : AddAnexo (o.anexoAddFailAt == some i) db pid
        { id := 0, nome := "Image " ++ toString (i + 1), url := u, tipo := "image"
          image := true, video := false, isExternalURL := true, canPublish := true
          imovelID := 0, deleted := false } with ⟨ra, dba⟩
    have hai : dba.imoveis = db.imoveis := by
      have h := AddAnexo_imoveis (o.anexoAddFailAt == some i) db pid
        { id := 0, nome := "Image " ++ toString (i + 1), url := u, tipo := "image"
          image := true, video := false, isExternalURL := true, canPublish := true
          imovelID := 0, deleted := false }
      rw [ha] at h
      exact h
    cases ra with
    | error u' => exact hai
    | ok u' => rw [ih dba (i + 1), hai]

theorem syncAnexos_imoveis (o : Oracle) (db : DB) (pid : Nat) (urls : List String) :
    (syncAnexosFromImages o db pid urls).2.imoveis = db.imoveis := by
  unfold syncAnexosFromImages
  split
  · rfl
  · rw [addAnexosLoop_imoveis]

theorem AttachEndereco_imoveis (o : Oracle) (db : DB) (pid e : Nat) :
    (AttachEndereco o db pid e).2.imoveis = db.imoveis ∨
    (AttachEndereco o db pid e).2.imoveis =
      db.imoveis.map (fun r => if r.id = pid then { r with enderecoID := e } else r) := by
  unfold AttachEndereco
  repeat' split
  all_goals first
    | (left; rfl)
    | (right; rfl)

/-- The imoveis table after the update-branch address step: either untouched
(skipped or failed) or with the property's address reference re-pointed. -/
theorem upsertEndereco_imoveis (o : Oracle) (db : DB) (pid : Nat) (x : ExternalEndereco) :
    (upsertEndereco o db pid x).2.imoveis = db.imoveis ∨
    ∃ e, (upsertEndereco o db pid x).2.imoveis =
      db.imoveis.map (fun r => if r.id = pid then { r with enderecoID := e } else r) := by
  unfold upsertEndereco
  rcases hc : createEndereco o db x with ⟨rc, dbc⟩
  have hci : dbc.imoveis = db.imoveis := by
    have h := createEndereco_imoveis o db x
    rw [hc] at h
    exact h
  cases rc with
  | error u => left; exact hci
  | ok eid =>
    dsimp only
    rcases ha : AttachEndereco o dbc pid eid with ⟨ra, dba⟩
    have hai := AttachEndereco_imoveis o dbc pid eid
    rw [ha] at hai
    cases ra with
    | error u =>
      rcases hai with h | h
      · left; rw [show (Except.error (), dba).2.imoveis = dba.imoveis from rfl, h, hci]
      · right; exact ⟨eid, by rw [show (Except.error (), dba).2.imoveis = dba.imoveis from rfl, h, hci]⟩
    | ok u =>
      rcases hai with h | h
      · left; rw [show (Except.ok (), dba).2.imoveis = dba.imoveis from rfl, h, hci]
      · right; exact ⟨eid, by rw [show (Except.ok (), dba).2.imoveis = dba.imoveis from rfl, h, hci]⟩

theorem updateEnderecoStep_imoveis (o : Oracle) (db : DB) (pid : Nat) (x : ExternalEndereco) :
    (updateEnderecoStep o db pid x).2.imoveis = db.imoveis ∨
    ∃ e, (updateEnderecoStep o db pid x).2.imoveis =
      db.imoveis.map (fun r => if r.id = pid then { r with enderecoID := e } else r) := by
  unfold updateEnderecoStep
  by_cases hrua : x.rua ≠ ""
  · rw [if_pos hrua]
    rcases h8 : upsertEndereco o db pid x with ⟨r8, d8⟩
    have h := upsertEndereco_imoveis o db pid x
    rw [h8] at h
    exact h
  · rw [if_neg hrua]
    left
    rfl

/-- Successful `UpdateImovel` with an import-style request (no codigo
change): the found row is merged in place with the guarded field updates
under GORM struct-`Updates` zero-skip semantics. -/
theorem UpdateImovel_ok (o : Oracle) (db : DB) (id : Nat) (req : UpdateImovelRequest)
    (row : Imovel) (hid : id ≠ 0) (hfound : findImovelById db id = some row)
    (hcod : req.codigo = "") (hupd : o.updateFail = false) :
    UpdateImovel o db id req = (.ok id, repoUpdateImovel db id (applyUpdateReq row req)) := by
  unfold UpdateImovel
  rw [if_neg hid, hfound, hcod]
  simp [hupd]

/-- GORM zero-skip on an optional reference written back from the loaded
value: a no-op. -/
theorem optMergeNonZero (x : Option Nat) :
    (if x.getD 0 ≠ 0 then some (x.getD 0) else x) = x := by
  rcases x with _ | w
  · simp
  · by_cases hw : w = 0 <;> simp [hw]

end Imoveis

namespace Imoveis

/-! ## C4 — reference non-regression on update -/

/-- An optional id with a non-zero default-0 read is a `some`. -/
theorem optGetDSome (x : Option Nat) (h : ¬ x.getD 0 = 0) : some (x.getD 0) = x := by
  rcases x with _ | w
  · simp at h
  · rfl

/-- The reference fields of the merged row the update branch persists: each
Development/SalePrice/RentPrice/Broker pointer becomes the freshly resolved
id when that id is non-zero, and keeps the previously stored reference
otherwise (zero ids are filtered at request build time and again by the
zero-skip persistence). -/
theorem mergedImportRefs (row : Imovel) (ext : ExternalDetailedImovel)
    (eID pvID paID corID : Nat) :
    (updatesNonZero row (applyUpdateReq row
        (buildImportUpdateReq ext eID pvID paID corID))).empreendimentoID
      = (if eID ≠ 0 then some eID else row.empreendimentoID) ∧
    (updatesNonZero row (applyUpdateReq row
        (buildImportUpdateReq ext eID pvID paID corID))).precoVendaID
      = (if pvID ≠ 0 then some pvID else row.precoVendaID) ∧
    (updatesNonZero row (applyUpdateReq row
        (buildImportUpdateReq ext eID pvID paID corID))).precoAluguelID
      = (if paID ≠ 0 then some paID else row.precoAluguelID) ∧
    (updatesNonZero row (applyUpdateReq row
        (buildImportUpdateReq ext eID pvID paID corID))).corretorPrincipalID
      = (if corID ≠ 0 then some corID else row.corretorPrincipalID) := by
  refine ⟨?_, ?_, ?_, ?_⟩
  · by_cases h : eID = 0 <;>
      simp [updatesNonZero, applyUpdateReq, buildImportUpdateReq, h]
    exact fun h2 => optGetDSome _ h2
  · by_cases h : pvID = 0 <;>
      simp [updatesNonZero, applyUpdateReq, buildImportUpdateReq, h]
    exact fun h2 => optGetDSome _ h2
  · by_cases h : paID = 0 <;>
      simp [updatesNonZero, applyUpdateReq, buildImportUpdateReq, h]
    exact fun h2 => optGetDSome _ h2
  · by_cases h : corID = 0 <;>
      simp [updatesNonZero, applyUpdateReq, buildImportUpdateReq, h]
    exact fun h2 => optGetDSome _ h2

/-- The merged row's primary key is the old row's. -/
theorem updatesNonZero_id (old m : Imovel) : (updatesNonZero old m).id = old.id := rfl

set_option maxHeartbeats 1000000 in
/-- C4: on the update branch of the reconciler, each of the four
Development/SalePrice/RentPrice/Broker reference fields of the re-imported
property row is overwritten only when this run's corresponding resolution
produced a non-zero local id; when the resolved id is zero (the entity was
absent this run or its resolution failed) the previously stored reference is
left exactly as it was — never nulled, never zeroed. -/
theorem c4_reference_non_regression (o : Oracle) (db : DB) (imovelID : Nat)
    (ext : ExternalDetailedImovel) (eID pvID paID corID : Nat)
    (db1 db2 db3 db4 : DB) (t1 t2 t3 t4 : List Ev)
    (h1 : resolveEmpreendimento o db ext.empreendimento = (eID, db1, t1))
    (h2 : resolvePrecoVenda o db1 ext.precoVenda = (pvID, db2, t2))
    (h3 : resolvePrecoAluguel o db2 ext.precoAluguel = (paID, db3, t3))
    (h4 : resolveCorretorPrincipal o db3 ext.corretorPrincipal = (corID, db4, t4))
    (row : Imovel) (hid : imovelID ≠ 0)
    (hfound : findImovelById db imovelID = some row)
    (hupd : o.updateFail = false) :
    ∃ row',
      findImovelById (upsertImovelAndRelationships o db imovelID ext true).db imovelID
        = some row' ∧
      row'.empreendimentoID = (if eID ≠ 0 then some eID else row.empreendimentoID) ∧
      row'.precoVendaID = (if pvID ≠ 0 then some pvID else row.precoVendaID) ∧
      row'.precoAluguelID = (if paID ≠ 0 then some paID else row.precoAluguelID) ∧
      row'.corretorPrincipalID = (if corID ≠ 0 then some corID else row.corretorPrincipalID) := by
  have hi1 : db1.imoveis = db.imoveis := by
    have h := resolveEmp_frame o db ext.empreendimento
    rw [h1] at h
    exact h.1
  have hi2 : db2.imoveis = db1.imoveis := by
    have h := resolvePv_frame o db1 ext.precoVenda
    rw [h2] at h
    exact h.1
  have hi3 : db3.imoveis = db2.imoveis := by
    have h := resolvePa_frame o db2 ext.precoAluguel
    rw [h3] at h
    exact h.1
  have hi4 : db4.imoveis = db.imoveis := by
    have h := resolveCor_frame o db3 ext.corretorPrincipal
    rw [h4] at h
    rw [h.1, hi3, hi2, hi1]
  have hf4 : findImovelById db4 imovelID = some row := by
    unfold findImovelById at hfound ⊢
    rw [hi4]
    exact hfound
  have hrow_id : row.id = imovelID := by
    have h := List.find?_some hfound
    simpa using h
  unfold upsertImovelAndRelationships
  simp only [h1, h2, h3, h4, if_true]
  rw [UpdateImovel_ok o db4 imovelID
    (buildImportUpdateReq ext eID pvID paID corID) row hid hf4 rfl hupd]
  dsimp only
  rcases h6 : updateEnderecoStep o (repoUpdateImovel db4 imovelID (applyUpdateReq row
      (buildImportUpdateReq ext eID pvID paID corID))) imovelID ext.endereco with ⟨et, db6⟩
  rcases h7 : syncAnexosFromImages o db6 imovelID ext.imagens with ⟨r7, db7⟩
  have h7i : db7.imoveis = db6.imoveis := by
    have h := syncAnexos_imoveis o db6 imovelID ext.imagens
    rw [h7] at h
    exact h
  have h6i := updateEnderecoStep_imoveis o (repoUpdateImovel db4 imovelID (applyUpdateReq row
      (buildImportUpdateReq ext eID pvID paID corID))) imovelID ext.endereco
  rw [h6] at h6i
  have hpred : ∀ a : Imovel,
      ((if a.id = imovelID then updatesNonZero a (applyUpdateReq row
          (buildImportUpdateReq ext eID pvID paID corID)) else a).id == imovelID)
        = (a.id == imovelID) := by
    intro a
    by_cases h : a.id = imovelID
    · rw [if_pos h, updatesNonZero_id]
    · rw [if_neg h]
  have hfind5 : (repoUpdateImovel db4 imovelID (applyUpdateReq row
        (buildImportUpdateReq ext eID pvID paID corID))).imoveis.find?
        (fun r => r.id == imovelID)
      = some (updatesNonZero row (applyUpdateReq row
        (buildImportUpdateReq ext eID pvID paID corID))) := by
    unfold repoUpdateImovel
    dsimp only
    rw [find?_map_pred_comm _ _ _ hpred]
    unfold findImovelById at hf4
    rw [hf4]
    dsimp only [Option.map]
    rw [if_pos hrow_id]
  obtain ⟨hm1, hm2, hm3, hm4⟩ := mergedImportRefs row ext eID pvID paID corID
  rcases h6i with hcase | ⟨e, hcase⟩
  · refine ⟨updatesNonZero row (applyUpdateReq row
        (buildImportUpdateReq ext eID pvID paID corID)), ?_, hm1, hm2, hm3, hm4⟩
    unfold findImovelById
    dsimp only
    rw [h7i, hcase]
    exact hfind5
  · have hpred2 : ∀ a : Imovel,
        ((if a.id = imovelID then { a with enderecoID := e } else a).id == imovelID)
          = (a.id == imovelID) := by
      intro a
      by_cases h : a.id = imovelID
      · rw [if_pos h]
      · rw [if_neg h]
    refine ⟨{ updatesNonZero row (applyUpdateReq row
        (buildImportUpdateReq ext eID pvID paID corID)) with enderecoID := e },
      ?_, hm1, hm2, hm3, hm4⟩
    unfold findImovelById
    dsimp only
    rw [h7i, hcase, find?_map_pred_comm _ _ _ hpred2, hfind5]
    dsimp only [Option.map]
    rw [if_pos (by rw [updatesNonZero_id, hrow_id])]

end Imoveis

namespace Imoveis

/-- A pre-existing property row for the C4 witness: it already points at
rent price 88 but has no development or broker reference. -/
def c4Row : Imovel :=
  { id := 1, idIntegracao := "900", titulo := "Old", codigo := "AP900"
    tipo := "CASA", objetivo := "VENDER", finalidade := "RESIDENCIAL"
    descricao := "Velha", metragem := 100, numQuartos := 2, numSuites := 1
    numBanheiros := 1, numVagas := 1, numAndar := 0, unidade := "A"
    condominio := 5, iptu := 0, inscricaoIPTU := "", enderecoID := 0
    empreendimentoID := none, precoVendaID := some 77, precoAluguelID := some 88
    plantaID := none, corretorPrincipalID := none, pacoteID := none
    status := "EM_EDICAO", published := false, closed := false
    visualizacoes := 0, createdAt := 1 }

/-- The C4 witness database: just the one property row. -/
def c4Db : DB :=
  { DB.empty with imoveis := [c4Row], nextImovelId := 2 }

def c4Db1 : DB := (resolveEmpreendimento Oracle.ok c4Db extSample.empreendimento).2.1

def c4Db2 : DB := (resolvePrecoVenda Oracle.ok c4Db1 extSample.precoVenda).2.1

def c4Db3 : DB := (resolvePrecoAluguel Oracle.ok c4Db2 extSample.precoAluguel).2.1

def c4Db4 : DB := (resolveCorretorPrincipal Oracle.ok c4Db3 extSample.corretorPrincipal).2.1

/-- Witness for C4 at a concrete input: re-importing `extSample` (development,
sale price and broker present, rent price absent) over `c4Db` re-points the
development, sale-price and broker references at this run's resolved ids and
leaves the previously stored rent-price reference `some 88` untouched. -/
theorem c4_reference_non_regression_witness :
    findImovelById c4Db 1 = some c4Row ∧
    ∃ row',
      findImovelById (upsertImovelAndRelationships Oracle.ok c4Db 1 extSample true).db 1
        = some row' ∧
      row'.empreendimentoID = some 1 ∧
      row'.precoVendaID = some 1 ∧
      row'.precoAluguelID = some 88 ∧
      row'.corretorPrincipalID = some 1 := by
  refine ⟨rfl, ?_⟩
  have h := c4_reference_non_regression Oracle.ok c4Db 1 extSample 1 1 0 1
    c4Db1 c4Db2 c4Db3 c4Db4 [Ev.empUpsert] [Ev.pvUpsert] [] [Ev.corUpsert]
    rfl rfl rfl rfl c4Row (by decide) rfl rfl
  obtain ⟨row', hf, he, hpv, hpa, hcor⟩ := h
  refine ⟨row', hf, ?_, ?_, ?_, ?_⟩
  · rw [he]; rfl
  · rw [hpv]; rfl
  · rw [hpa]; rfl
  · rw [hcor]; rfl

end Imoveis

namespace Imoveis

/-! ## C6 — zero-value foreign-key omission on create -/

/-- C6: when the create branch's request passes the price validations, the
uniqueness checks and the insert itself succeeds, the created property row
carries `none` (SQL NULL, the column omitted from the insert) for every
relationship whose resolution left the id zero — never a reference to id 0 —
and the resolved id otherwise; the FloorPlan and Package references, which
the import never resolves, are always omitted. A zero Development (or any)
id alone never blocks the create. -/
theorem c6_zero_fk_omission (o : Oracle) (db : DB) (ext : ExternalDetailedImovel)
    (enderecoID eID pvID paID corID : Nat)
    (hpa : ext.objetivo = "ALUGAR" → paID ≠ 0)
    (hpv : ext.objetivo = "VENDER" → pvID ≠ 0)
    (hcod : existsByCodigo db ext.codigo = false)
    (hkey : existsByIdIntegracao db (toString ext.id) = false)
    (hcf : o.createFail = false) :
    ∃ db' row',
      CreateImovel o db (transformExternalToCreateRequest ext enderecoID eID pvID paID corID)
        = (.ok db.nextImovelId, db') ∧
      db'.imoveis = db.imoveis ++ [row'] ∧
      row'.id = db.nextImovelId ∧
      row'.empreendimentoID = (if eID ≠ 0 then some eID else none) ∧
      row'.precoVendaID = (if pvID ≠ 0 then some pvID else none) ∧
      row'.precoAluguelID = (if paID ≠ 0 then some paID else none) ∧
      row'.corretorPrincipalID = (if corID ≠ 0 then some corID else none) ∧
      row'.plantaID = none ∧
      row'.pacoteID = none := by
  have hc1 : ¬(ext.objetivo = "ALUGAR" ∧ (if paID ≠ 0 then paID else 0) = 0) := by
    rintro ⟨ho, hz⟩
    have hne := hpa ho
    rw [if_pos hne] at hz
    exact hne hz
  have hc2 : ¬(ext.objetivo = "VENDER" ∧ (if pvID ≠ 0 then pvID else 0) = 0) := by
    rintro ⟨ho, hz⟩
    have hne := hpv ho
    rw [if_pos hne] at hz
    exact hne hz
  unfold CreateImovel transformExternalToCreateRequest
  dsimp only
  rw [if_neg hc1, if_neg hc2]
  simp only [hcod, hkey, hcf, Bool.false_eq_true, if_false, and_false]
  refine ⟨_, _, rfl, rfl, rfl, ?_, ?_, ?_, rfl, rfl, rfl⟩
  · by_cases h : eID = 0 <;> simp [h]
  · by_cases h : pvID = 0 <;> simp [h]
  · by_cases h : paID = 0 <;> simp [h]

/-- Witness for C6 at a concrete input: creating `extSample`'s request on the
empty database with only the sale price resolved (id 5) succeeds, and the
created row has NULL development, rent-price, broker, floor-plan and package
references and `some 5` for the sale price. -/
theorem c6_zero_fk_omission_witness :
    ∃ db' row',
      CreateImovel Oracle.ok DB.empty
          (transformExternalToCreateRequest extSample 0 0 5 0 0)
        = (.ok DB.empty.nextImovelId, db') ∧
      db'.imoveis = DB.empty.imoveis ++ [row'] ∧
      row'.id = DB.empty.nextImovelId ∧
      row'.empreendimentoID = (if (0:Nat) ≠ 0 then some 0 else none) ∧
      row'.precoVendaID = (if (5:Nat) ≠ 0 then some 5 else none) ∧
      row'.precoAluguelID = (if (0:Nat) ≠ 0 then some 0 else none) ∧
      row'.corretorPrincipalID = (if (0:Nat) ≠ 0 then some 0 else none) ∧
      row'.plantaID = none ∧
      row'.pacoteID = none :=
  c6_zero_fk_omission Oracle.ok DB.empty extSample 0 0 5 0 0
    (by decide) (by decide) rfl rfl rfl

end Imoveis

namespace Imoveis

/-! ## C10 — implicit create-time price precondition -/

set_option maxHeartbeats 1000000 in
/-- C10: `CreateImovel` rejects, with the database untouched, every request
whose purpose is ALUGAR with a zero rent-price reference or VENDER with a
zero sale-price reference; consequently an imported property on the create
branch whose corresponding price resolution produced id 0 fails to create
and its batch item is classified failed. -/
theorem c10_create_price_precondition (env : FetchEnv) (db : DB) (sid : Nat)
    (ext : ExternalDetailedImovel) (eID pvID paID corID endId : Nat)
    (db1 db2 db3 db4 db5 : DB) (t1 t2 t3 t4 t5 : List Ev)
    (hdet : env.detail sid = some ext)
    (hfind : findImovelByKey db (toString ext.id) = none)
    (h1 : resolveEmpreendimento (env.oracle sid) db ext.empreendimento = (eID, db1, t1))
    (h2 : resolvePrecoVenda (env.oracle sid) db1 ext.precoVenda = (pvID, db2, t2))
    (h3 : resolvePrecoAluguel (env.oracle sid) db2 ext.precoAluguel = (paID, db3, t3))
    (h4 : resolveCorretorPrincipal (env.oracle sid) db3 ext.corretorPrincipal = (corID, db4, t4))
    (h5 : createEnderecoStep (env.oracle sid) db4 ext.endereco = (.ok endId, db5, t5))
    (hprice : (ext.objetivo = "ALUGAR" ∧ paID = 0) ∨ (ext.objetivo = "VENDER" ∧ pvID = 0)) :
    CreateImovel (env.oracle sid) db5
        (transformExternalToCreateRequest ext endId eID pvID paID corID)
      = (.error (), db5) ∧
    processItem env db sid = (.failed, db5) := by
  have hcreate : CreateImovel (env.oracle sid) db5
      (transformExternalToCreateRequest ext endId eID pvID paID corID)
      = (.error (), db5) := by
    unfold CreateImovel transformExternalToCreateRequest
    dsimp only
    rcases hprice with ⟨ho, hz⟩ | ⟨ho, hz⟩
    · rw [if_pos ⟨ho, by simp [hz]⟩]
    · have hc1 : ¬(ext.objetivo = "ALUGAR" ∧ (if paID ≠ 0 then paID else 0) = 0) := by
        rintro ⟨ho2, _⟩
        rw [ho] at ho2
        simp at ho2
      rw [if_neg hc1, if_pos ⟨ho, by simp [hz]⟩]
  refine ⟨hcreate, ?_⟩
  unfold processItem
  rw [hdet]
  dsimp only
  rw [hfind]
  unfold upsertImovelAndRelationships
  simp only [h1, h2, h3, h4, Bool.false_eq_true, if_false]
  simp only [h5]
  rw [hcreate]

end Imoveis

namespace Imoveis

/-- The C10 witness detail: `extSample` with no upstream sale price while the
property is still for sale (objetivo VENDER). -/
def c10Ext : ExternalDetailedImovel := { extSample with precoVenda := none }

/-- The C10 witness batch environment: one published summary whose detail is
`c10Ext`, every persistence call succeeding. -/
def c10Env : FetchEnv :=
  { list := .ok [900], detail := fun _ => some c10Ext, oracle := fun _ => Oracle.ok }

def c10Db1 : DB := (resolveEmpreendimento Oracle.ok DB.empty c10Ext.empreendimento).2.1

def c10Db2 : DB := (resolvePrecoVenda Oracle.ok c10Db1 c10Ext.precoVenda).2.1

def c10Db3 : DB := (resolvePrecoAluguel Oracle.ok c10Db2 c10Ext.precoAluguel).2.1

def c10Db4 : DB := (resolveCorretorPrincipal Oracle.ok c10Db3 c10Ext.corretorPrincipal).2.1

def c10Db5 : DB := (createEnderecoStep Oracle.ok c10Db4 c10Ext.endereco).2.1

/-- Witness for C10 at a concrete input: importing the VENDER property
`c10Ext` with no sale price on the empty database fails its create and the
batch item is classified failed. -/
theorem c10_create_price_precondition_witness :
    CreateImovel Oracle.ok c10Db5
        (transformExternalToCreateRequest c10Ext 1 1 0 0 1)
      = (.error (), c10Db5) ∧
    processItem c10Env DB.empty 900 = (.failed, c10Db5) :=
  c10_create_price_precondition c10Env DB.empty 900 c10Ext 1 0 0 1 1
    c10Db1 c10Db2 c10Db3 c10Db4 c10Db5 [Ev.empUpsert] [] [] [Ev.corUpsert] [Ev.endCreate]
    rfl rfl rfl rfl rfl rfl rfl (Or.inr ⟨rfl, rfl⟩)

end Imoveis

namespace Imoveis

/-! ## C8 — scalar overwrite on update -/

set_option maxHeartbeats 1000000 in
/-- The row the update branch leaves behind: the loaded row merged with
the import request under the guarded copies and zero-skip persistence, except
that the address re-attachment may additionally re-point `enderecoID`. -/
theorem updateBranchRow (o : Oracle) (db : DB) (imovelID : Nat)
    (ext : ExternalDetailedImovel) (eID pvID paID corID : Nat)
    (db1 db2 db3 db4 : DB) (t1 t2 t3 t4 : List Ev)
    (h1 : resolveEmpreendimento o db ext.empreendimento = (eID, db1, t1))
    (h2 : resolvePrecoVenda o db1 ext.precoVenda = (pvID, db2, t2))
    (h3 : resolvePrecoAluguel o db2 ext.precoAluguel = (paID, db3, t3))
    (h4 : resolveCorretorPrincipal o db3 ext.corretorPrincipal = (corID, db4, t4))
    (row : Imovel) (hid : imovelID ≠ 0)
    (hfound : findImovelById db imovelID = some row)
    (hupd : o.updateFail = false) :
    ∃ row',
      findImovelById (upsertImovelAndRelationships o db imovelID ext true).db imovelID
        = some row' ∧
      (row' = updatesNonZero row (applyUpdateReq row
          (buildImportUpdateReq ext eID pvID paID corID)) ∨
       ∃ e, row' = { updatesNonZero row (applyUpdateReq row
          (buildImportUpdateReq ext eID pvID paID corID)) with enderecoID := e }) := by
  have hi1 : db1.imoveis = db.imoveis := by
    have h := resolveEmp_frame o db ext.empreendimento
    rw [h1] at h
    exact h.1
  have hi2 : db2.imoveis = db1.imoveis := by
    have h := resolvePv_frame o db1 ext.precoVenda
    rw [h2] at h
    exact h.1
  have hi3 : db3.imoveis = db2.imoveis := by
    have h := resolvePa_frame o db2 ext.precoAluguel
    rw [h3] at h
    exact h.1
  have hi4 : db4.imoveis = db.imoveis := by
    have h := resolveCor_frame o db3 ext.corretorPrincipal
    rw [h4] at h
    rw [h.1, hi3, hi2, hi1]
  have hf4 : findImovelById db4 imovelID = some row := by
    unfold findImovelById at hfound ⊢
    rw [hi4]
    exact hfound
  have hrow_id : row.id = imovelID := by
    have h := List.find?_some hfound
    simpa using h
  unfold upsertImovelAndRelationships
  simp only [h1, h2, h3, h4, if_true]
  rw [UpdateImovel_ok o db4 imovelID
    (buildImportUpdateReq ext eID pvID paID corID) row hid hf4 rfl hupd]
  dsimp only
  rcases h6 : updateEnderecoStep o (repoUpdateImovel db4 imovelID (applyUpdateReq row
      (buildImportUpdateReq ext eID pvID paID corID))) imovelID ext.endereco with ⟨et, db6⟩
  rcases h7 : syncAnexosFromImages o db6 imovelID ext.imagens with ⟨r7, db7⟩
  have h7i : db7.imoveis = db6.imoveis := by
    have h := syncAnexos_imoveis o db6 imovelID ext.imagens
    rw [h7] at h
    exact h
  have h6i := updateEnderecoStep_imoveis o (repoUpdateImovel db4 imovelID (applyUpdateReq row
      (buildImportUpdateReq ext eID pvID paID corID))) imovelID ext.endereco
  rw [h6] at h6i
  have hpred : ∀ a : Imovel,
      ((if a.id = imovelID then updatesNonZero a (applyUpdateReq row
          (buildImportUpdateReq ext eID pvID paID corID)) else a).id == imovelID)
        = (a.id == imovelID) := by
    intro a
    by_cases h : a.id = imovelID
    · rw [if_pos h, updatesNonZero_id]
    · rw [if_neg h]
  have hfind5 : (repoUpdateImovel db4 imovelID (applyUpdateReq row
        (buildImportUpdateReq ext eID pvID paID corID))).imoveis.find?
        (fun r => r.id == imovelID)
      = some (updatesNonZero row (applyUpdateReq row
        (buildImportUpdateReq ext eID pvID paID corID))) := by
    unfold repoUpdateImovel
    dsimp only
    rw [find?_map_pred_comm _ _ _ hpred]
    unfold findImovelById at hf4
    rw [hf4]
    dsimp only [Option.map]
    rw [if_pos hrow_id]
  rcases h6i with hcase | ⟨e, hcase⟩
  · refine ⟨updatesNonZero row (applyUpdateReq row
        (buildImportUpdateReq ext eID pvID paID corID)), ?_, Or.inl rfl⟩
    unfold findImovelById
    dsimp only
    rw [h7i, hcase]
    exact hfind5
  · have hpred2 : ∀ a : Imovel,
        ((if a.id = imovelID then { a with enderecoID := e } else a).id == imovelID)
          = (a.id == imovelID) := by
      intro a
      by_cases h : a.id = imovelID
      · rw [if_pos h]
      · rw [if_neg h]
    refine ⟨{ updatesNonZero row (applyUpdateReq row
        (buildImportUpdateReq ext eID pvID paID corID)) with enderecoID := e },
      ?_, Or.inr ⟨e, rfl⟩⟩
    unfold findImovelById
    dsimp only
    rw [h7i, hcase, find?_map_pred_comm _ _ _ hpred2, hfind5]
    dsimp only [Option.map]
    rw [if_pos (by rw [updatesNonZero_id, hrow_id])]

end Imoveis

namespace Imoveis

/-- The scalar business fields of the merged row the update branch persists:
strings are overwritten only when the external value is non-empty, the
guarded numerics only when the external value is strictly positive (the
request guard admits zero but the zero-skip persistence then drops it), the
floor only when non-zero, and the local id, correlation key, codigo and
creation timestamp are never overwritten. -/
theorem mergedImportScalars (row : Imovel) (ext : ExternalDetailedImovel)
    (eID pvID paID corID : Nat) :
    let mg := updatesNonZero row (applyUpdateReq row
        (buildImportUpdateReq ext eID pvID paID corID))
    mg.titulo = (if ext.titulo ≠ "" then ext.titulo else row.titulo) ∧
    mg.tipo = (if ext.tipo ≠ "" then ext.tipo else row.tipo) ∧
    mg.objetivo = (if ext.objetivo ≠ "" then ext.objetivo else row.objetivo) ∧
    mg.finalidade = (if ext.finalidade ≠ "" then ext.finalidade else row.finalidade) ∧
    mg.descricao = (if ext.descricao ≠ "" then ext.descricao else row.descricao) ∧
    mg.metragem = (if ext.metragem > 0 then ext.metragem else row.metragem) ∧
    mg.numQuartos = (if ext.numQuartos > 0 then ext.numQuartos else row.numQuartos) ∧
    mg.numSuites = (if ext.numSuites > 0 then ext.numSuites else row.numSuites) ∧
    mg.numBanheiros = (if ext.numBanheiros > 0 then ext.numBanheiros else row.numBanheiros) ∧
    mg.numVagas = (if ext.numVagas > 0 then ext.numVagas else row.numVagas) ∧
    mg.numAndar = (if ext.numAndar ≠ 0 then ext.numAndar else row.numAndar) ∧
    mg.unidade = (if ext.unidade ≠ "" then ext.unidade else row.unidade) ∧
    mg.condominio = (if ext.condominio > 0 then ext.condominio else row.condominio) ∧
    mg.id = row.id ∧
    mg.idIntegracao = row.idIntegracao ∧
    mg.codigo = row.codigo ∧
    mg.createdAt = row.createdAt := by
  dsimp only
  refine ⟨?_, ?_, ?_, ?_, ?_, ?_, ?_, ?_, ?_, ?_, ?_, ?_, ?_, rfl, ?_, ?_, ?_⟩
  · by_cases h : ext.titulo = "" <;>
      simp [updatesNonZero, applyUpdateReq, buildImportUpdateReq, h]
  · by_cases h : ext.tipo = "" <;>
      simp [updatesNonZero, applyUpdateReq, buildImportUpdateReq, h]
  · by_cases h : ext.objetivo = "" <;>
      simp [updatesNonZero, applyUpdateReq, buildImportUpdateReq, h]
  · by_cases h : ext.finalidade = "" <;>
      simp [updatesNonZero, applyUpdateReq, buildImportUpdateReq, h]
  · by_cases h : ext.descricao = "" <;>
      simp [updatesNonZero, applyUpdateReq, buildImportUpdateReq, h]
  · by_cases h : ext.metragem > 0 <;>
      simp [updatesNonZero, applyUpdateReq, buildImportUpdateReq, h, ne_of_gt]
  · by_cases h : ext.numQuartos > 0
    · have h0 : (0:Int) ≤ ext.numQuartos := le_of_lt h
      simp [updatesNonZero, applyUpdateReq, buildImportUpdateReq, h, h0, ne_of_gt h]
    · by_cases h2 : (0:Int) ≤ ext.numQuartos
      · have h3 : ext.numQuartos = 0 := le_antisymm (not_lt.mp h) h2
        simp [updatesNonZero, applyUpdateReq, buildImportUpdateReq, h, h2, h3]
      · simp [updatesNonZero, applyUpdateReq, buildImportUpdateReq, h, h2]
  · by_cases h : ext.numSuites > 0
    · have h0 : (0:Int) ≤ ext.numSuites := le_of_lt h
      simp [updatesNonZero, applyUpdateReq, buildImportUpdateReq, h, h0, ne_of_gt h]
    · by_cases h2 : (0:Int) ≤ ext.numSuites
      · have h3 : ext.numSuites = 0 := le_antisymm (not_lt.mp h) h2
        simp [updatesNonZero, applyUpdateReq, buildImportUpdateReq, h, h2, h3]
      · simp [updatesNonZero, applyUpdateReq, buildImportUpdateReq, h, h2]
  · by_cases h : ext.numBanheiros > 0
    · have h0 : (0:Int) ≤ ext.numBanheiros := le_of_lt h
      simp [updatesNonZero, applyUpdateReq, buildImportUpdateReq, h, h0, ne_of_gt h]
    · by_cases h2 : (0:Int) ≤ ext.numBanheiros
      · have h3 : ext.numBanheiros = 0 := le_antisymm (not_lt.mp h) h2
        simp [updatesNonZero, applyUpdateReq, buildImportUpdateReq, h, h2, h3]
      · simp [updatesNonZero, applyUpdateReq, buildImportUpdateReq, h, h2]
  · by_cases h : ext.numVagas > 0
    · have h0 : (0:Int) ≤ ext.numVagas := le_of_lt h
      simp [updatesNonZero, applyUpdateReq, buildImportUpdateReq, h, h0, ne_of_gt h]
    · by_cases h2 : (0:Int) ≤ ext.numVagas
      · have h3 : ext.numVagas = 0 := le_antisymm (not_lt.mp h) h2
        simp [updatesNonZero, applyUpdateReq, buildImportUpdateReq, h, h2, h3]
      · simp [updatesNonZero, applyUpdateReq, buildImportUpdateReq, h, h2]
  · simp [updatesNonZero, applyUpdateReq, buildImportUpdateReq]
  · by_cases h : ext.unidade = "" <;>
      simp [updatesNonZero, applyUpdateReq, buildImportUpdateReq, h]
  · by_cases h : ext.condominio > 0
    · have h0 : (0:Int) ≤ ext.condominio := le_of_lt h
      simp [updatesNonZero, applyUpdateReq, buildImportUpdateReq, h, h0, ne_of_gt h]
    · by_cases h2 : (0:Int) ≤ ext.condominio
      · have h3 : ext.condominio = 0 := le_antisymm (not_lt.mp h) h2
        simp [updatesNonZero, applyUpdateReq, buildImportUpdateReq, h, h2, h3]
      · simp [updatesNonZero, applyUpdateReq, buildImportUpdateReq, h, h2]
  · simp [updatesNonZero, applyUpdateReq, buildImportUpdateReq]
  · simp [updatesNonZero, applyUpdateReq, buildImportUpdateReq]
  · simp [updatesNonZero, applyUpdateReq, buildImportUpdateReq]

end Imoveis

namespace Imoveis

set_option maxHeartbeats 1000000 in
/-- C8 (amended): on the update branch the scalar business fields are
overwritten under guards, not unconditionally — strings only when the
external value is non-empty, area/rooms/suites/bathrooms/parking/condo-fee
only when the external value is strictly positive, floor only when non-zero —
while the local id, the correlation key, the codigo and the creation
timestamp are never overwritten. -/
theorem c8_full_scalar_overwrite (o : Oracle) (db : DB) (imovelID : Nat)
    (ext : ExternalDetailedImovel) (eID pvID paID corID : Nat)
    (db1 db2 db3 db4 : DB) (t1 t2 t3 t4 : List Ev)
    (h1 : resolveEmpreendimento o db ext.empreendimento = (eID, db1, t1))
    (h2 : resolvePrecoVenda o db1 ext.precoVenda = (pvID, db2, t2))
    (h3 : resolvePrecoAluguel o db2 ext.precoAluguel = (paID, db3, t3))
    (h4 : resolveCorretorPrincipal o db3 ext.corretorPrincipal = (corID, db4, t4))
    (row : Imovel) (hid : imovelID ≠ 0)
    (hfound : findImovelById db imovelID = some row)
    (hupd : o.updateFail = false) :
    ∃ row',
      findImovelById (upsertImovelAndRelationships o db imovelID ext true).db imovelID
        = some row' ∧
      row'.titulo = (if ext.titulo ≠ "" then ext.titulo else row.titulo) ∧
      row'.tipo = (if ext.tipo ≠ "" then ext.tipo else row.tipo) ∧
      row'.objetivo = (if ext.objetivo ≠ "" then ext.objetivo else row.objetivo) ∧
      row'.finalidade = (if ext.finalidade ≠ "" then ext.finalidade else row.finalidade) ∧
      row'.descricao = (if ext.descricao ≠ "" then ext.descricao else row.descricao) ∧
      row'.metragem = (if ext.metragem > 0 then ext.metragem else row.metragem) ∧
      row'.numQuartos = (if ext.numQuartos > 0 then ext.numQuartos else row.numQuartos) ∧
      row'.numSuites = (if ext.numSuites > 0 then ext.numSuites else row.numSuites) ∧
      row'.numBanheiros = (if ext.numBanheiros > 0 then ext.numBanheiros else row.numBanheiros) ∧
      row'.numVagas = (if ext.numVagas > 0 then ext.numVagas else row.numVagas) ∧
      row'.numAndar = (if ext.numAndar ≠ 0 then ext.numAndar else row.numAndar) ∧
      row'.unidade = (if ext.unidade ≠ "" then ext.unidade else row.unidade) ∧
      row'.condominio = (if ext.condominio > 0 then ext.condominio else row.condominio) ∧
      row'.id = row.id ∧
      row'.idIntegracao = row.idIntegracao ∧
      row'.codigo = row.codigo ∧
      row'.createdAt = row.createdAt := by
  obtain ⟨row', hf, hcase⟩ := updateBranchRow o db imovelID ext eID pvID paID corID
    db1 db2 db3 db4 t1 t2 t3 t4 h1 h2 h3 h4 row hid hfound hupd
  obtain ⟨s1, s2, s3, s4, s5, s6, s7, s8, s9, s10, s11, s12, s13, s14, s15, s16, s17⟩ :=
    mergedImportScalars row ext eID pvID paID corID
  rcases hcase with rfl | ⟨e, rfl⟩
  · exact ⟨_, hf, s1, s2, s3, s4, s5, s6, s7, s8, s9, s10, s11, s12, s13, s14, s15, s16, s17⟩
  · exact ⟨_, hf, s1, s2, s3, s4, s5, s6, s7, s8, s9, s10, s11, s12, s13, s14, s15, s16, s17⟩

/-- A pre-existing property row for the C8 counterexample and witness. -/
def c8Row : Imovel :=
  { id := 1, idIntegracao := "900", titulo := "Old", codigo := "AP900"
    tipo := "CASA", objetivo := "VENDER", finalidade := "RESIDENCIAL"
    descricao := "Velha", metragem := 100, numQuartos := 2, numSuites := 1
    numBanheiros := 1, numVagas := 1, numAndar := 0, unidade := "A"
    condominio := 5, iptu := 0, inscricaoIPTU := "", enderecoID := 0
    empreendimentoID := none, precoVendaID := some 77, precoAluguelID := some 88
    plantaID := none, corretorPrincipalID := none, pacoteID := none
    status := "EM_EDICAO", published := false, closed := false
    visualizacoes := 0, createdAt := 1 }

/-- The C8 database: just the one property row. -/
def c8Db : DB :=
  { DB.empty with imoveis := [c8Row], nextImovelId := 2 }

/-- The C8 external record: an empty title and zero rooms upstream. -/
def c8Ext : ExternalDetailedImovel :=
  { extSample with titulo := "", numQuartos := 0 }

/-- Counterexample to C8 as stated: re-importing `c8Ext` (title "", rooms 0)
over the stored row keeps the old title "Old" and the old room count 2, so
the updated local fields do not equal the external record's values — the
overwrite is guarded, not full. -/
theorem c8_full_scalar_overwrite_cex :
    c8Ext.titulo = "" ∧ c8Ext.numQuartos = 0 ∧
    (findImovelById (upsertImovelAndRelationships Oracle.ok c8Db 1 c8Ext true).db 1).map
        (fun r => (r.titulo, r.numQuartos)) = some ("Old", 2) ∧
    ("Old" : String) ≠ "" ∧ (2 : Int) ≠ 0 := by
  exact ⟨rfl, rfl, rfl, by decide, by decide⟩

def c8Db1 : DB := (resolveEmpreendimento Oracle.ok c8Db c8Ext.empreendimento).2.1

def c8Db2 : DB := (resolvePrecoVenda Oracle.ok c8Db1 c8Ext.precoVenda).2.1

def c8Db3 : DB := (resolvePrecoAluguel Oracle.ok c8Db2 c8Ext.precoAluguel).2.1

def c8Db4 : DB := (resolveCorretorPrincipal Oracle.ok c8Db3 c8Ext.corretorPrincipal).2.1

/-- Witness for the amended C8 at a concrete input: the guarded overwrite
keeps the old title and room count (external "" / 0), overwrites the
description from the external record, and preserves the correlation key and
creation timestamp. -/
theorem c8_full_scalar_overwrite_witness :
    findImovelById c8Db 1 = some c8Row ∧
    ∃ row',
      findImovelById (upsertImovelAndRelationships Oracle.ok c8Db 1 c8Ext true).db 1
        = some row' ∧
      row'.titulo = "Old" ∧ row'.numQuartos = 2 ∧ row'.descricao = "Uma casa" ∧
      row'.idIntegracao = "900" ∧ row'.createdAt = 1 := by
  refine ⟨rfl, ?_⟩
  have h := c8_full_scalar_overwrite Oracle.ok c8Db 1 c8Ext 1 1 0 1
    c8Db1 c8Db2 c8Db3 c8Db4 [Ev.empUpsert] [Ev.pvUpsert] [] [Ev.corUpsert]
    rfl rfl rfl rfl c8Row (by decide) rfl rfl
  obtain ⟨row', hf, s1, s2, s3, s4, s5, s6, s7, s8, s9, s10,
    s11, s12, s13, s14, s15, s16, s17⟩ := h
  refine ⟨row', hf, ?_, ?_, ?_, ?_, ?_⟩
  · rw [s1]; rfl
  · rw [s7]; rfl
  · rw [s5]; rfl
  · rw [s15]; rfl
  · rw [s17]; rfl

end Imoveis

namespace Imoveis

/-! ## C2 — correlation stability of the entity upserters -/

/-- Mapping a function that fixes every element is the identity. -/
theorem map_noop {α : Type} (f : α → α) (l : List α) (h : ∀ a ∈ l, f a = a) :
    l.map f = l := by
  induction l with
  | nil => rfl
  | cons a t ih =>
    rw [List.map_cons, h a (by simp), ih (fun b hb => h b (by simp [hb]))]

/-- The row `upsertEmpreendimento` inserts on its create path. -/
def empRow1 (db : DB) (e1 : ExternalEmpreendimento) : Empreendimento :=
  { id := db.nextEmpId, idIntegracao := toString e1.id
    titulo := e1.titulo, descricao := e1.descricao
    dataEntrega := "", etapaLancamento := ""
    finalidade := if e1.finalidade ≠ "" then e1.finalidade else ""
    tipo := e1.tipo, status := e1.status, localizacao := e1.localizacao
    enderecoID := 0 }

/-- The database after a create-path `upsertEmpreendimento`. -/
def empDb1 (db : DB) (e1 : ExternalEmpreendimento) : DB :=
  { db with empreendimentos := db.empreendimentos ++ [empRow1 db e1]
            nextEmpId := db.nextEmpId + 1 }

/-- The row after re-upserting `e2` over the row created from `e1`: the second
call's business fields, `finalidade` only when non-empty. -/
def empMerged (db : DB) (e1 e2 : ExternalEmpreendimento) : Empreendimento :=
  { empRow1 db e1 with
    titulo := e2.titulo, descricao := e2.descricao, tipo := e2.tipo
    status := e2.status, localizacao := e2.localizacao
    finalidade := if e2.finalidade ≠ "" then e2.finalidade
                  else (empRow1 db e1).finalidade }

/-- The database after the second (update-path) `upsertEmpreendimento`. -/
def empDb2 (db : DB) (e1 e2 : ExternalEmpreendimento) : DB :=
  { empDb1 db e1 with
    empreendimentos := (empDb1 db e1).empreendimentos.map
      (fun r => if r.id = db.nextEmpId then empMerged db e1 e2 else r) }

/-- Development correlation stability: a fresh upsert followed by a re-upsert
with the same external id yields one row, the same local id twice, and the
second call's business fields (finalidade only when non-empty). -/
theorem empStability (o : Oracle) (db : DB) (e1 e2 : ExternalEmpreendimento)
    (hof : o.empFail = false) (he : e1.id ≠ 0) (hsame : e2.id = e1.id)
    (hfind : findEmpByKey db (toString e1.id) = none)
    (hfresh : ∀ r ∈ db.empreendimentos, r.id ≠ db.nextEmpId) :
    upsertEmpreendimento o db (some e1) = (.ok db.nextEmpId, empDb1 db e1) ∧
    upsertEmpreendimento o (empDb1 db e1) (some e2)
      = (.ok db.nextEmpId, empDb2 db e1 e2) ∧
    (empDb2 db e1 e2).empreendimentos.length
      = (empDb1 db e1).empreendimentos.length ∧
    findEmpByKey (empDb2 db e1 e2) (toString e1.id) = some (empMerged db e1 e2) := by
  have he2 : e2.id ≠ 0 := by rw [hsame]; exact he
  have hfind1 : findEmpByKey (empDb1 db e1) (toString e2.id) = some (empRow1 db e1) := by
    unfold findEmpByKey empDb1
    dsimp only
    rw [hsame]
    rw [find?_append_none _ hfind]
    simp [empRow1]
  refine ⟨?_, ?_, ?_, ?_⟩
  · unfold upsertEmpreendimento
    dsimp only
    rw [if_neg he, hfind, hof]
    dsimp only [Bool.false_eq_true, if_false]
    rfl
  · unfold upsertEmpreendimento
    dsimp only
    rw [if_neg he2, hfind1, hof]
    dsimp only [Bool.false_eq_true, if_false]
    rfl
  · simp [empDb2]
  · unfold findEmpByKey empDb2 empDb1
    dsimp only
    rw [List.map_append]
    rw [map_noop _ _ (fun r hr => if_neg (hfresh r hr))]
    rw [find?_append_none _ hfind]
    simp [empRow1, empMerged]
/-- The row `upsertPrecoVenda` inserts on its create path. -/
def pvRow1 (db : DB) (e1 : ExternalPrecoVenda) : PrecoVenda :=
  { id := db.nextPvId, idIntegracao := toString e1.id, preco := e1.preco
    aceitaFinanciamentoBancario := e1.aceitaFinanciamentoBancario
    aceitaFinanciamentoDireto := e1.aceitaFinanciamentoDireto
    aceitaPermuta := e1.aceitaPermuta
    aceitaCartaDeCredito := e1.aceitaCartaDeCredito
    aceitaFGTS := e1.aceitaFGTS, ativo := e1.ativo }

/-- The database after a create-path `upsertPrecoVenda`. -/
def pvDb1 (db : DB) (e1 : ExternalPrecoVenda) : DB :=
  { db with precoVendas := db.precoVendas ++ [pvRow1 db e1]
            nextPvId := db.nextPvId + 1 }

/-- The row after re-upserting `e2` over the row created from `e1`: `Save`
overwrites every business field with the second call's values. -/
def pvMerged (db : DB) (e1 e2 : ExternalPrecoVenda) : PrecoVenda :=
  { pvRow1 db e1 with
    preco := e2.preco
    aceitaFinanciamentoBancario := e2.aceitaFinanciamentoBancario
    aceitaFinanciamentoDireto := e2.aceitaFinanciamentoDireto
    aceitaPermuta := e2.aceitaPermuta
    aceitaCartaDeCredito := e2.aceitaCartaDeCredito
    aceitaFGTS := e2.aceitaFGTS, ativo := e2.ativo }

/-- The database after the second (update-path) `upsertPrecoVenda`. -/
def pvDb2 (db : DB) (e1 e2 : ExternalPrecoVenda) : DB :=
  { pvDb1 db e1 with
    precoVendas := (pvDb1 db e1).precoVendas.map
      (fun r => if r.id = db.nextPvId then pvMerged db e1 e2 else r) }

/-- SalePrice correlation stability: one row, the same local id twice, and a
full overwrite with the second call's values. -/
theorem pvStability (o : Oracle) (db : DB) (e1 e2 : ExternalPrecoVenda)
    (hof : o.pvFail = false) (he : e1.id ≠ 0) (hsame : e2.id = e1.id)
    (hfind : findPvByKey db (toString e1.id) = none)
    (hfresh : ∀ r ∈ db.precoVendas, r.id ≠ db.nextPvId) :
    upsertPrecoVenda o db (some e1) = (.ok db.nextPvId, pvDb1 db e1) ∧
    upsertPrecoVenda o (pvDb1 db e1) (some e2)
      = (.ok db.nextPvId, pvDb2 db e1 e2) ∧
    (pvDb2 db e1 e2).precoVendas.length = (pvDb1 db e1).precoVendas.length ∧
    findPvByKey (pvDb2 db e1 e2) (toString e1.id) = some (pvMerged db e1 e2) := by
  have he2 : e2.id ≠ 0 := by rw [hsame]; exact he
  have hfind1 : findPvByKey (pvDb1 db e1) (toString e2.id) = some (pvRow1 db e1) := by
    unfold findPvByKey pvDb1
    dsimp only
    rw [hsame]
    rw [find?_append_none _ hfind]
    simp [pvRow1]
  refine ⟨?_, ?_, ?_, ?_⟩
  · unfold upsertPrecoVenda
    dsimp only
    rw [if_neg he, hfind, hof]
    dsimp only [Bool.false_eq_true, if_false]
    rfl
  · unfold upsertPrecoVenda
    dsimp only
    rw [if_neg he2, hfind1, hof]
    dsimp only [Bool.false_eq_true, if_false]
    rfl
  · simp [pvDb2]
  · unfold findPvByKey pvDb2 pvDb1
    dsimp only
    rw [List.map_append]
    rw [map_noop _ _ (fun r hr => if_neg (hfresh r hr))]
    rw [find?_append_none _ hfind]
    simp [pvRow1, pvMerged]

/-- The row `upsertPrecoAluguel` inserts on its create path. -/
def paRow1 (db : DB) (e1 : ExternalPrecoAluguel) : PrecoAluguel :=
  { id := db.nextPaId, idIntegracao := toString e1.id, preco := e1.preco
    aceitaFiador := e1.aceitaFiador, ativo := e1.ativo }

/-- The database after a create-path `upsertPrecoAluguel`. -/
def paDb1 (db : DB) (e1 : ExternalPrecoAluguel) : DB :=
  { db with precoAlugueis := db.precoAlugueis ++ [paRow1 db e1]
            nextPaId := db.nextPaId + 1 }

/-- The row after re-upserting `e2`: `Save` overwrites every business field
with the second call's values. -/
def paMerged (db : DB) (e1 e2 : ExternalPrecoAluguel) : PrecoAluguel :=
  { paRow1 db e1 with
    preco := e2.preco, aceitaFiador := e2.aceitaFiador, ativo := e2.ativo }

/-- The database after the second (update-path) `upsertPrecoAluguel`. -/
def paDb2 (db : DB) (e1 e2 : ExternalPrecoAluguel) : DB :=
  { paDb1 db e1 with
    precoAlugueis := (paDb1 db e1).precoAlugueis.map
      (fun r => if r.id = db.nextPaId then paMerged db e1 e2 else r) }

/-- RentPrice correlation stability: one row, the same local id twice, and a
full overwrite with the second call's values. -/
theorem paStability (o : Oracle) (db : DB) (e1 e2 : ExternalPrecoAluguel)
    (hof : o.paFail = false) (he : e1.id ≠ 0) (hsame : e2.id = e1.id)
    (hfind : findPaByKey db (toString e1.id) = none)
    (hfresh : ∀ r ∈ db.precoAlugueis, r.id ≠ db.nextPaId) :
    upsertPrecoAluguel o db (some e1) = (.ok db.nextPaId, paDb1 db e1) ∧
    upsertPrecoAluguel o (paDb1 db e1) (some e2)
      = (.ok db.nextPaId, paDb2 db e1 e2) ∧
    (paDb2 db e1 e2).precoAlugueis.length = (paDb1 db e1).precoAlugueis.length ∧
    findPaByKey (paDb2 db e1 e2) (toString e1.id) = some (paMerged db e1 e2) := by
  have he2 : e2.id ≠ 0 := by rw [hsame]; exact he
  have hfind1 : findPaByKey (paDb1 db e1) (toString e2.id) = some (paRow1 db e1) := by
    unfold findPaByKey paDb1
    dsimp only
    rw [hsame]
    rw [find?_append_none _ hfind]
    simp [paRow1]
  refine ⟨?_, ?_, ?_, ?_⟩
  · unfold upsertPrecoAluguel
    dsimp only
    rw [if_neg he, hfind, hof]
    dsimp only [Bool.false_eq_true, if_false]
    rfl
  · unfold upsertPrecoAluguel
    dsimp only
    rw [if_neg he2, hfind1, hof]
    dsimp only [Bool.false_eq_true, if_false]
    rfl
  · simp [paDb2]
  · unfold findPaByKey paDb2 paDb1
    dsimp only
    rw [List.map_append]
    rw [map_noop _ _ (fun r hr => if_neg (hfresh r hr))]
    rw [find?_append_none _ hfind]
    simp [paRow1, paMerged]

/-- The row `upsertCorretorPrincipal` inserts on its create path when no
organization is attached. -/
def corRow1 (db : DB) (e1 : ExternalCorretor) : CorretorPrincipal :=
  { id := db.nextCorId, idIntegracao := toString e1.id
    nome := e1.nome, email := e1.email, whatsapp := e1.whatsapp
    idiomas := e1.idiomas, bairrosAtuacao := e1.bairrosAtuacao
    organizacaoID := 0 }

/-- The database after a create-path `upsertCorretorPrincipal` with no
organization. -/
def corDb1 (db : DB) (e1 : ExternalCorretor) : DB :=
  { db with corretores := db.corretores ++ [corRow1 db e1]
            nextCorId := db.nextCorId + 1 }

/-- The row after re-upserting `e2` over the row created from `e1`: only
name, email and whatsapp are updated; the languages and districts keep the
first call's values. -/
def corMerged (db : DB) (e1 e2 : ExternalCorretor) : CorretorPrincipal :=
  corApplyUpdates (corRow1 db e1) e2 0

set_option maxHeartbeats 1000000 in
/-- Broker correlation stability (organization-free external records): one
row, the same local id twice; name, email and whatsapp take the second
call's values but the languages and districts keep the first call's. -/
theorem corStability (o : Oracle) (db : DB) (e1 e2 : ExternalCorretor)
    (hof : o.corFail = false) (hm1 : e1.email ≠ "") (hm2 : e2.email ≠ "")
    (hsame : e2.id = e1.id)
    (ho1 : e1.organizacao.nome = "") (ho2 : e2.organizacao.nome = "")
    (hfind : findCorByKey db (toString e1.id) = none)
    (hfresh : ∀ r ∈ db.corretores, r.id ≠ db.nextCorId) :
    upsertCorretorPrincipal o db e1 = (.ok db.nextCorId, corDb1 db e1) ∧
    (∃ db2,
      upsertCorretorPrincipal o (corDb1 db e1) e2 = (.ok db.nextCorId, db2) ∧
      db2.corretores.length = (corDb1 db e1).corretores.length ∧
      findCorByKey db2 (toString e1.id) = some (corMerged db e1 e2)) ∧
    (corMerged db e1 e2).nome = e2.nome ∧
    (corMerged db e1 e2).email = e2.email ∧
    (corMerged db e1 e2).whatsapp = e2.whatsapp ∧
    (corMerged db e1 e2).idiomas = e1.idiomas ∧
    (corMerged db e1 e2).bairrosAtuacao = e1.bairrosAtuacao := by
  have hfind1 : findCorByKey (corDb1 db e1) (toString e2.id) = some (corRow1 db e1) := by
    unfold findCorByKey corDb1
    dsimp only
    rw [hsame]
    rw [find?_append_none _ hfind]
    simp [corRow1]
  refine ⟨?_, ?_, ?_, ?_, ?_, ?_, ?_⟩
  · unfold upsertCorretorPrincipal
    rw [if_neg (by simp [hm1]), if_neg (by simp [ho1])]
    dsimp only
    rw [hfind, hof]
    dsimp only [Bool.false_eq_true, if_false]
    rfl
  · by_cases hch : corApplyUpdates (corRow1 db e1) e2 0 ≠ corRow1 db e1
    · refine ⟨{ corDb1 db e1 with
          corretores := (corDb1 db e1).corretores.map
            (fun r => if r.id = db.nextCorId then corMerged db e1 e2 else r) },
        ?_, ?_, ?_⟩
      · unfold upsertCorretorPrincipal
        rw [if_neg (by simp [hm2]), if_neg (by simp [ho2])]
        dsimp only
        simp only [hfind1]
        rw [if_pos hch, hof]
        rfl
      · simp
      · unfold findCorByKey corDb1
        dsimp only
        rw [List.map_append]
        rw [map_noop _ _ (fun r hr => if_neg (hfresh r hr))]
        rw [find?_append_none _ hfind]
        simp [corRow1, corMerged, corApplyUpdates]
    · refine ⟨corDb1 db e1, ?_, rfl, ?_⟩
      · unfold upsertCorretorPrincipal
        rw [if_neg (by simp [hm2]), if_neg (by simp [ho2])]
        dsimp only
        simp only [hfind1]
        rw [if_neg hch]
        rfl
      · rw [show corMerged db e1 e2 = corRow1 db e1 from not_not.mp hch]
        unfold findCorByKey corDb1
        dsimp only
        rw [hsame] at hfind1
        unfold findCorByKey at hfind1
        exact hfind1
  · unfold corMerged corApplyUpdates corRow1
    dsimp only
    by_cases h : e1.nome = e2.nome <;> simp [h]
  · unfold corMerged corApplyUpdates corRow1
    dsimp only
    by_cases h : e1.email = e2.email <;> simp [h]
  · unfold corMerged corApplyUpdates corRow1
    dsimp only
    by_cases h : e1.whatsapp = e2.whatsapp <;> simp [h]
  · rfl
  · rfl

/-- With a working store, the organization upsert of a named organization
always succeeds and touches only the organization table. -/
theorem upsertOrg_ok (o : Oracle) (db : DB) (og : ExternalOrganizacao)
    (hn : og.nome ≠ "") (hof : o.orgFail = false) :
    ∃ g dbO, upsertOrganizacao o db og = (.ok g, dbO) ∧ OnlyOrg db dbO := by
  unfold upsertOrganizacao
  rw [if_neg (by simpa using hn)]
  rcases hf : findOrgByNome db og.nome with _ | org
  · simp only [hf]
    simp only [hof, Bool.false_eq_true, if_false]
    exact ⟨_, _, rfl,
      ⟨rfl, rfl, rfl, rfl, rfl, rfl, rfl, rfl, rfl, rfl, rfl, rfl, rfl, rfl, rfl⟩⟩
  · simp only [hf]
    by_cases hp : org.perfil ≠ og.perfil
    · rw [if_pos hp]
      simp only [hof, Bool.false_eq_true, if_false]
      exact ⟨_, _, rfl,
        ⟨rfl, rfl, rfl, rfl, rfl, rfl, rfl, rfl, rfl, rfl, rfl, rfl, rfl, rfl, rfl⟩⟩
    · rw [if_neg hp]
      exact ⟨_, _, rfl,
        ⟨rfl, rfl, rfl, rfl, rfl, rfl, rfl, rfl, rfl, rfl, rfl, rfl, rfl, rfl, rfl⟩⟩

/-- The broker row the import inserts: fresh local id, the external values,
and whatever organization id the organization step resolved (0 when none). -/
def corRowG (i : Nat) (e : ExternalCorretor) (g : Nat) : CorretorPrincipal :=
  { id := i, idIntegracao := toString e.id
    nome := e.nome, email := e.email, whatsapp := e.whatsapp
    idiomas := e.idiomas, bairrosAtuacao := e.bairrosAtuacao
    organizacaoID := g }

set_option maxHeartbeats 1600000 in
/-- Broker correlation stability, organizations included: a fresh upsert
followed by a re-upsert of the same external id yields one row and the same
local id twice; the stored row takes the second call's name, email and
whatsapp, keeps the first call's languages and districts, and re-points the
organization reference exactly when the second call resolved a non-zero
organization id different from the stored one. -/
theorem corStabilityGen (o : Oracle) (db : DB) (e1 e2 : ExternalCorretor)
    (hcf : o.corFail = false) (hof : o.orgFail = false)
    (hm1 : e1.email ≠ "") (hm2 : e2.email ≠ "") (hsame : e2.id = e1.id)
    (hfindC : findCorByKey db (toString e1.id) = none)
    (hfreshC : ∀ r ∈ db.corretores, r.id ≠ db.nextCorId) :
    ∃ g1 g2 db1 db2,
      upsertCorretorPrincipal o db e1 = (.ok db.nextCorId, db1) ∧
      upsertCorretorPrincipal o db1 e2 = (.ok db.nextCorId, db2) ∧
      db2.corretores.length = db1.corretores.length ∧
      db1.corretores = db.corretores ++ [corRowG db.nextCorId e1 g1] ∧
      (e1.organizacao.nome = "" → g1 = 0) ∧
      (e1.organizacao.nome ≠ "" →
        ∃ dbX, upsertOrganizacao o db e1.organizacao = (.ok g1, dbX)) ∧
      (e2.organizacao.nome = "" → g2 = 0) ∧
      (e2.organizacao.nome ≠ "" →
        ∃ dbX, upsertOrganizacao o db1 e2.organizacao = (.ok g2, dbX)) ∧
      findCorByKey db2 (toString e1.id)
        = some (corApplyUpdates (corRowG db.nextCorId e1 g1) e2 g2) ∧
      (corApplyUpdates (corRowG db.nextCorId e1 g1) e2 g2).nome = e2.nome ∧
      (corApplyUpdates (corRowG db.nextCorId e1 g1) e2 g2).email = e2.email ∧
      (corApplyUpdates (corRowG db.nextCorId e1 g1) e2 g2).whatsapp = e2.whatsapp ∧
      (corApplyUpdates (corRowG db.nextCorId e1 g1) e2 g2).idiomas = e1.idiomas ∧
      (corApplyUpdates (corRowG db.nextCorId e1 g1) e2 g2).bairrosAtuacao
        = e1.bairrosAtuacao ∧
      (corApplyUpdates (corRowG db.nextCorId e1 g1) e2 g2).organizacaoID
        = (if g2 ≠ 0 ∧ g1 ≠ g2 then g2 else g1) := by
  obtain ⟨g1, dbO, horg1, hOO, hg1z, hg1r⟩ :
      ∃ g1 dbO, (if e1.organizacao.nome ≠ "" then
          upsertOrganizacao o db e1.organizacao else (.ok 0, db)) = (.ok g1, dbO) ∧
        OnlyOrg db dbO ∧ (e1.organizacao.nome = "" → g1 = 0) ∧
        (e1.organizacao.nome ≠ "" →
          ∃ dbX, upsertOrganizacao o db e1.organizacao = (.ok g1, dbX)) := by
    by_cases hn1 : e1.organizacao.nome = ""
    · exact ⟨0, db, by rw [if_neg (by simpa using hn1)],
        ⟨rfl, rfl, rfl, rfl, rfl, rfl, rfl, rfl, rfl, rfl, rfl, rfl, rfl, rfl, rfl⟩,
        fun _ => rfl, fun h => absurd hn1 h⟩
    · obtain ⟨g, dbO, heq, hOO⟩ := upsertOrg_ok o db e1.organizacao hn1 hof
      exact ⟨g, dbO, by rw [if_pos (by simpa using hn1)]; exact heq, hOO,
        fun h => absurd h hn1, fun _ => ⟨dbO, heq⟩⟩
  obtain ⟨oo1, oo2, oo3, oo4, oo5, oo6, oo7, oo8, oo9, oo10, oo11, oo12, oo13,
    oo14, oo15⟩ := hOO
  have hfindO : findCorByKey dbO (toString e1.id) = none := by
    unfold findCorByKey at hfindC ⊢
    rw [oo5]
    exact hfindC
  have hcall1 : upsertCorretorPrincipal o db e1
      = (.ok db.nextCorId,
         { dbO with corretores := dbO.corretores ++ [corRowG db.nextCorId e1 g1]
                    nextCorId := dbO.nextCorId + 1 }) := by
    unfold upsertCorretorPrincipal
    rw [if_neg (by simpa using hm1)]
    simp only [horg1]
    simp only [hfindO]
    simp only [hcf, Bool.false_eq_true, if_false]
    rw [oo12]
    rfl
  have hdb1cor : ({ dbO with
        corretores := dbO.corretores ++ [corRowG db.nextCorId e1 g1]
        nextCorId := dbO.nextCorId + 1 } : DB).corretores
      = db.corretores ++ [corRowG db.nextCorId e1 g1] := by
    show dbO.corretores ++ _ = _
    rw [oo5]
  obtain ⟨g2, dbP, horg2, hPP, hg2z, hg2r⟩ :
      ∃ g2 dbP, (if e2.organizacao.nome ≠ "" then
          upsertOrganizacao o { dbO with
            corretores := dbO.corretores ++ [corRowG db.nextCorId e1 g1]
            nextCorId := dbO.nextCorId + 1 } e2.organizacao
          else (.ok 0, { dbO with
            corretores := dbO.corretores ++ [corRowG db.nextCorId e1 g1]
            nextCorId := dbO.nextCorId + 1 })) = (.ok g2, dbP) ∧
        OnlyOrg { dbO with
            corretores := dbO.corretores ++ [corRowG db.nextCorId e1 g1]
            nextCorId := dbO.nextCorId + 1 } dbP ∧
        (e2.organizacao.nome = "" → g2 = 0) ∧
        (e2.organizacao.nome ≠ "" →
          ∃ dbX, upsertOrganizacao o { dbO with
            corretores := dbO.corretores ++ [corRowG db.nextCorId e1 g1]
            nextCorId := dbO.nextCorId + 1 } e2.organizacao = (.ok g2, dbX)) := by
    by_cases hn2 : e2.organizacao.nome = ""
    · exact ⟨0, _, by rw [if_neg (by simpa using hn2)],
        ⟨rfl, rfl, rfl, rfl, rfl, rfl, rfl, rfl, rfl, rfl, rfl, rfl, rfl, rfl, rfl⟩,
        fun _ => rfl, fun h => absurd hn2 h⟩
    · obtain ⟨g, dbP, heq, hPP⟩ := upsertOrg_ok o _ e2.organizacao hn2 hof
      exact ⟨g, dbP, by rw [if_pos (by simpa using hn2)]; exact heq, hPP,
        fun h => absurd h hn2, fun _ => ⟨dbP, heq⟩⟩
  obtain ⟨pp1, pp2, pp3, pp4, pp5, pp6, pp7, pp8, pp9, pp10, pp11, pp12, pp13,
    pp14, pp15⟩ := hPP
  have hfindP : findCorByKey dbP (toString e2.id)
      = some (corRowG db.nextCorId e1 g1) := by
    unfold findCorByKey
    rw [pp5, hdb1cor, hsame]
    unfold findCorByKey at hfindC
    rw [find?_append_none _ hfindC]
    simp [corRowG]
  have hpol1 : (corApplyUpdates (corRowG db.nextCorId e1 g1) e2 g2).nome = e2.nome := by
    unfold corApplyUpdates corRowG
    dsimp only
    by_cases h : e1.nome = e2.nome <;> simp [h]
  have hpol2 : (corApplyUpdates (corRowG db.nextCorId e1 g1) e2 g2).email = e2.email := by
    unfold corApplyUpdates corRowG
    dsimp only
    by_cases h : e1.email = e2.email <;> simp [h]
  have hpol3 : (corApplyUpdates (corRowG db.nextCorId e1 g1) e2 g2).whatsapp
      = e2.whatsapp := by
    unfold corApplyUpdates corRowG
    dsimp only
    by_cases h : e1.whatsapp = e2.whatsapp <;> simp [h]
  by_cases hch : corApplyUpdates (corRowG db.nextCorId e1 g1) e2 g2
      ≠ corRowG db.nextCorId e1 g1
  · refine ⟨g1, g2, _,
      { dbP with
          corretores := dbP.corretores.map
            (fun r =>
              if r.id = (corRowG db.nextCorId e1 g1).id then
                corApplyUpdates (corRowG db.nextCorId e1 g1) e2 g2
              else r) },
      hcall1, ?_, ?_, hdb1cor, hg1z, hg1r, hg2z, hg2r, ?_, hpol1, hpol2, hpol3,
      rfl, rfl, rfl⟩
    · unfold upsertCorretorPrincipal
      rw [if_neg (by simpa using hm2)]
      simp only [horg2]
      simp only [hfindP]
      rw [if_pos hch]
      simp only [hcf, Bool.false_eq_true, if_false]
      rfl
    · show (dbP.corretores.map _).length = _
      rw [List.length_map, pp5]
    · unfold findCorByKey
      show (dbP.corretores.map _).find? _ = _
      rw [pp5, hdb1cor, List.map_append]
      rw [show (corRowG db.nextCorId e1 g1).id = db.nextCorId from rfl]
      rw [map_noop _ _ (fun r hr => if_neg (fun h => hfreshC r hr h))]
      unfold findCorByKey at hfindC
      rw [find?_append_none _ hfindC]
      dsimp only [List.map]
      rw [if_pos (show (corRowG db.nextCorId e1 g1).id = db.nextCorId from rfl)]
      simp [corApplyUpdates, corRowG]
  · refine ⟨g1, g2, _, dbP, hcall1, ?_, ?_, hdb1cor, hg1z, hg1r, hg2z, hg2r, ?_,
      hpol1, hpol2, hpol3, rfl, rfl, rfl⟩
    · unfold upsertCorretorPrincipal
      rw [if_neg (by simpa using hm2)]
      simp only [horg2]
      simp only [hfindP]
      rw [if_neg hch]
      rfl
    · rw [pp5]
    · rw [hsame] at hfindP
      rw [hfindP, not_not.mp hch]

/-- Property correlation stability: updating an existing property row
succeeds in place — the same local id is returned and no row is added or
removed (the merge semantics are the guarded updates of `applyUpdateReq` and
`updatesNonZero`). -/
theorem imovelStability (o : Oracle) (db : DB) (id : Nat)
    (req : UpdateImovelRequest) (row : Imovel) (hid : id ≠ 0)
    (hfound : findImovelById db id = some row) (hcod : req.codigo = "")
    (hupd : o.updateFail = false) :
    (UpdateImovel o db id req).1 = .ok id ∧
    ((UpdateImovel o db id req).2).imoveis.length = db.imoveis.length := by
  rw [UpdateImovel_ok o db id req row hid hfound hcod hupd]
  exact ⟨rfl, by simp [repoUpdateImovel]⟩

/-- C2 (amended): each upserter is correlation-stable — re-upserting the same
external id never creates a second row and returns the same local id — but
the second call's values are taken over only per the per-entity policy:
Property through the guarded updates of `UpdateImovel`; Development all
business fields with `finalidade` only when non-empty; SalePrice and
RentPrice fully; Broker only name, email and whatsapp — plus the
organization reference when the second call resolves a non-zero organization
id different from the stored one — while the languages and districts keep
the first call's values. -/
theorem c2_correlation_stability :
    (∀ (o : Oracle) (db : DB) (id : Nat) (req : UpdateImovelRequest) (row : Imovel),
      id ≠ 0 → findImovelById db id = some row → req.codigo = "" →
      o.updateFail = false →
      (UpdateImovel o db id req).1 = .ok id ∧
      ((UpdateImovel o db id req).2).imoveis.length = db.imoveis.length) ∧
    (∀ (o : Oracle) (db : DB) (e1 e2 : ExternalEmpreendimento),
      o.empFail = false → e1.id ≠ 0 → e2.id = e1.id →
      findEmpByKey db (toString e1.id) = none →
      (∀ r ∈ db.empreendimentos, r.id ≠ db.nextEmpId) →
      upsertEmpreendimento o db (some e1) = (.ok db.nextEmpId, empDb1 db e1) ∧
      upsertEmpreendimento o (empDb1 db e1) (some e2)
        = (.ok db.nextEmpId, empDb2 db e1 e2) ∧
      (empDb2 db e1 e2).empreendimentos.length
        = (empDb1 db e1).empreendimentos.length ∧
      findEmpByKey (empDb2 db e1 e2) (toString e1.id) = some (empMerged db e1 e2)) ∧
    (∀ (o : Oracle) (db : DB) (e1 e2 : ExternalPrecoVenda),
      o.pvFail = false → e1.id ≠ 0 → e2.id = e1.id →
      findPvByKey db (toString e1.id) = none →
      (∀ r ∈ db.precoVendas, r.id ≠ db.nextPvId) →
      upsertPrecoVenda o db (some e1) = (.ok db.nextPvId, pvDb1 db e1) ∧
      upsertPrecoVenda o (pvDb1 db e1) (some e2)
        = (.ok db.nextPvId, pvDb2 db e1 e2) ∧
      (pvDb2 db e1 e2).precoVendas.length = (pvDb1 db e1).precoVendas.length ∧
      findPvByKey (pvDb2 db e1 e2) (toString e1.id) = some (pvMerged db e1 e2)) ∧
    (∀ (o : Oracle) (db : DB) (e1 e2 : ExternalPrecoAluguel),
      o.paFail = false → e1.id ≠ 0 → e2.id = e1.id →
      findPaByKey db (toString e1.id) = none →
      (∀ r ∈ db.precoAlugueis, r.id ≠ db.nextPaId) →
      upsertPrecoAluguel o db (some e1) = (.ok db.nextPaId, paDb1 db e1) ∧
      upsertPrecoAluguel o (paDb1 db e1) (some e2)
        = (.ok db.nextPaId, paDb2 db e1 e2) ∧
      (paDb2 db e1 e2).precoAlugueis.length = (paDb1 db e1).precoAlugueis.length ∧
      findPaByKey (paDb2 db e1 e2) (toString e1.id) = some (paMerged db e1 e2)) ∧
    (∀ (o : Oracle) (db : DB) (e1 e2 : ExternalCorretor),
      o.corFail = false → o.orgFail = false →
      e1.email ≠ "" → e2.email ≠ "" → e2.id = e1.id →
      findCorByKey db (toString e1.id) = none →
      (∀ r ∈ db.corretores, r.id ≠ db.nextCorId) →
      ∃ g1 g2 db1 db2,
        upsertCorretorPrincipal o db e1 = (.ok db.nextCorId, db1) ∧
        upsertCorretorPrincipal o db1 e2 = (.ok db.nextCorId, db2) ∧
        db2.corretores.length = db1.corretores.length ∧
        db1.corretores = db.corretores ++ [corRowG db.nextCorId e1 g1] ∧
        (e1.organizacao.nome = "" → g1 = 0) ∧
        (e1.organizacao.nome ≠ "" →
          ∃ dbX, upsertOrganizacao o db e1.organizacao = (.ok g1, dbX)) ∧
        (e2.organizacao.nome = "" → g2 = 0) ∧
        (e2.organizacao.nome ≠ "" →
          ∃ dbX, upsertOrganizacao o db1 e2.organizacao = (.ok g2, dbX)) ∧
        findCorByKey db2 (toString e1.id)
          = some (corApplyUpdates (corRowG db.nextCorId e1 g1) e2 g2) ∧
        (corApplyUpdates (corRowG db.nextCorId e1 g1) e2 g2).nome = e2.nome ∧
        (corApplyUpdates (corRowG db.nextCorId e1 g1) e2 g2).email = e2.email ∧
        (corApplyUpdates (corRowG db.nextCorId e1 g1) e2 g2).whatsapp
          = e2.whatsapp ∧
        (corApplyUpdates (corRowG db.nextCorId e1 g1) e2 g2).idiomas
          = e1.idiomas ∧
        (corApplyUpdates (corRowG db.nextCorId e1 g1) e2 g2).bairrosAtuacao
          = e1.bairrosAtuacao ∧
        (corApplyUpdates (corRowG db.nextCorId e1 g1) e2 g2).organizacaoID
          = (if g2 ≠ 0 ∧ g1 ≠ g2 then g2 else g1)) :=
  ⟨fun o db id req row h1 h2 h3 h4 => imovelStability o db id req row h1 h2 h3 h4,
   fun o db e1 e2 h1 h2 h3 h4 h5 => empStability o db e1 e2 h1 h2 h3 h4 h5,
   fun o db e1 e2 h1 h2 h3 h4 h5 => pvStability o db e1 e2 h1 h2 h3 h4 h5,
   fun o db e1 e2 h1 h2 h3 h4 h5 => paStability o db e1 e2 h1 h2 h3 h4 h5,
   fun o db e1 e2 h1 h2 h3 h4 h5 h6 h7 =>
     corStabilityGen o db e1 e2 h1 h2 h3 h4 h5 h6 h7⟩

/-- First C2 broker record: languages [pt]. -/
def c2Cor1 : ExternalCorretor :=
  { id := 7, nome := "Ana", email := "a@b.c", idiomas := ["pt"] }

/-- Second C2 broker record: same external id, languages [en]. -/
def c2Cor2 : ExternalCorretor := { c2Cor1 with idiomas := ["en"] }

/-- Counterexample to C2 as stated: upserting broker 7 twice — first with
languages [pt], then with [en] — keeps one row and one id, but the stored
row still carries [pt]: it does not reflect the values of the second call. -/
theorem c2_correlation_stability_cex :
    c2Cor2.idiomas ≠ c2Cor1.idiomas ∧
    (upsertCorretorPrincipal Oracle.ok DB.empty c2Cor1).1 = .ok 1 ∧
    (upsertCorretorPrincipal Oracle.ok
        (upsertCorretorPrincipal Oracle.ok DB.empty c2Cor1).2 c2Cor2).1 = .ok 1 ∧
    (findCorByKey (upsertCorretorPrincipal Oracle.ok
        (upsertCorretorPrincipal Oracle.ok DB.empty c2Cor1).2 c2Cor2).2 "7").map
      (fun r => r.idiomas) = some ["pt"] :=
  ⟨by decide, rfl, rfl, rfl⟩

/-- A pre-existing property row for the C2 witness. -/
def c2Row : Imovel :=
  { id := 1, idIntegracao := "900", titulo := "Old", codigo := "AP900"
    tipo := "CASA", objetivo := "VENDER", finalidade := "RESIDENCIAL"
    descricao := "Velha", metragem := 100, numQuartos := 2, numSuites := 1
    numBanheiros := 1, numVagas := 1, numAndar := 0, unidade := "A"
    condominio := 5, iptu := 0, inscricaoIPTU := "", enderecoID := 0
    empreendimentoID := none, precoVendaID := some 77, precoAluguelID := some 88
    plantaID := none, corretorPrincipalID := none, pacoteID := none
    status := "EM_EDICAO", published := false, closed := false
    visualizacoes := 0, createdAt := 1 }

/-- The C2 witness database for the Property part. -/
def c2Db : DB := { DB.empty with imoveis := [c2Row], nextImovelId := 2 }

/-- First and second C2 development records (same external id 33). -/
def c2Emp1 : ExternalEmpreendimento := { id := 33, titulo := "T1" }

def c2Emp2 : ExternalEmpreendimento := { id := 33, titulo := "T2", finalidade := "RES" }

/-- First and second C2 sale-price records (same external id 55). -/
def c2Pv1 : ExternalPrecoVenda := { id := 55, preco := 100, ativo := true }

def c2Pv2 : ExternalPrecoVenda := { id := 55, preco := 200, ativo := false }

/-- First and second C2 rent-price records (same external id 66). -/
def c2Pa1 : ExternalPrecoAluguel := { id := 66, preco := 10, ativo := true }

def c2Pa2 : ExternalPrecoAluguel := { id := 66, preco := 20 }

/-- First C2 organization-bearing broker record. -/
def c2CorOrg1 : ExternalCorretor :=
  { id := 9, nome := "Ana", email := "a@b.c", idiomas := ["pt"]
    organizacao := { nome := "Acme", perfil := "IMOBILIARIA" } }

/-- Second C2 organization-bearing broker record: same external id, new
name, whatsapp and a different organization. -/
def c2CorOrg2 : ExternalCorretor :=
  { id := 9, nome := "Bia", email := "b@b.c", whatsapp := "99"
    idiomas := ["en"], organizacao := { nome := "Beta", perfil := "CONSTRUTORA" } }

/-- Witness for the amended C2 at concrete inputs: each part of the
stability conjunction applied to a concrete double upsert. -/
theorem c2_correlation_stability_witness :
    ((UpdateImovel Oracle.ok c2Db 1 {}).1 = .ok 1 ∧
     ((UpdateImovel Oracle.ok c2Db 1 {}).2).imoveis.length = c2Db.imoveis.length) ∧
    (upsertEmpreendimento Oracle.ok DB.empty (some c2Emp1)
       = (.ok DB.empty.nextEmpId, empDb1 DB.empty c2Emp1) ∧
     upsertEmpreendimento Oracle.ok (empDb1 DB.empty c2Emp1) (some c2Emp2)
       = (.ok DB.empty.nextEmpId, empDb2 DB.empty c2Emp1 c2Emp2) ∧
     (empDb2 DB.empty c2Emp1 c2Emp2).empreendimentos.length
       = (empDb1 DB.empty c2Emp1).empreendimentos.length ∧
     findEmpByKey (empDb2 DB.empty c2Emp1 c2Emp2) (toString c2Emp1.id)
       = some (empMerged DB.empty c2Emp1 c2Emp2)) ∧
    (upsertPrecoVenda Oracle.ok DB.empty (some c2Pv1)
       = (.ok DB.empty.nextPvId, pvDb1 DB.empty c2Pv1) ∧
     upsertPrecoVenda Oracle.ok (pvDb1 DB.empty c2Pv1) (some c2Pv2)
       = (.ok DB.empty.nextPvId, pvDb2 DB.empty c2Pv1 c2Pv2) ∧
     (pvDb2 DB.empty c2Pv1 c2Pv2).precoVendas.length
       = (pvDb1 DB.empty c2Pv1).precoVendas.length ∧
     findPvByKey (pvDb2 DB.empty c2Pv1 c2Pv2) (toString c2Pv1.id)
       = some (pvMerged DB.empty c2Pv1 c2Pv2)) ∧
    (upsertPrecoAluguel Oracle.ok DB.empty (some c2Pa1)
       = (.ok DB.empty.nextPaId, paDb1 DB.empty c2Pa1) ∧
     upsertPrecoAluguel Oracle.ok (paDb1 DB.empty c2Pa1) (some c2Pa2)
       = (.ok DB.empty.nextPaId, paDb2 DB.empty c2Pa1 c2Pa2) ∧
     (paDb2 DB.empty c2Pa1 c2Pa2).precoAlugueis.length
       = (paDb1 DB.empty c2Pa1).precoAlugueis.length ∧
     findPaByKey (paDb2 DB.empty c2Pa1 c2Pa2) (toString c2Pa1.id)
       = some (paMerged DB.empty c2Pa1 c2Pa2)) ∧
    (∃ g1 g2 db1 db2,
       upsertCorretorPrincipal Oracle.ok DB.empty c2CorOrg1
         = (.ok DB.empty.nextCorId, db1) ∧
       upsertCorretorPrincipal Oracle.ok db1 c2CorOrg2
         = (.ok DB.empty.nextCorId, db2) ∧
       db2.corretores.length = db1.corretores.length ∧
       db1.corretores = DB.empty.corretores
         ++ [corRowG DB.empty.nextCorId c2CorOrg1 g1] ∧
       (c2CorOrg1.organizacao.nome = "" → g1 = 0) ∧
       (c2CorOrg1.organizacao.nome ≠ "" →
         ∃ dbX, upsertOrganizacao Oracle.ok DB.empty c2CorOrg1.organizacao
           = (.ok g1, dbX)) ∧
       (c2CorOrg2.organizacao.nome = "" → g2 = 0) ∧
       (c2CorOrg2.organizacao.nome ≠ "" →
         ∃ dbX, upsertOrganizacao Oracle.ok db1 c2CorOrg2.organizacao
           = (.ok g2, dbX)) ∧
       findCorByKey db2 (toString c2CorOrg1.id)
         = some (corApplyUpdates
             (corRowG DB.empty.nextCorId c2CorOrg1 g1) c2CorOrg2 g2) ∧
       (corApplyUpdates (corRowG DB.empty.nextCorId c2CorOrg1 g1)
           c2CorOrg2 g2).nome = c2CorOrg2.nome ∧
       (corApplyUpdates (corRowG DB.empty.nextCorId c2CorOrg1 g1)
           c2CorOrg2 g2).email = c2CorOrg2.email ∧
       (corApplyUpdates (corRowG DB.empty.nextCorId c2CorOrg1 g1)
           c2CorOrg2 g2).whatsapp = c2CorOrg2.whatsapp ∧
       (corApplyUpdates (corRowG DB.empty.nextCorId c2CorOrg1 g1)
           c2CorOrg2 g2).idiomas = c2CorOrg1.idiomas ∧
       (corApplyUpdates (corRowG DB.empty.nextCorId c2CorOrg1 g1)
           c2CorOrg2 g2).bairrosAtuacao = c2CorOrg1.bairrosAtuacao ∧
       (corApplyUpdates (corRowG DB.empty.nextCorId c2CorOrg1 g1)
           c2CorOrg2 g2).organizacaoID
         = (if g2 ≠ 0 ∧ g1 ≠ g2 then g2 else g1)) := by
  refine ⟨?_, ?_, ?_, ?_, ?_⟩
  · exact c2_correlation_stability.1 Oracle.ok c2Db 1 {} c2Row
      (by decide) rfl rfl rfl
  · exact c2_correlation_stability.2.1 Oracle.ok DB.empty c2Emp1 c2Emp2
      rfl (by decide) rfl rfl (by simp [DB.empty])
  · exact c2_correlation_stability.2.2.1 Oracle.ok DB.empty c2Pv1 c2Pv2
      rfl (by decide) rfl rfl (by simp [DB.empty])
  · exact c2_correlation_stability.2.2.2.1 Oracle.ok DB.empty c2Pa1 c2Pa2
      rfl (by decide) rfl rfl (by simp [DB.empty])
  · exact c2_correlation_stability.2.2.2.2 Oracle.ok DB.empty c2CorOrg1 c2CorOrg2
      rfl rfl (by decide) (by decide) rfl rfl (by simp [DB.empty])

/-! ## C7 — partial-batch resilience -/

/-- Unfolding equation of the loop trace on a non-empty list. -/
theorem outcomeTrace_cons (env : FetchEnv) (db : DB) (a : Nat) (r : List Nat) :
    outcomeTrace env db (a :: r)
      = (processItem env db a).1 :: outcomeTrace env (processItem env db a).2 r := by
  conv_lhs => unfold outcomeTrace

/-- Unfolding equation of the loop counters on a non-empty list. -/
theorem processItems_cons (env : FetchEnv) (db : DB) (a : Nat) (r : List Nat) :
    processItems env db (a :: r)
      = ((match (processItem env db a).1 with
          | .created => ⟨(processItems env (processItem env db a).2 r).1.created + 1,
              (processItems env (processItem env db a).2 r).1.updated,
              (processItems env (processItem env db a).2 r).1.failed⟩
          | .updated => ⟨(processItems env (processItem env db a).2 r).1.created,
              (processItems env (processItem env db a).2 r).1.updated + 1,
              (processItems env (processItem env db a).2 r).1.failed⟩
          | .failed => ⟨(processItems env (processItem env db a).2 r).1.created,
              (processItems env (processItem env db a).2 r).1.updated,
              (processItems env (processItem env db a).2 r).1.failed + 1⟩ : Counts),
         (processItems env (processItem env db a).2 r).2) := by
  conv_lhs => unfold processItems

/-- The loop classifies every summary: one outcome per item. -/
theorem outcomeTrace_length (env : FetchEnv) :
    ∀ (l : List Nat) (db : DB), (outcomeTrace env db l).length = l.length := by
  intro l
  induction l with
  | nil => intro db; rfl
  | cons a t ih =>
    intro db
    rw [outcomeTrace_cons, List.length_cons, ih]
    rfl

/-- The three counters always add up to the number of summaries: no early
termination. -/
theorem processItems_total (env : FetchEnv) :
    ∀ (l : List Nat) (db : DB),
      (processItems env db l).1.created + (processItems env db l).1.updated
        + (processItems env db l).1.failed = l.length := by
  intro l
  induction l with
  | nil => intro db; rfl
  | cons a t ih =>
    intro db
    have htot := ih (processItem env db a).2
    rw [processItems_cons, List.length_cons]
    rcases (processItem env db a).1 <;> dsimp only <;> omega

/-- The classification trace splits over list concatenation, the second part
running from the database the first part left behind. -/
theorem outcomeTrace_append (env : FetchEnv) :
    ∀ (l1 : List Nat) (db : DB) (l2 : List Nat),
      outcomeTrace env db (l1 ++ l2)
        = outcomeTrace env db l1 ++ outcomeTrace env (processItems env db l1).2 l2 := by
  intro l1
  induction l1 with
  | nil => intro db l2; rfl
  | cons a t ih =>
    intro db l2
    rw [List.cons_append, outcomeTrace_cons, outcomeTrace_cons env db a t,
      processItems_cons]
    dsimp only
    rw [ih, List.cons_append]

/-- Every error path of `UpdateImovel` leaves the database untouched. -/
theorem UpdateImovel_err (o : Oracle) (db : DB) (id : Nat)
    (req : UpdateImovelRequest) :
    ∀ (u : Unit) (db' : DB), UpdateImovel o db id req = (.error u, db') → db' = db := by
  intro u db' h
  unfold UpdateImovel at h
  repeat' split at h
  all_goals first
    | (cases h; rfl)
    | (exact absurd h (by simp))

/-- Every error path of `CreateImovel` leaves the database untouched. -/
theorem CreateImovel_err (o : Oracle) (db : DB) (req : CreateImovelRequest) :
    ∀ (u : Unit) (db' : DB), CreateImovel o db req = (.error u, db') → db' = db := by
  intro u db' h
  unfold CreateImovel at h
  repeat' split at h
  all_goals first
    | (cases h; rfl)
    | (exact absurd h (by simp))

/-- The create-branch address step never touches the property table. -/
theorem createEnderecoStep_imoveis (o : Oracle) (db : DB) (x : ExternalEndereco) :
    (createEnderecoStep o db x).2.1.imoveis = db.imoveis := by
  unfold createEnderecoStep
  by_cases hrua : x.rua ≠ ""
  · rw [if_pos hrua]
    rcases hc : createEndereco o db x with ⟨rc, dbc⟩
    have h := createEndereco_imoveis o db x
    rw [hc] at h
    cases rc <;> exact h
  · rw [if_neg hrua]

set_option maxHeartbeats 1000000 in
/-- A reconciliation that returns an error never changes the property
table: the resolvers only touch related tables and every failing
create/update call is per-statement atomic. -/
theorem upsertRec_failed_imoveis (o : Oracle) (db : DB) (id : Nat)
    (ext : ExternalDetailedImovel) (b : Bool) :
    ∀ (rdb : DB) (tr : List Ev),
      upsertImovelAndRelationships o db id ext b = ⟨.error (), rdb, tr⟩ →
      rdb.imoveis = db.imoveis := by
  intro rdb tr h
  rcases h1 : resolveEmpreendimento o db ext.empreendimento with ⟨eID, db1, t1⟩
  rcases h2 : resolvePrecoVenda o db1 ext.precoVenda with ⟨pvID, db2, t2⟩
  rcases h3 : resolvePrecoAluguel o db2 ext.precoAluguel with ⟨paID, db3, t3⟩
  rcases h4 : resolveCorretorPrincipal o db3 ext.corretorPrincipal with ⟨corID, db4, t4⟩
  have hi1 : db1.imoveis = db.imoveis := by
    have hf := resolveEmp_frame o db ext.empreendimento
    rw [h1] at hf
    exact hf.1
  have hi2 : db2.imoveis = db1.imoveis := by
    have hf := resolvePv_frame o db1 ext.precoVenda
    rw [h2] at hf
    exact hf.1
  have hi3 : db3.imoveis = db2.imoveis := by
    have hf := resolvePa_frame o db2 ext.precoAluguel
    rw [h3] at hf
    exact hf.1
  have hi4 : db4.imoveis = db.imoveis := by
    have hf := resolveCor_frame o db3 ext.corretorPrincipal
    rw [h4] at hf
    rw [hf.1, hi3, hi2, hi1]
  unfold upsertImovelAndRelationships at h
  simp only [h1, h2, h3, h4] at h
  cases b with
  | true =>
    simp only [if_true] at h
    rcases h5 : UpdateImovel o db4 id (buildImportUpdateReq ext eID pvID paID corID)
      with ⟨r5, db5⟩
    simp only [h5] at h
    cases r5 with
    | error u =>
      have hd : rdb = db5 := by
        cases h
        rfl
      rw [hd, UpdateImovel_err o db4 id _ u db5 h5]
      exact hi4
    | ok m =>
      rcases h6 : updateEnderecoStep o db5 id ext.endereco with ⟨et, db6⟩
      simp only [h6] at h
      rcases h7 : syncAnexosFromImages o db6 id ext.imagens with ⟨r7, db7⟩
      simp only [h7] at h
      exact absurd h (by simp)
  | false =>
    simp only [Bool.false_eq_true, if_false] at h
    rcases h5 : createEnderecoStep o db4 ext.endereco with ⟨r5, db5, t5⟩
    simp only [h5] at h
    have hstep : db5.imoveis = db4.imoveis := by
      have hf := createEnderecoStep_imoveis o db4 ext.endereco
      rw [h5] at hf
      exact hf
    cases r5 with
    | error u =>
      have hd : rdb = db5 := by
        cases h
        rfl
      rw [hd, hstep]
      exact hi4
    | ok eid =>
      rcases h6 : CreateImovel o db5 (transformExternalToCreateRequest ext eid
        eID pvID paID corID) with ⟨r6, db6⟩
      simp only [h6] at h
      cases r6 with
      | error u =>
        have hd : rdb = db6 := by
          cases h
          rfl
        rw [hd, CreateImovel_err o db5 _ u db6 h6, hstep]
        exact hi4
      | ok newId =>
        rcases h7 : syncAnexosFromImages o db6 newId ext.imagens with ⟨r7, db7⟩
        simp only [h7] at h
        exact absurd h (by simp)

set_option maxHeartbeats 1000000 in
/-- C7: the driver loop classifies every summary exactly once (the counters
add up to the list length — no early termination); an item whose detail
fetch fails, or whose create/update call fails, is classified failed and the
loop moves to the next item; and removing a fetch-failed item from the list
leaves every other item's classification unchanged (the failed item hands
the database on untouched). -/
theorem c7_partial_batch_resilience :
    (∀ (env : FetchEnv) (db : DB) (l : List Nat),
      (outcomeTrace env db l).length = l.length) ∧
    (∀ (env : FetchEnv) (db : DB) (l : List Nat),
      (processItems env db l).1.created + (processItems env db l).1.updated
        + (processItems env db l).1.failed = l.length) ∧
    (∀ (env : FetchEnv) (db : DB) (sid : Nat),
      env.detail sid = none → processItem env db sid = (.failed, db)) ∧
    (∀ (env : FetchEnv) (db : DB) (sid : Nat) (ext : ExternalDetailedImovel)
        (row : Imovel) (r : RecResult),
      env.detail sid = some ext →
      findImovelByKey db (toString ext.id) = some row →
      upsertImovelAndRelationships (env.oracle sid) db row.id ext true = r →
      r.res = .error () → processItem env db sid = (.failed, r.db)) ∧
    (∀ (env : FetchEnv) (db : DB) (sid : Nat) (ext : ExternalDetailedImovel)
        (r : RecResult),
      env.detail sid = some ext →
      findImovelByKey db (toString ext.id) = none →
      upsertImovelAndRelationships (env.oracle sid) db 0 ext false = r →
      r.res = .error () → processItem env db sid = (.failed, r.db)) ∧
    (∀ (env : FetchEnv) (db : DB) (l1 : List Nat) (sid : Nat) (l2 : List Nat),
      env.detail sid = none →
      outcomeTrace env db (l1 ++ sid :: l2)
        = outcomeTrace env db l1
          ++ .failed :: outcomeTrace env (processItems env db l1).2 l2 ∧
      outcomeTrace env db (l1 ++ l2)
        = outcomeTrace env db l1 ++ outcomeTrace env (processItems env db l1).2 l2) ∧
    (∀ (env : FetchEnv) (db : DB) (sid : Nat) (db' : DB),
      processItem env db sid = (.failed, db') → db'.imoveis = db.imoveis) := by
  refine ⟨fun env db l => outcomeTrace_length env l db,
    fun env db l => processItems_total env l db, ?_, ?_, ?_, ?_, ?_⟩
  · intro env db sid h
    unfold processItem
    rw [h]
  · intro env db sid ext row r hdet hfind hup herr
    rcases r with ⟨res, rdb, rtr⟩
    dsimp only at herr
    subst herr
    unfold processItem
    simp only [hdet, hfind, hup]
  · intro env db sid ext r hdet hfind hup herr
    rcases r with ⟨res, rdb, rtr⟩
    dsimp only at herr
    subst herr
    unfold processItem
    simp only [hdet, hfind, hup]
  · intro env db l1 sid l2 h
    have h3 : processItem env (processItems env db l1).2 sid
        = (.failed, (processItems env db l1).2) := by
      unfold processItem
      rw [h]
    refine ⟨?_, outcomeTrace_append env l1 db l2⟩
    rw [outcomeTrace_append env l1 db (sid :: l2), outcomeTrace_cons, h3]
  · intro env db sid db' h
    unfold processItem at h
    rcases hdet : env.detail sid with _ | ext
    · simp only [hdet] at h
      cases h
      rfl
    · simp only [hdet] at h
      rcases hfind : findImovelByKey db (toString ext.id) with _ | row
      · simp only [hfind] at h
        rcases hrec : upsertImovelAndRelationships (env.oracle sid) db 0 ext false
          with ⟨res, rdb, rtr⟩
        simp only [hrec] at h
        cases res with
        | ok n => exact absurd h (by simp)
        | error u =>
          cases u
          cases h
          exact upsertRec_failed_imoveis (env.oracle sid) db 0 ext false db' rtr hrec
      · simp only [hfind] at h
        rcases hrec : upsertImovelAndRelationships (env.oracle sid) db row.id ext true
          with ⟨res, rdb, rtr⟩
        simp only [hrec] at h
        cases res with
        | ok n => exact absurd h (by simp)
        | error u =>
          cases u
          cases h
          exact upsertRec_failed_imoveis (env.oracle sid) db row.id ext true db' rtr hrec

/-- The stored property the C7 witness batch updates (item 5). -/
def c7Row : Imovel :=
  { id := 1, idIntegracao := "5", titulo := "Old", codigo := "AP5"
    tipo := "CASA", objetivo := "VENDER", finalidade := "RESIDENCIAL"
    descricao := "Velha", metragem := 100, numQuartos := 2, numSuites := 1
    numBanheiros := 1, numVagas := 1, numAndar := 0, unidade := "A"
    condominio := 5, iptu := 0, inscricaoIPTU := "", enderecoID := 0
    empreendimentoID := none, precoVendaID := some 77, precoAluguelID := some 88
    plantaID := none, corretorPrincipalID := none, pacoteID := none
    status := "EM_EDICAO", published := false, closed := false
    visualizacoes := 0, createdAt := 1 }

/-- The C7 witness database. -/
def c7Db : DB := { DB.empty with imoveis := [c7Row], nextImovelId := 2 }

/-- Per-summary detail for the C7 witness batch. -/
def c7Ext (sid : Nat) : ExternalDetailedImovel :=
  { extSample with id := sid, codigo := "C" ++ toString sid }

/-- The C7 witness batch: five summaries; item 3's detail fetch fails, item
4's insert fails, item 5's update fails. -/
def c7Env : FetchEnv :=
  { list := .ok [1, 2, 3, 4, 5]
    detail := fun sid => if sid = 3 then none else some (c7Ext sid)
    oracle := fun sid =>
      if sid = 4 then { createFail := true }
      else if sid = 5 then { updateFail := true }
      else Oracle.ok }

/-- Witness for C7 at a concrete input: the five-item batch with a fetch
failure, an insert failure and an update failure classifies all five items,
counts each failure, and dropping the fetch-failed item leaves the other
items' classifications untouched. -/
theorem c7_partial_batch_resilience_witness :
    (outcomeTrace c7Env c7Db [1, 2, 3, 4, 5]).length
      = ([1, 2, 3, 4, 5] : List Nat).length ∧
    (processItems c7Env c7Db [1, 2, 3, 4, 5]).1.created
      + (processItems c7Env c7Db [1, 2, 3, 4, 5]).1.updated
      + (processItems c7Env c7Db [1, 2, 3, 4, 5]).1.failed
      = ([1, 2, 3, 4, 5] : List Nat).length ∧
    processItem c7Env c7Db 3 = (.failed, c7Db) ∧
    processItem c7Env c7Db 5
      = (.failed,
         (upsertImovelAndRelationships (c7Env.oracle 5) c7Db c7Row.id (c7Ext 5) true).db) ∧
    processItem c7Env c7Db 4
      = (.failed,
         (upsertImovelAndRelationships (c7Env.oracle 4) c7Db 0 (c7Ext 4) false).db) ∧
    (outcomeTrace c7Env c7Db ([1, 2] ++ 3 :: [4, 5])
       = outcomeTrace c7Env c7Db [1, 2]
         ++ .failed :: outcomeTrace c7Env (processItems c7Env c7Db [1, 2]).2 [4, 5] ∧
     outcomeTrace c7Env c7Db ([1, 2] ++ [4, 5])
       = outcomeTrace c7Env c7Db [1, 2]
         ++ outcomeTrace c7Env (processItems c7Env c7Db [1, 2]).2 [4, 5]) ∧
    (processItem c7Env c7Db 4).2.imoveis = c7Db.imoveis :=
  ⟨c7_partial_batch_resilience.1 c7Env c7Db [1, 2, 3, 4, 5],
   c7_partial_batch_resilience.2.1 c7Env c7Db [1, 2, 3, 4, 5],
   c7_partial_batch_resilience.2.2.1 c7Env c7Db 3 rfl,
   c7_partial_batch_resilience.2.2.2.1 c7Env c7Db 5 (c7Ext 5) c7Row _ rfl rfl rfl rfl,
   c7_partial_batch_resilience.2.2.2.2.1 c7Env c7Db 4 (c7Ext 4) _ rfl rfl rfl rfl,
   c7_partial_batch_resilience.2.2.2.2.2.1 c7Env c7Db [1, 2] 3 [4, 5] rfl,
   c7_partial_batch_resilience.2.2.2.2.2.2 c7Env c7Db 4 (processItem c7Env c7Db 4).2 rfl⟩

/-! ## C1 — batch idempotency -/

/-- `db'` differs from `db` at most in the address table and its sequence. -/
def OnlyEnd (db db' : DB) : Prop :=
  db'.imoveis = db.imoveis ∧ db'.empreendimentos = db.empreendimentos ∧
  db'.precoVendas = db.precoVendas ∧ db'.precoAlugueis = db.precoAlugueis ∧
  db'.corretores = db.corretores ∧ db'.organizacoes = db.organizacoes ∧
  db'.anexos = db.anexos ∧ db'.nextImovelId = db.nextImovelId ∧
  db'.nextEmpId = db.nextEmpId ∧ db'.nextPvId = db.nextPvId ∧
  db'.nextPaId = db.nextPaId ∧ db'.nextCorId = db.nextCorId ∧
  db'.nextOrgId = db.nextOrgId ∧ db'.nextAnexoId = db.nextAnexoId ∧
  db'.clock = db.clock

/-- `db'` differs from `db` at most in the attachment table and sequence. -/
def OnlyAnexo (db db' : DB) : Prop :=
  db'.imoveis = db.imoveis ∧ db'.empreendimentos = db.empreendimentos ∧
  db'.precoVendas = db.precoVendas ∧ db'.precoAlugueis = db.precoAlugueis ∧
  db'.corretores = db.corretores ∧ db'.organizacoes = db.organizacoes ∧
  db'.enderecos = db.enderecos ∧ db'.nextImovelId = db.nextImovelId ∧
  db'.nextEmpId = db.nextEmpId ∧ db'.nextPvId = db.nextPvId ∧
  db'.nextPaId = db.nextPaId ∧ db'.nextCorId = db.nextCorId ∧
  db'.nextOrgId = db.nextOrgId ∧ db'.nextEndId = db.nextEndId ∧
  db'.clock = db.clock

theorem createEndereco_onlyEnd (o : Oracle) (db : DB) (x : ExternalEndereco) :
    OnlyEnd db (createEndereco o db x).2 := by
  unfold createEndereco
  repeat' split
  all_goals exact ⟨rfl, rfl, rfl, rfl, rfl, rfl, rfl, rfl, rfl, rfl, rfl, rfl, rfl, rfl, rfl⟩

/-- With a working address store, the create-branch address step always
succeeds (id 0 when there is no address to create). -/
theorem createEnderecoStep_ok (o : Oracle) (db : DB) (x : ExternalEndereco)
    (hend : o.endFail = false) :
    ∃ endId dbE tE,
      createEnderecoStep o db x = (.ok endId, dbE, tE) ∧ OnlyEnd db dbE := by
  unfold createEnderecoStep
  by_cases hrua : x.rua ≠ ""
  · rw [if_pos hrua]
    have hf := createEndereco_onlyEnd o db x
    unfold createEndereco at hf ⊢
    rw [if_neg (by simpa using hrua), hend] at hf ⊢
    dsimp only [Bool.false_eq_true, if_false] at hf ⊢
    exact ⟨_, _, _, rfl, hf⟩
  · rw [if_neg hrua]
    exact ⟨0, db, [], rfl,
      ⟨rfl, rfl, rfl, rfl, rfl, rfl, rfl, rfl, rfl, rfl, rfl, rfl, rfl, rfl, rfl⟩⟩

theorem AddAnexo_onlyAnexo (f : Bool) (db : DB) (pid : Nat) (a : Anexo) :
    OnlyAnexo db (AddAnexo f db pid a).2 := by
  unfold AddAnexo
  repeat' split
  all_goals exact ⟨rfl, rfl, rfl, rfl, rfl, rfl, rfl, rfl, rfl, rfl, rfl, rfl, rfl, rfl, rfl⟩

theorem OnlyAnexo_trans (db1 db2 db3 : DB)
    (h1 : OnlyAnexo db1 db2) (h2 : OnlyAnexo db2 db3) : OnlyAnexo db1 db3 := by
  obtain ⟨a1, a2, a3, a4, a5, a6, a7, a8, a9, a10, a11, a12, a13, a14, a15⟩ := h1
  obtain ⟨b1, b2, b3, b4, b5, b6, b7, b8, b9, b10, b11, b12, b13, b14, b15⟩ := h2
  exact ⟨b1.trans a1, b2.trans a2, b3.trans a3, b4.trans a4, b5.trans a5,
    b6.trans a6, b7.trans a7, b8.trans a8, b9.trans a9, b10.trans a10,
    b11.trans a11, b12.trans a12, b13.trans a13, b14.trans a14, b15.trans a15⟩

theorem addAnexosLoop_onlyAnexo (o : Oracle) (pid : Nat) :
    ∀ (urls : List String) (db : DB) (i : Nat),
      OnlyAnexo db (addAnexosLoop o db pid i urls).2 := by
  intro urls
  induction urls with
  | nil =>
    intro db i
    exact ⟨rfl, rfl, rfl, rfl, rfl, rfl, rfl, rfl, rfl, rfl, rfl, rfl, rfl, rfl, rfl⟩
  | cons u rest ih =>
    intro db i
    unfold addAnexosLoop
    dsimp only
    rcases ha : AddAnexo (o.anexoAddFailAt == some i) db pid
        { id := 0, nome := "Image " ++ toString (i + 1), url := u, tipo := "image"
          image := true, video := false, isExternalURL := true, canPublish := true
          imovelID := 0, deleted := false } with ⟨ra, dba⟩
    have hai : OnlyAnexo db dba := by
      have h := AddAnexo_onlyAnexo (o.anexoAddFailAt == some i) db pid
        { id := 0, nome := "Image " ++ toString (i + 1), url := u, tipo := "image"
          image := true, video := false, isExternalURL := true, canPublish := true
          imovelID := 0, deleted := false }
      rw [ha] at h
      exact h
    cases ra with
    | error u' => exact hai
    | ok u' => exact OnlyAnexo_trans db dba _ hai (ih dba (i + 1))

theorem syncAnexos_onlyAnexo (o : Oracle) (db : DB) (pid : Nat)
    (urls : List String) :
    OnlyAnexo db (syncAnexosFromImages o db pid urls).2 := by
  unfold syncAnexosFromImages
  split
  · exact ⟨rfl, rfl, rfl, rfl, rfl, rfl, rfl, rfl, rfl, rfl, rfl, rfl, rfl, rfl, rfl⟩
  · have h := addAnexosLoop_onlyAnexo o pid urls
      { db with anexos := db.anexos.map (fun a =>
          if a.imovelID == pid && !a.deleted then { a with deleted := true } else a) } 0
    exact h

/-- The row `CreateImovel` inserts. -/
def createdRow (db : DB) (req : CreateImovelRequest) : Imovel :=
  { id := db.nextImovelId
    idIntegracao := req.idIntegracao, titulo := req.titulo, codigo := req.codigo
    tipo := req.tipo, objetivo := req.objetivo, finalidade := req.finalidade
    descricao := req.descricao, metragem := req.metragem
    numQuartos := req.numQuartos, numSuites := req.numSuites
    numBanheiros := req.numBanheiros, numVagas := req.numVagas
    numAndar := req.numAndar, unidade := req.unidade
    condominio := req.condominio, iptu := req.iptu
    inscricaoIPTU := req.inscricaoIPTU
    enderecoID := req.enderecoID
    empreendimentoID := if req.empreendimentoID ≠ 0 then some req.empreendimentoID else none
    precoVendaID := if req.precoVendaID ≠ 0 then some req.precoVendaID else none
    precoAluguelID := if req.precoAluguelID ≠ 0 then some req.precoAluguelID else none
    plantaID := if req.plantaID ≠ 0 then some req.plantaID else none
    corretorPrincipalID := if req.corretorPrincipalID ≠ 0 then some req.corretorPrincipalID else none
    pacoteID := if req.pacoteID ≠ 0 then some req.pacoteID else none
    status := "EM_EDICAO", published := false, closed := false
    visualizacoes := 0, createdAt := db.clock }

/-- A create that passes its validations inserts exactly its row. -/
theorem CreateImovel_ok (o : Oracle) (db : DB) (req : CreateImovelRequest)
    (h1 : ¬(req.objetivo = "ALUGAR" ∧ req.precoAluguelID = 0))
    (h2 : ¬(req.objetivo = "VENDER" ∧ req.precoVendaID = 0))
    (h3 : existsByCodigo db req.codigo = false)
    (h4 : existsByIdIntegracao db req.idIntegracao = false)
    (h5 : o.createFail = false) :
    CreateImovel o db req = (.ok db.nextImovelId,
      { db with imoveis := db.imoveis ++ [createdRow db req]
                nextImovelId := db.nextImovelId + 1, clock := db.clock + 1 }) := by
  unfold CreateImovel createdRow
  rw [if_neg h2, if_neg h1]
  simp only [h3, h4, h5, Bool.false_eq_true, if_false, and_false]

/-- Re-applying the development update with the values the row was created
from changes nothing. -/
theorem empUpdateNoop (db : DB) (e : ExternalEmpreendimento) :
    ({ empRow1 db e with
       titulo := e.titulo, descricao := e.descricao, tipo := e.tipo
       status := e.status, localizacao := e.localizacao
       finalidade := if e.finalidade ≠ "" then e.finalidade
                     else (empRow1 db e).finalidade } : Empreendimento)
      = empRow1 db e := by
  unfold empRow1
  by_cases h : e.finalidade = "" <;> simp [h]

set_option maxHeartbeats 1000000 in
/-- Resolving a development against a fresh table: the result id, the
one-table frame, and stability — re-resolving against the resulting table
returns the same id and leaves the database untouched. -/
theorem resolveEmp_fresh_stable (db0 : DB) (e? : Option ExternalEmpreendimento)
    (hfresh : db0.empreendimentos = []) :
    ∃ eID dbA tA,
      resolveEmpreendimento Oracle.ok db0 e? = (eID, dbA, tA) ∧
      OnlyEmp db0 dbA ∧
      (∀ db', db'.empreendimentos = dbA.empreendimentos →
        resolveEmpreendimento Oracle.ok db' e? = (eID, db', tA)) := by
  rcases e? with _ | e
  · exact ⟨0, db0, [], rfl,
      ⟨rfl, rfl, rfl, rfl, rfl, rfl, rfl, rfl, rfl, rfl, rfl, rfl, rfl, rfl, rfl⟩,
      fun db' h => rfl⟩
  · by_cases hid : e.id = 0
    · refine ⟨0, db0, [.empUpsert], ?_,
        ⟨rfl, rfl, rfl, rfl, rfl, rfl, rfl, rfl, rfl, rfl, rfl, rfl, rfl, rfl, rfl⟩,
        ?_⟩
      · unfold resolveEmpreendimento upsertEmpreendimento
        dsimp only
        rw [if_pos hid]
      · intro db' h
        unfold resolveEmpreendimento upsertEmpreendimento
        dsimp only
        rw [if_pos hid]
    · have hfind0 : findEmpByKey db0 (toString e.id) = none := by
        unfold findEmpByKey
        rw [hfresh]
        rfl
      refine ⟨db0.nextEmpId, empDb1 db0 e, [.empUpsert], ?_,
        ⟨rfl, rfl, rfl, rfl, rfl, rfl, rfl, rfl, rfl, rfl, rfl, rfl, rfl, rfl, rfl⟩,
        ?_⟩
      · unfold resolveEmpreendimento upsertEmpreendimento
        dsimp only
        rw [if_neg hid, hfind0]
        rfl
      · intro db' h
        have h' : db'.empreendimentos = [empRow1 db0 e] := by
          rw [h]
          unfold empDb1
          dsimp only
          rw [hfresh]
          rfl
        have hfind' : findEmpByKey db' (toString e.id) = some (empRow1 db0 e) := by
          unfold findEmpByKey
          rw [h']
          simp [empRow1]
        unfold resolveEmpreendimento upsertEmpreendimento
        dsimp only
        rw [if_neg hid]
        simp only [hfind']
        rw [if_neg (show ¬Oracle.ok.empFail = true by simp [Oracle.ok])]
        simp only [Prod.mk.injEq]
        refine ⟨rfl, ?_, trivial⟩
        rw [h']
        dsimp only [List.map]
        rw [if_pos rfl]
        rw [empUpdateNoop]
        rw [← h']

/-- Re-applying the sale-price `Save` with the creating values is the
identity. -/
theorem pvUpdateNoop (db : DB) (pv : ExternalPrecoVenda) :
    ({ pvRow1 db pv with
       preco := pv.preco
       aceitaFinanciamentoBancario := pv.aceitaFinanciamentoBancario
       aceitaFinanciamentoDireto := pv.aceitaFinanciamentoDireto
       aceitaPermuta := pv.aceitaPermuta
       aceitaCartaDeCredito := pv.aceitaCartaDeCredito
       aceitaFGTS := pv.aceitaFGTS
       ativo := pv.ativo } : PrecoVenda) = pvRow1 db pv := rfl

set_option maxHeartbeats 1000000 in
/-- Resolving a sale price against a fresh table: result id, frame,
non-zeroness when resolvable, and stability on re-resolution. -/
theorem resolvePv_fresh_stable (db0 : DB) (pv? : Option ExternalPrecoVenda)
    (hfresh : db0.precoVendas = []) (hnz : db0.nextPvId ≠ 0) :
    ∃ pvID dbB tB,
      resolvePrecoVenda Oracle.ok db0 pv? = (pvID, dbB, tB) ∧
      OnlyPv db0 dbB ∧
      (pvResolvable Oracle.ok pv? = true → pvID ≠ 0) ∧
      (∀ db', db'.precoVendas = dbB.precoVendas →
        resolvePrecoVenda Oracle.ok db' pv? = (pvID, db', tB)) := by
  rcases pv? with _ | pv
  · exact ⟨0, db0, [], rfl,
      ⟨rfl, rfl, rfl, rfl, rfl, rfl, rfl, rfl, rfl, rfl, rfl, rfl, rfl, rfl, rfl⟩,
      fun h => by simp [pvResolvable] at h,
      fun db' h => rfl⟩
  · by_cases ha : pv.ativo = true
    · by_cases hid : pv.id = 0
      · refine ⟨0, db0, [.pvUpsert], ?_,
          ⟨rfl, rfl, rfl, rfl, rfl, rfl, rfl, rfl, rfl, rfl, rfl, rfl, rfl, rfl, rfl⟩,
          fun h => by simp [pvResolvable, hid] at h, ?_⟩
        · unfold resolvePrecoVenda upsertPrecoVenda
          dsimp only
          rw [if_pos ha, if_pos hid]
        · intro db' h
          unfold resolvePrecoVenda upsertPrecoVenda
          dsimp only
          rw [if_pos ha, if_pos hid]
      · have hfind0 : findPvByKey db0 (toString pv.id) = none := by
          unfold findPvByKey
          rw [hfresh]
          rfl
        refine ⟨db0.nextPvId, pvDb1 db0 pv, [.pvUpsert], ?_,
          ⟨rfl, rfl, rfl, rfl, rfl, rfl, rfl, rfl, rfl, rfl, rfl, rfl, rfl, rfl, rfl⟩,
          fun _ => hnz, ?_⟩
        · unfold resolvePrecoVenda upsertPrecoVenda
          dsimp only
          rw [if_pos ha, if_neg hid, hfind0]
          rfl
        · intro db' h
          have h' : db'.precoVendas = [pvRow1 db0 pv] := by
            rw [h]
            unfold pvDb1
            dsimp only
            rw [hfresh]
            rfl
          have hfind' : findPvByKey db' (toString pv.id) = some (pvRow1 db0 pv) := by
            unfold findPvByKey
            rw [h']
            simp [pvRow1]
          unfold resolvePrecoVenda upsertPrecoVenda
          dsimp only
          rw [if_pos ha, if_neg hid]
          simp only [hfind']
          rw [if_neg (show ¬Oracle.ok.pvFail = true by simp [Oracle.ok])]
          simp only [Prod.mk.injEq]
          refine ⟨rfl, ?_, trivial⟩
          rw [h']
          dsimp only [List.map]
          rw [if_pos rfl]
          rw [pvUpdateNoop]
          rw [← h']
    · refine ⟨0, db0, [], ?_,
        ⟨rfl, rfl, rfl, rfl, rfl, rfl, rfl, rfl, rfl, rfl, rfl, rfl, rfl, rfl, rfl⟩,
        fun h => by simp [pvResolvable, ha] at h, ?_⟩
      · unfold resolvePrecoVenda
        dsimp only
        rw [if_neg ha]
      · intro db' h
        unfold resolvePrecoVenda
        dsimp only
        rw [if_neg ha]

/-- Re-applying the rent-price `Save` with the creating values is the
identity. -/
theorem paUpdateNoop (db : DB) (pa : ExternalPrecoAluguel) :
    ({ paRow1 db pa with
       preco := pa.preco, aceitaFiador := pa.aceitaFiador
       ativo := pa.ativo } : PrecoAluguel) = paRow1 db pa := rfl

set_option maxHeartbeats 1000000 in
/-- Resolving a rent price against a fresh table: result id, frame,
non-zeroness when resolvable, and stability on re-resolution. -/
theorem resolvePa_fresh_stable (db0 : DB) (pa? : Option ExternalPrecoAluguel)
    (hfresh : db0.precoAlugueis = []) (hnz : db0.nextPaId ≠ 0) :
    ∃ paID dbC tC,
      resolvePrecoAluguel Oracle.ok db0 pa? = (paID, dbC, tC) ∧
      OnlyPa db0 dbC ∧
      (paResolvable Oracle.ok pa? = true → paID ≠ 0) ∧
      (∀ db', db'.precoAlugueis = dbC.precoAlugueis →
        resolvePrecoAluguel Oracle.ok db' pa? = (paID, db', tC)) := by
  rcases pa? with _ | pa
  · exact ⟨0, db0, [], rfl,
      ⟨rfl, rfl, rfl, rfl, rfl, rfl, rfl, rfl, rfl, rfl, rfl, rfl, rfl, rfl, rfl⟩,
      fun h => by simp [paResolvable] at h,
      fun db' h => rfl⟩
  · by_cases ha : pa.ativo = true
    · by_cases hid : pa.id = 0
      · refine ⟨0, db0, [.paUpsert], ?_,
          ⟨rfl, rfl, rfl, rfl, rfl, rfl, rfl, rfl, rfl, rfl, rfl, rfl, rfl, rfl, rfl⟩,
          fun h => by simp [paResolvable, hid] at h, ?_⟩
        · unfold resolvePrecoAluguel upsertPrecoAluguel
          dsimp only
          rw [if_pos ha, if_pos hid]
        · intro db' h
          unfold resolvePrecoAluguel upsertPrecoAluguel
          dsimp only
          rw [if_pos ha, if_pos hid]
      · have hfind0 : findPaByKey db0 (toString pa.id) = none := by
          unfold findPaByKey
          rw [hfresh]
          rfl
        refine ⟨db0.nextPaId, paDb1 db0 pa, [.paUpsert], ?_,
          ⟨rfl, rfl, rfl, rfl, rfl, rfl, rfl, rfl, rfl, rfl, rfl, rfl, rfl, rfl, rfl⟩,
          fun _ => hnz, ?_⟩
        · unfold resolvePrecoAluguel upsertPrecoAluguel
          dsimp only
          rw [if_pos ha, if_neg hid, hfind0]
          rfl
        · intro db' h
          have h' : db'.precoAlugueis = [paRow1 db0 pa] := by
            rw [h]
            unfold paDb1
            dsimp only
            rw [hfresh]
            rfl
          have hfind' : findPaByKey db' (toString pa.id) = some (paRow1 db0 pa) := by
            unfold findPaByKey
            rw [h']
            simp [paRow1]
          unfold resolvePrecoAluguel upsertPrecoAluguel
          dsimp only
          rw [if_pos ha, if_neg hid]
          simp only [hfind']
          rw [if_neg (show ¬Oracle.ok.paFail = true by simp [Oracle.ok])]
          simp only [Prod.mk.injEq]
          refine ⟨rfl, ?_, trivial⟩
          rw [h']
          dsimp only [List.map]
          rw [if_pos rfl]
          rw [paUpdateNoop]
          rw [← h']
    · refine ⟨0, db0, [], ?_,
        ⟨rfl, rfl, rfl, rfl, rfl, rfl, rfl, rfl, rfl, rfl, rfl, rfl, rfl, rfl, rfl⟩,
        fun h => by simp [paResolvable, ha] at h, ?_⟩
      · unfold resolvePrecoAluguel
        dsimp only
        rw [if_neg ha]
      · intro db' h
        unfold resolvePrecoAluguel
        dsimp only
        rw [if_neg ha]

/-- The organization row the import inserts. -/
def c1OrgRow (db : DB) (og : ExternalOrganizacao) : Organizacao :=
  { id := db.nextOrgId, nome := og.nome, perfil := og.perfil }

/-- The broker row the import inserts with organization reference `orgID`. -/
def c1CorRow (db : DB) (e : ExternalCorretor) (orgID : Nat) : CorretorPrincipal :=
  { id := db.nextCorId, idIntegracao := toString e.id
    nome := e.nome, email := e.email, whatsapp := e.whatsapp
    idiomas := e.idiomas, bairrosAtuacao := e.bairrosAtuacao
    organizacaoID := orgID }

/-- Re-applying the broker's guarded updates with the creating values (and
the same resolved organization) changes nothing. -/
theorem corApplyNoop (db : DB) (e : ExternalCorretor) (orgID : Nat) :
    corApplyUpdates (c1CorRow db e orgID) e orgID = c1CorRow db e orgID := by
  unfold corApplyUpdates c1CorRow
  simp

/-- The database after the import created an organization. -/
def orgDb1 (db : DB) (og : ExternalOrganizacao) : DB :=
  { db with organizacoes := db.organizacoes ++ [c1OrgRow db og]
            nextOrgId := db.nextOrgId + 1 }

/-- The database after the import created an organization-free broker. -/
def corDbNoOrg (db : DB) (c : ExternalCorretor) : DB :=
  { db with corretores := db.corretores ++ [c1CorRow db c 0]
            nextCorId := db.nextCorId + 1 }

/-- The database after the import created an organization and its broker. -/
def corDbOrg (db : DB) (c : ExternalCorretor) : DB :=
  { orgDb1 db c.organizacao with
    corretores := (orgDb1 db c.organizacao).corretores
      ++ [c1CorRow db c db.nextOrgId]
    nextCorId := (orgDb1 db c.organizacao).nextCorId + 1 }

set_option maxHeartbeats 1600000 in
/-- Resolving a broker against fresh broker/organization tables: result id,
frame, and stability on re-resolution. -/
theorem resolveCor_fresh_stable (db0 : DB) (c : ExternalCorretor)
    (hfreshO : db0.organizacoes = []) (hfreshC : db0.corretores = []) :
    ∃ corID dbD tD,
      resolveCorretorPrincipal Oracle.ok db0 c = (corID, dbD, tD) ∧
      OnlyCorOrg db0 dbD ∧
      (∀ db', db'.organizacoes = dbD.organizacoes →
        db'.corretores = dbD.corretores →
        resolveCorretorPrincipal Oracle.ok db' c = (corID, db', tD)) := by
  by_cases he : c.email = ""
  · refine ⟨0, db0, [], ?_,
      ⟨rfl, rfl, rfl, rfl, rfl, rfl, rfl, rfl, rfl, rfl, rfl, rfl, rfl⟩, ?_⟩
    · unfold resolveCorretorPrincipal
      rw [if_neg (by simp [he])]
    · intro db' h1 h2
      unfold resolveCorretorPrincipal
      rw [if_neg (by simp [he])]
  · by_cases hn : c.organizacao.nome = ""
    · have hfind0 : findCorByKey db0 (toString c.id) = none := by
        unfold findCorByKey
        rw [hfreshC]
        rfl
      refine ⟨db0.nextCorId, corDbNoOrg db0 c, [.corUpsert], ?_,
        ⟨rfl, rfl, rfl, rfl, rfl, rfl, rfl, rfl, rfl, rfl, rfl, rfl, rfl⟩, ?_⟩
      · unfold resolveCorretorPrincipal upsertCorretorPrincipal
        rw [if_pos (by simp [he]), if_neg (by simp [he]), if_neg (by simp [hn])]
        dsimp only
        rw [hfind0]
        rfl
      · intro db' h1 h2
        have h2' : db'.corretores = [c1CorRow db0 c 0] := by
          rw [h2]
          unfold corDbNoOrg
          dsimp only
          rw [hfreshC]
          rfl
        have hfind' : findCorByKey db' (toString c.id) = some (c1CorRow db0 c 0) := by
          unfold findCorByKey
          rw [h2']
          simp [c1CorRow]
        unfold resolveCorretorPrincipal upsertCorretorPrincipal
        rw [if_pos (by simp [he]), if_neg (by simp [he]), if_neg (by simp [hn])]
        dsimp only
        rw [hfind']
        dsimp only
        rw [if_neg (show ¬corApplyUpdates (c1CorRow db0 c 0) c 0 ≠ c1CorRow db0 c 0
          from fun hne => hne (corApplyNoop db0 c 0))]
        rfl
    · have horg : upsertOrganizacao Oracle.ok db0 c.organizacao
          = (.ok db0.nextOrgId, orgDb1 db0 c.organizacao) := by
        unfold upsertOrganizacao
        rw [if_neg (by simp [hn])]
        have : findOrgByNome db0 c.organizacao.nome = none := by
          unfold findOrgByNome
          rw [hfreshO]
          rfl
        rw [this]
        rfl
      have hfind0 : findCorByKey (orgDb1 db0 c.organizacao) (toString c.id) = none := by
        unfold findCorByKey orgDb1
        dsimp only
        rw [hfreshC]
        rfl
      refine ⟨db0.nextCorId, corDbOrg db0 c, [.corUpsert], ?_,
        ⟨rfl, rfl, rfl, rfl, rfl, rfl, rfl, rfl, rfl, rfl, rfl, rfl, rfl⟩, ?_⟩
      · unfold resolveCorretorPrincipal upsertCorretorPrincipal
        rw [if_pos (by simp [he]), if_neg (by simp [he]), if_pos (by simp [hn])]
        simp only [horg]
        rw [hfind0]
        rfl
      · intro db' h1 h2
        have h1' : db'.organizacoes = [c1OrgRow db0 c.organizacao] := by
          rw [h1]
          unfold corDbOrg orgDb1
          dsimp only
          rw [hfreshO]
          rfl
        have h2' : db'.corretores = [c1CorRow db0 c db0.nextOrgId] := by
          rw [h2]
          unfold corDbOrg orgDb1
          dsimp only
          rw [hfreshC]
          rfl
        have horg' : upsertOrganizacao Oracle.ok db' c.organizacao
            = (.ok db0.nextOrgId, db') := by
          unfold upsertOrganizacao
          rw [if_neg (by simp [hn])]
          have hfindo : findOrgByNome db' c.organizacao.nome
              = some (c1OrgRow db0 c.organizacao) := by
            unfold findOrgByNome
            rw [h1']
            simp [c1OrgRow]
          rw [hfindo]
          dsimp only
          rw [if_neg (show ¬(c1OrgRow db0 c.organizacao).perfil ≠ c.organizacao.perfil
            from fun hne => hne rfl)]
          rfl
        have hfind' : findCorByKey db' (toString c.id)
            = some (c1CorRow db0 c db0.nextOrgId) := by
          unfold findCorByKey
          rw [h2']
          simp [c1CorRow]
        unfold resolveCorretorPrincipal upsertCorretorPrincipal
        rw [if_pos (by simp [he]), if_neg (by simp [he]), if_pos (by simp [hn])]
        simp only [horg']
        rw [hfind']
        dsimp only
        rw [if_neg (show ¬corApplyUpdates (c1CorRow db0 c db0.nextOrgId) c db0.nextOrgId
            ≠ c1CorRow db0 c db0.nextOrgId
          from fun hne => hne (corApplyNoop db0 c db0.nextOrgId))]
        rfl

set_option maxHeartbeats 1600000 in
/-- Re-importing a row with the very values it was created from (and the
same resolved relationship ids) merges to the row itself. -/
theorem mergedRoundTrip (db : DB) (d : ExternalDetailedImovel)
    (endId eID pvID paID corID : Nat) :
    updatesNonZero
        (createdRow db (transformExternalToCreateRequest d endId eID pvID paID corID))
        (applyUpdateReq
          (createdRow db (transformExternalToCreateRequest d endId eID pvID paID corID))
          (buildImportUpdateReq d eID pvID paID corID))
      = createdRow db (transformExternalToCreateRequest d endId eID pvID paID corID) := by
  unfold updatesNonZero applyUpdateReq buildImportUpdateReq createdRow
    transformExternalToCreateRequest
  dsimp only
  congr 1
  all_goals try simp
  · by_cases hd : d.descricao = "" <;> simp [hd]
  · by_cases h : eID = 0 <;> simp [h]
  · by_cases h : pvID = 0 <;> simp [h]
  · by_cases h : paID = 0 <;> simp [h]
  · by_cases h : corID = 0 <;> simp [h]

/-- A one-property batch environment whose upstream data never changes. -/
def c1Env (sid : Nat) (d : ExternalDetailedImovel) : FetchEnv :=
  { list := .ok [sid], detail := fun _ => some d, oracle := fun _ => Oracle.ok }

/-! ### Keyed-table machinery for the batch theorem -/

/-- The local id stored under key `k` of a keyed table: the id component of a
`Where(key = ?).First` lookup. -/
def tLookup {α : Type} (key : α → String) (rid : α → Nat) (t : List α)
    (k : String) : Option Nat :=
  (t.find? (fun r => key r == k)).map rid

/-- Table well-formedness: a non-zero id sequence, rows with non-zero ids
strictly below the sequence, and pairwise-distinct ids — every state a serial
primary key column can reach. -/
def TInv {α : Type} (rid : α → Nat) (t : List α) (n : Nat) : Prop :=
  n ≠ 0 ∧ (∀ r ∈ t, rid r ≠ 0 ∧ rid r < n) ∧
  t.Pairwise (fun a b => rid a ≠ rid b)

/-- Between two table states, every key that resolved to a local id keeps
resolving to it (the import only appends rows or rewrites them in place
preserving id and key). -/
def TPres {α : Type} (key : α → String) (rid : α → Nat) (t t' : List α) : Prop :=
  ∀ k i, tLookup key rid t k = some i → tLookup key rid t' k = some i

theorem TPres_refl {α : Type} (key : α → String) (rid : α → Nat) (t : List α) :
    TPres key rid t t := fun _ _ h => h

theorem TPres_trans {α : Type} {key : α → String} {rid : α → Nat}
    {t t' t'' : List α} (h1 : TPres key rid t t') (h2 : TPres key rid t' t'') :
    TPres key rid t t'' := fun k i h => h2 k i (h1 k i h)

/-- `find?` over a map that preserves the predicate on the list's members. -/
theorem find?_map_pred_comm_mem {α : Type} (f : α → α) (p : α → Bool)
    (l : List α) (hf : ∀ a ∈ l, p (f a) = p a) :
    (l.map f).find? p = (l.find? p).map f := by
  induction l with
  | nil => rfl
  | cons a l ih =>
    by_cases h : p a
    · simp [List.find?_cons_of_pos, h, hf a (by simp)]
    · have h' : ¬ p (f a) = true := by rw [hf a (by simp)]; exact h
      simp only [List.map_cons]
      rw [List.find?_cons_of_neg _ h', List.find?_cons_of_neg _ h]
      exact ih (fun b hb => hf b (by simp [hb]))

theorem tLookup_map {α : Type} (key : α → String) (rid : α → Nat) (g : α → α)
    (t : List α) (k : String)
    (hk : ∀ a ∈ t, key (g a) = key a) (hi : ∀ a ∈ t, rid (g a) = rid a) :
    tLookup key rid (t.map g) k = tLookup key rid t k := by
  unfold tLookup
  rw [find?_map_pred_comm_mem g _ t (fun a ha => by rw [hk a ha])]
  rcases hf : t.find? (fun r => key r == k) with _ | r
  · rfl
  · show some (rid (g r)) = some (rid r)
    rw [hi r (List.mem_of_find?_eq_some hf)]

theorem TPres_map {α : Type} {key : α → String} {rid : α → Nat} (g : α → α)
    (t : List α)
    (hk : ∀ a ∈ t, key (g a) = key a) (hi : ∀ a ∈ t, rid (g a) = rid a) :
    TPres key rid t (t.map g) := by
  intro k i h
  rw [tLookup_map key rid g t k hk hi]
  exact h

theorem TPres_append {α : Type} (key : α → String) (rid : α → Nat)
    (t t2 : List α) : TPres key rid t (t ++ t2) := by
  intro k i h
  unfold tLookup at h ⊢
  rcases hf : t.find? (fun r => key r == k) with _ | r
  · rw [hf] at h
    cases h
  · rw [find?_append_some t2 hf]
    rw [hf] at h
    exact h

theorem TInv_map {α : Type} {rid : α → Nat} (g : α → α) {t : List α} {n : Nat}
    (h : TInv rid t n) (hi : ∀ a ∈ t, rid (g a) = rid a) :
    TInv rid (t.map g) n := by
  obtain ⟨h1, h2, h3⟩ := h
  refine ⟨h1, ?_, ?_⟩
  · intro r hr
    obtain ⟨a, ha, rfl⟩ := List.mem_map.mp hr
    rw [hi a ha]
    exact h2 a ha
  · rw [List.pairwise_map]
    exact h3.imp_of_mem (fun ha hb hab => by rw [hi _ ha, hi _ hb]; exact hab)

theorem TInv_append {α : Type} {rid : α → Nat} {t : List α} {n : Nat} (x : α)
    (h : TInv rid t n) (hx : rid x = n) :
    TInv rid (t ++ [x]) (n + 1) := by
  obtain ⟨h1, h2, h3⟩ := h
  refine ⟨Nat.succ_ne_zero n, ?_, ?_⟩
  · intro r hr
    rcases List.mem_append.mp hr with hr | hr
    · obtain ⟨hz, hlt⟩ := h2 r hr
      exact ⟨hz, Nat.lt_succ_of_lt hlt⟩
    · rcases List.mem_singleton.mp hr with rfl
      rw [hx]
      exact ⟨h1, Nat.lt_succ_self n⟩
  · rw [List.pairwise_append]
    refine ⟨h3, List.pairwise_singleton _ x, ?_⟩
    intro a ha b hb
    rcases List.mem_singleton.mp hb with rfl
    rw [hx]
    exact Nat.ne_of_lt (h2 a ha).2

/-- In a table with pairwise-distinct ids, a member sharing the id of a
member is that member. -/
theorem pairwise_id_unique {α : Type} {rid : α → Nat} {t : List α}
    (h3 : t.Pairwise (fun a b => rid a ≠ rid b)) {r x : α}
    (hr : r ∈ t) (hx : x ∈ t) (he : rid x = rid r) : x = r := by
  induction t with
  | nil => cases hr
  | cons a l ih =>
    rcases List.pairwise_cons.mp h3 with ⟨hhead, htail⟩
    rcases List.mem_cons.mp hr with rfl | hr'
    · rcases List.mem_cons.mp hx with rfl | hx'
      · rfl
      · exact absurd he.symm (hhead x hx')
    · rcases List.mem_cons.mp hx with rfl | hx'
      · exact absurd he (hhead r hr')
      · exact ih htail hr' hx'

/-- The first match in a decomposed list whose prefix has no match. -/
theorem find?_split {α : Type} {p : α → Bool} {pre : List α} (post : List α)
    (r : α) (hpre : ∀ a ∈ pre, p a = false) (hr : p r = true) :
    (pre ++ r :: post).find? p = some r := by
  rw [find?_append_none (r :: post)
    (List.find?_eq_none.mpr (fun a ha => by simp [hpre a ha]))]
  exact List.find?_cons_of_pos _ hr

/-- Mapping over a decomposed list whose outer segments are fixed points. -/
theorem map_seg {α : Type} (g : α → α) (pre post : List α) (r : α)
    (hpre : ∀ a ∈ pre, g a = a) (hpost : ∀ a ∈ post, g a = a) :
    (pre ++ r :: post).map g = pre ++ g r :: post := by
  rw [List.map_append, map_noop g pre hpre, List.map_cons, map_noop g post hpost]

theorem any_false_of_find?_none {α : Type} {p : α → Bool} {l : List α}
    (h : l.find? p = none) : l.any p = false := by
  rw [List.any_eq_false]
  intro x hx
  have := List.find?_eq_none.mp h x hx
  simpa using this

theorem find?_none_of_any_false {α : Type} {p : α → Bool} {l : List α}
    (h : l.any p = false) : l.find? p = none := by
  rw [List.any_eq_false] at h
  exact List.find?_eq_none.mpr (fun x hx => by simpa using h x hx)

/-- `Forall₂`-indexed projection equality: relationally matched lists have
pointwise-determined images. -/
theorem forall₂_map_eq {α β γ : Type} {R : α → β → Prop} {f : α → γ}
    {g : β → γ} (h : ∀ a b, R a b → g b = f a) :
    ∀ {l₁ : List α} {l₂ : List β}, List.Forall₂ R l₁ l₂ →
      l₂.map g = l₁.map f
  | _, _, List.Forall₂.nil => rfl
  | _, _, List.Forall₂.cons hab hrest => by
    dsimp only [List.map]
    rw [h _ _ hab, forall₂_map_eq h hrest]

/-! ### Database-level invariants, lookup preservation, and per-entity
resolution certificates -/

/-- Well-formedness of the five keyed tables the import reads back: any
state a real database with serial primary keys reaches satisfies it. -/
def DBInv (db : DB) : Prop :=
  TInv (fun r : Imovel => r.id) db.imoveis db.nextImovelId ∧
  TInv (fun r : Empreendimento => r.id) db.empreendimentos db.nextEmpId ∧
  TInv (fun r : PrecoVenda => r.id) db.precoVendas db.nextPvId ∧
  TInv (fun r : PrecoAluguel => r.id) db.precoAlugueis db.nextPaId ∧
  TInv (fun r : CorretorPrincipal => r.id) db.corretores db.nextCorId

/-- Between two database states, every entity-correlation lookup that
resolved keeps resolving to the same local id. -/
def DBPres (db db' : DB) : Prop :=
  TPres (fun r : Empreendimento => r.idIntegracao) (fun r => r.id)
    db.empreendimentos db'.empreendimentos ∧
  TPres (fun r : PrecoVenda => r.idIntegracao) (fun r => r.id)
    db.precoVendas db'.precoVendas ∧
  TPres (fun r : PrecoAluguel => r.idIntegracao) (fun r => r.id)
    db.precoAlugueis db'.precoAlugueis ∧
  TPres (fun r : CorretorPrincipal => r.idIntegracao) (fun r => r.id)
    db.corretores db'.corretores

theorem DBPres_refl (db : DB) : DBPres db db :=
  ⟨TPres_refl _ _ _, TPres_refl _ _ _, TPres_refl _ _ _, TPres_refl _ _ _⟩

theorem DBPres_trans {db db' db'' : DB} (h1 : DBPres db db')
    (h2 : DBPres db' db'') : DBPres db db'' :=
  ⟨TPres_trans h1.1 h2.1, TPres_trans h1.2.1 h2.2.1,
   TPres_trans h1.2.2.1 h2.2.2.1, TPres_trans h1.2.2.2 h2.2.2.2⟩

/-- What a run records about an item's development resolution: nothing to
resolve (id 0), a rejected external id (id 0), or a key that now resolves to
the returned local id. -/
def EmpCert (t : List Empreendimento) (e? : Option ExternalEmpreendimento)
    (i : Nat) : Prop :=
  match e? with
  | none => i = 0
  | some e => (e.id = 0 ∧ i = 0) ∨
      (e.id ≠ 0 ∧
        tLookup (fun r => r.idIntegracao) (fun r => r.id) t (toString e.id)
          = some i)

/-- What a run records about an item's sale-price resolution. -/
def PvCert (t : List PrecoVenda) (pv? : Option ExternalPrecoVenda)
    (i : Nat) : Prop :=
  match pv? with
  | none => i = 0
  | some pv => (pv.ativo = false ∧ i = 0) ∨
      (pv.ativo = true ∧ pv.id = 0 ∧ i = 0) ∨
      (pv.ativo = true ∧ pv.id ≠ 0 ∧
        tLookup (fun r => r.idIntegracao) (fun r => r.id) t (toString pv.id)
          = some i)

/-- What a run records about an item's rent-price resolution. -/
def PaCert (t : List PrecoAluguel) (pa? : Option ExternalPrecoAluguel)
    (i : Nat) : Prop :=
  match pa? with
  | none => i = 0
  | some pa => (pa.ativo = false ∧ i = 0) ∨
      (pa.ativo = true ∧ pa.id = 0 ∧ i = 0) ∨
      (pa.ativo = true ∧ pa.id ≠ 0 ∧
        tLookup (fun r => r.idIntegracao) (fun r => r.id) t (toString pa.id)
          = some i)

/-- What a run records about an item's broker resolution. -/
def CorCert (t : List CorretorPrincipal) (c : ExternalCorretor) (i : Nat) :
    Prop :=
  (c.email = "" ∧ i = 0) ∨
  (c.email ≠ "" ∧
    tLookup (fun r => r.idIntegracao) (fun r => r.id) t (toString c.id)
      = some i)

theorem EmpCert_mono {t t' : List Empreendimento}
    {e? : Option ExternalEmpreendimento} {i : Nat} (h : EmpCert t e? i)
    (hp : TPres (fun r => r.idIntegracao) (fun r => r.id) t t') :
    EmpCert t' e? i := by
  rcases e? with _ | e
  · exact h
  · rcases h with h | ⟨hne, hlook⟩
    · exact Or.inl h
    · exact Or.inr ⟨hne, hp _ _ hlook⟩

theorem PvCert_mono {t t' : List PrecoVenda} {pv? : Option ExternalPrecoVenda}
    {i : Nat} (h : PvCert t pv? i)
    (hp : TPres (fun r => r.idIntegracao) (fun r => r.id) t t') :
    PvCert t' pv? i := by
  rcases pv? with _ | pv
  · exact h
  · rcases h with h | h | ⟨ha, hne, hlook⟩
    · exact Or.inl h
    · exact Or.inr (Or.inl h)
    · exact Or.inr (Or.inr ⟨ha, hne, hp _ _ hlook⟩)

theorem PaCert_mono {t t' : List PrecoAluguel}
    {pa? : Option ExternalPrecoAluguel} {i : Nat} (h : PaCert t pa? i)
    (hp : TPres (fun r => r.idIntegracao) (fun r => r.id) t t') :
    PaCert t' pa? i := by
  rcases pa? with _ | pa
  · exact h
  · rcases h with h | h | ⟨ha, hne, hlook⟩
    · exact Or.inl h
    · exact Or.inr (Or.inl h)
    · exact Or.inr (Or.inr ⟨ha, hne, hp _ _ hlook⟩)

theorem CorCert_mono {t t' : List CorretorPrincipal} {c : ExternalCorretor}
    {i : Nat} (h : CorCert t c i)
    (hp : TPres (fun r => r.idIntegracao) (fun r => r.id) t t') :
    CorCert t' c i := by
  rcases h with h | ⟨hne, hlook⟩
  · exact Or.inl h
  · exact Or.inr ⟨hne, hp _ _ hlook⟩

/-! ### One resolution step against an arbitrary well-formed database -/

/-- The in-place update `upsertEmpreendimento` writes over a found row. -/
def empUpd (existing : Empreendimento) (e : ExternalEmpreendimento) :
    Empreendimento :=
  { existing with
    titulo := e.titulo, descricao := e.descricao, tipo := e.tipo
    status := e.status, localizacao := e.localizacao
    finalidade := if e.finalidade ≠ "" then e.finalidade
                  else existing.finalidade }

set_option maxHeartbeats 1000000 in
/-- One development resolution against any well-formed table: result, frame,
preserved invariant, lookup monotonicity, the certificate it leaves behind,
and determinism against a previously recorded certificate. -/
theorem empResolveStep (db : DB) (e? : Option ExternalEmpreendimento)
    (hInv : TInv (fun r : Empreendimento => r.id) db.empreendimentos
      db.nextEmpId) :
    ∃ i dbA tA,
      resolveEmpreendimento Oracle.ok db e? = (i, dbA, tA) ∧
      OnlyEmp db dbA ∧
      TInv (fun r : Empreendimento => r.id) dbA.empreendimentos dbA.nextEmpId ∧
      TPres (fun r : Empreendimento => r.idIntegracao) (fun r => r.id)
        db.empreendimentos dbA.empreendimentos ∧
      EmpCert dbA.empreendimentos e? i ∧
      (∀ j, EmpCert db.empreendimentos e? j → i = j) := by
  rcases e? with _ | e
  · exact ⟨0, db, [], rfl,
      ⟨rfl, rfl, rfl, rfl, rfl, rfl, rfl, rfl, rfl, rfl, rfl, rfl, rfl, rfl, rfl⟩,
      hInv, TPres_refl _ _ _, rfl, fun j hj => hj.symm⟩
  · by_cases hid : e.id = 0
    · refine ⟨0, db, [.empUpsert], ?_,
        ⟨rfl, rfl, rfl, rfl, rfl, rfl, rfl, rfl, rfl, rfl, rfl, rfl, rfl, rfl, rfl⟩,
        hInv, TPres_refl _ _ _, Or.inl ⟨hid, rfl⟩, ?_⟩
      · unfold resolveEmpreendimento upsertEmpreendimento
        dsimp only
        rw [if_pos hid]
      · intro j hj
        rcases hj with ⟨-, hj⟩ | ⟨hne, -⟩
        · exact hj.symm
        · exact absurd hid hne
    · have hfind0 : db.empreendimentos.find?
          (fun r => r.idIntegracao == toString e.id)
          = findEmpByKey db (toString e.id) := rfl
      rcases hfind : findEmpByKey db (toString e.id) with _ | existing
      · refine ⟨db.nextEmpId, empDb1 db e, [.empUpsert], ?_,
          ⟨rfl, rfl, rfl, rfl, rfl, rfl, rfl, rfl, rfl, rfl, rfl, rfl, rfl, rfl, rfl⟩,
          ?_, ?_, Or.inr ⟨hid, ?_⟩, ?_⟩
        · unfold resolveEmpreendimento upsertEmpreendimento
          dsimp only
          rw [if_neg hid, hfind]
          rfl
        · show TInv _ (db.empreendimentos ++ [empRow1 db e]) (db.nextEmpId + 1)
          exact TInv_append _ hInv rfl
        · show TPres _ _ db.empreendimentos (db.empreendimentos ++ [empRow1 db e])
          exact TPres_append _ _ _ _
        · show tLookup _ _ (db.empreendimentos ++ [empRow1 db e]) _ = _
          unfold tLookup
          rw [find?_append_none _ (by rw [hfind0]; exact hfind)]
          simp [empRow1]
        · intro j hj
          rcases hj with ⟨hz, -⟩ | ⟨-, hlook⟩
          · exact absurd hz hid
          · unfold tLookup at hlook
            rw [hfind0, hfind] at hlook
            cases hlook
      · have hmem : existing ∈ db.empreendimentos :=
          List.mem_of_find?_eq_some (by rw [hfind0]; exact hfind)
        have hig : ∀ a ∈ db.empreendimentos,
            ((fun r => if r.id = existing.id then empUpd existing e else r) a).id
              = a.id := by
          intro a ha
          show (if a.id = existing.id then empUpd existing e else a).id = a.id
          by_cases h : a.id = existing.id
          · rw [if_pos h]
            exact h.symm
          · simp [h]
        have hkg : ∀ a ∈ db.empreendimentos,
            ((fun r => if r.id = existing.id then empUpd existing e else r) a).idIntegracao
              = a.idIntegracao := by
          intro a ha
          by_cases h : a.id = existing.id
          · rcases pairwise_id_unique hInv.2.2 hmem ha h with rfl
            simp [empUpd]
          · simp [h]
        refine ⟨existing.id,
          { db with
              empreendimentos := db.empreendimentos.map
                (fun r => if r.id = existing.id then empUpd existing e else r) },
          [.empUpsert], ?_,
          ⟨rfl, rfl, rfl, rfl, rfl, rfl, rfl, rfl, rfl, rfl, rfl, rfl, rfl, rfl, rfl⟩,
          ?_, ?_, Or.inr ⟨hid, ?_⟩, ?_⟩
        · unfold resolveEmpreendimento upsertEmpreendimento
          dsimp only
          rw [if_neg hid]
          simp only [hfind]
          rfl
        · exact TInv_map _ hInv hig
        · exact TPres_map _ _ hkg hig
        · show tLookup _ _ (db.empreendimentos.map _) _ = _
          rw [tLookup_map _ _ _ _ _ hkg hig]
          unfold tLookup
          rw [hfind0, hfind]
          rfl
        · intro j hj
          rcases hj with ⟨hz, -⟩ | ⟨-, hlook⟩
          · exact absurd hz hid
          · unfold tLookup at hlook
            rw [hfind0, hfind] at hlook
            exact Option.some.inj (show some existing.id = some j from hlook)

/-- The in-place `Save` of `upsertPrecoVenda` over a found row. -/
def pvUpd (existing : PrecoVenda) (e : ExternalPrecoVenda) : PrecoVenda :=
  { existing with
    preco := e.preco
    aceitaFinanciamentoBancario := e.aceitaFinanciamentoBancario
    aceitaFinanciamentoDireto := e.aceitaFinanciamentoDireto
    aceitaPermuta := e.aceitaPermuta
    aceitaCartaDeCredito := e.aceitaCartaDeCredito
    aceitaFGTS := e.aceitaFGTS
    ativo := e.ativo }

set_option maxHeartbeats 1000000 in
/-- One sale-price resolution against any well-formed table. -/
theorem pvResolveStep (db : DB) (pv? : Option ExternalPrecoVenda)
    (hInv : TInv (fun r : PrecoVenda => r.id) db.precoVendas db.nextPvId) :
    ∃ i dbB tB,
      resolvePrecoVenda Oracle.ok db pv? = (i, dbB, tB) ∧
      OnlyPv db dbB ∧
      TInv (fun r : PrecoVenda => r.id) dbB.precoVendas dbB.nextPvId ∧
      TPres (fun r : PrecoVenda => r.idIntegracao) (fun r => r.id)
        db.precoVendas dbB.precoVendas ∧
      PvCert dbB.precoVendas pv? i ∧
      (∀ j, PvCert db.precoVendas pv? j → i = j) := by
  rcases pv? with _ | pv
  · exact ⟨0, db, [], rfl,
      ⟨rfl, rfl, rfl, rfl, rfl, rfl, rfl, rfl, rfl, rfl, rfl, rfl, rfl, rfl, rfl⟩,
      hInv, TPres_refl _ _ _, rfl, fun j hj => hj.symm⟩
  · by_cases ha : pv.ativo = true
    · by_cases hid : pv.id = 0
      · refine ⟨0, db, [.pvUpsert], ?_,
          ⟨rfl, rfl, rfl, rfl, rfl, rfl, rfl, rfl, rfl, rfl, rfl, rfl, rfl, rfl, rfl⟩,
          hInv, TPres_refl _ _ _, Or.inr (Or.inl ⟨ha, hid, rfl⟩), ?_⟩
        · unfold resolvePrecoVenda upsertPrecoVenda
          dsimp only
          rw [if_pos ha, if_pos hid]
        · intro j hj
          rcases hj with ⟨haf, -⟩ | ⟨-, -, hj⟩ | ⟨-, hne, -⟩
          · exact absurd ha (by simp [haf])
          · exact hj.symm
          · exact absurd hid hne
      · have hfind0 : db.precoVendas.find?
            (fun r => r.idIntegracao == toString pv.id)
            = findPvByKey db (toString pv.id) := rfl
        rcases hfind : findPvByKey db (toString pv.id) with _ | existing
        · refine ⟨db.nextPvId, pvDb1 db pv, [.pvUpsert], ?_,
            ⟨rfl, rfl, rfl, rfl, rfl, rfl, rfl, rfl, rfl, rfl, rfl, rfl, rfl, rfl, rfl⟩,
            ?_, ?_, Or.inr (Or.inr ⟨ha, hid, ?_⟩), ?_⟩
          · unfold resolvePrecoVenda upsertPrecoVenda
            dsimp only
            rw [if_pos ha, if_neg hid, hfind]
            rfl
          · show TInv _ (db.precoVendas ++ [pvRow1 db pv]) (db.nextPvId + 1)
            exact TInv_append _ hInv rfl
          · show TPres _ _ db.precoVendas (db.precoVendas ++ [pvRow1 db pv])
            exact TPres_append _ _ _ _
          · show tLookup _ _ (db.precoVendas ++ [pvRow1 db pv]) _ = _
            unfold tLookup
            rw [find?_append_none _ (by rw [hfind0]; exact hfind)]
            simp [pvRow1]
          · intro j hj
            rcases hj with ⟨haf, -⟩ | ⟨-, hz, -⟩ | ⟨-, -, hlook⟩
            · exact absurd ha (by simp [haf])
            · exact absurd hz hid
            · unfold tLookup at hlook
              rw [hfind0, hfind] at hlook
              cases hlook
        · have hmem : existing ∈ db.precoVendas :=
            List.mem_of_find?_eq_some (by rw [hfind0]; exact hfind)
          have hig : ∀ a ∈ db.precoVendas,
              ((fun r => if r.id = existing.id then pvUpd existing pv else r) a).id
                = a.id := by
            intro a ha2
            show (if a.id = existing.id then pvUpd existing pv else a).id = a.id
            by_cases h : a.id = existing.id
            · rw [if_pos h]
              exact h.symm
            · simp [h]
          have hkg : ∀ a ∈ db.precoVendas,
              ((fun r => if r.id = existing.id then pvUpd existing pv else r) a).idIntegracao
                = a.idIntegracao := by
            intro a ha2
            by_cases h : a.id = existing.id
            · rcases pairwise_id_unique hInv.2.2 hmem ha2 h with rfl
              simp [pvUpd]
            · simp [h]
          refine ⟨existing.id,
            { db with
                precoVendas := db.precoVendas.map
                  (fun r => if r.id = existing.id then pvUpd existing pv else r) },
            [.pvUpsert], ?_,
            ⟨rfl, rfl, rfl, rfl, rfl, rfl, rfl, rfl, rfl, rfl, rfl, rfl, rfl, rfl, rfl⟩,
            ?_, ?_, Or.inr (Or.inr ⟨ha, hid, ?_⟩), ?_⟩
          · unfold resolvePrecoVenda upsertPrecoVenda
            dsimp only
            rw [if_pos ha, if_neg hid]
            simp only [hfind]
            rfl
          · exact TInv_map _ hInv hig
          · exact TPres_map _ _ hkg hig
          · show tLookup _ _ (db.precoVendas.map _) _ = _
            rw [tLookup_map _ _ _ _ _ hkg hig]
            unfold tLookup
            rw [hfind0, hfind]
            rfl
          · intro j hj
            rcases hj with ⟨haf, -⟩ | ⟨-, hz, -⟩ | ⟨-, -, hlook⟩
            · exact absurd ha (by simp [haf])
            · exact absurd hz hid
            · unfold tLookup at hlook
              rw [hfind0, hfind] at hlook
              exact Option.some.inj (show some existing.id = some j from hlook)
    · have ha' : pv.ativo = false := by simpa using ha
      refine ⟨0, db, [], ?_,
        ⟨rfl, rfl, rfl, rfl, rfl, rfl, rfl, rfl, rfl, rfl, rfl, rfl, rfl, rfl, rfl⟩,
        hInv, TPres_refl _ _ _, Or.inl ⟨ha', rfl⟩, ?_⟩
      · unfold resolvePrecoVenda
        dsimp only
        rw [if_neg ha]
      · intro j hj
        rcases hj with ⟨-, hj⟩ | ⟨hat, -, -⟩ | ⟨hat, -, -⟩
        · exact hj.symm
        · exact absurd hat ha
        · exact absurd hat ha

/-- The in-place `Save` of `upsertPrecoAluguel` over a found row. -/
def paUpd (existing : PrecoAluguel) (e : ExternalPrecoAluguel) : PrecoAluguel :=
  { existing with
    preco := e.preco, aceitaFiador := e.aceitaFiador, ativo := e.ativo }

set_option maxHeartbeats 1000000 in
/-- One rent-price resolution against any well-formed table. -/
theorem paResolveStep (db : DB) (pa? : Option ExternalPrecoAluguel)
    (hInv : TInv (fun r : PrecoAluguel => r.id) db.precoAlugueis db.nextPaId) :
    ∃ i dbC tC,
      resolvePrecoAluguel Oracle.ok db pa? = (i, dbC, tC) ∧
      OnlyPa db dbC ∧
      TInv (fun r : PrecoAluguel => r.id) dbC.precoAlugueis dbC.nextPaId ∧
      TPres (fun r : PrecoAluguel => r.idIntegracao) (fun r => r.id)
        db.precoAlugueis dbC.precoAlugueis ∧
      PaCert dbC.precoAlugueis pa? i ∧
      (∀ j, PaCert db.precoAlugueis pa? j → i = j) := by
  rcases pa? with _ | pa
  · exact ⟨0, db, [], rfl,
      ⟨rfl, rfl, rfl, rfl, rfl, rfl, rfl, rfl, rfl, rfl, rfl, rfl, rfl, rfl, rfl⟩,
      hInv, TPres_refl _ _ _, rfl, fun j hj => hj.symm⟩
  · by_cases ha : pa.ativo = true
    · by_cases hid : pa.id = 0
      · refine ⟨0, db, [.paUpsert], ?_,
          ⟨rfl, rfl, rfl, rfl, rfl, rfl, rfl, rfl, rfl, rfl, rfl, rfl, rfl, rfl, rfl⟩,
          hInv, TPres_refl _ _ _, Or.inr (Or.inl ⟨ha, hid, rfl⟩), ?_⟩
        · unfold resolvePrecoAluguel upsertPrecoAluguel
          dsimp only
          rw [if_pos ha, if_pos hid]
        · intro j hj
          rcases hj with ⟨haf, -⟩ | ⟨-, -, hj⟩ | ⟨-, hne, -⟩
          · exact absurd ha (by simp [haf])
          · exact hj.symm
          · exact absurd hid hne
      · have hfind0 : db.precoAlugueis.find?
            (fun r => r.idIntegracao == toString pa.id)
            = findPaByKey db (toString pa.id) := rfl
        rcases hfind : findPaByKey db (toString pa.id) with _ | existing
        · refine ⟨db.nextPaId, paDb1 db pa, [.paUpsert], ?_,
            ⟨rfl, rfl, rfl, rfl, rfl, rfl, rfl, rfl, rfl, rfl, rfl, rfl, rfl, rfl, rfl⟩,
            ?_, ?_, Or.inr (Or.inr ⟨ha, hid, ?_⟩), ?_⟩
          · unfold resolvePrecoAluguel upsertPrecoAluguel
            dsimp only
            rw [if_pos ha, if_neg hid, hfind]
            rfl
          · show TInv _ (db.precoAlugueis ++ [paRow1 db pa]) (db.nextPaId + 1)
            exact TInv_append _ hInv rfl
          · show TPres _ _ db.precoAlugueis (db.precoAlugueis ++ [paRow1 db pa])
            exact TPres_append _ _ _ _
          · show tLookup _ _ (db.precoAlugueis ++ [paRow1 db pa]) _ = _
            unfold tLookup
            rw [find?_append_none _ (by rw [hfind0]; exact hfind)]
            simp [paRow1]
          · intro j hj
            rcases hj with ⟨haf, -⟩ | ⟨-, hz, -⟩ | ⟨-, -, hlook⟩
            · exact absurd ha (by simp [haf])
            · exact absurd hz hid
            · unfold tLookup at hlook
              rw [hfind0, hfind] at hlook
              cases hlook
        · have hmem : existing ∈ db.precoAlugueis :=
            List.mem_of_find?_eq_some (by rw [hfind0]; exact hfind)
          have hig : ∀ a ∈ db.precoAlugueis,
              ((fun r => if r.id = existing.id then paUpd existing pa else r) a).id
                = a.id := by
            intro a ha2
            show (if a.id = existing.id then paUpd existing pa else a).id = a.id
            by_cases h : a.id = existing.id
            · rw [if_pos h]
              exact h.symm
            · simp [h]
          have hkg : ∀ a ∈ db.precoAlugueis,
              ((fun r => if r.id = existing.id then paUpd existing pa else r) a).idIntegracao
                = a.idIntegracao := by
            intro a ha2
            by_cases h : a.id = existing.id
            · rcases pairwise_id_unique hInv.2.2 hmem ha2 h with rfl
              simp [paUpd]
            · simp [h]
          refine ⟨existing.id,
            { db with
                precoAlugueis := db.precoAlugueis.map
                  (fun r => if r.id = existing.id then paUpd existing pa else r) },
            [.paUpsert], ?_,
            ⟨rfl, rfl, rfl, rfl, rfl, rfl, rfl, rfl, rfl, rfl, rfl, rfl, rfl, rfl, rfl⟩,
            ?_, ?_, Or.inr (Or.inr ⟨ha, hid, ?_⟩), ?_⟩
          · unfold resolvePrecoAluguel upsertPrecoAluguel
            dsimp only
            rw [if_pos ha, if_neg hid]
            simp only [hfind]
            rfl
          · exact TInv_map _ hInv hig
          · exact TPres_map _ _ hkg hig
          · show tLookup _ _ (db.precoAlugueis.map _) _ = _
            rw [tLookup_map _ _ _ _ _ hkg hig]
            unfold tLookup
            rw [hfind0, hfind]
            rfl
          · intro j hj
            rcases hj with ⟨haf, -⟩ | ⟨-, hz, -⟩ | ⟨-, -, hlook⟩
            · exact absurd ha (by simp [haf])
            · exact absurd hz hid
            · unfold tLookup at hlook
              rw [hfind0, hfind] at hlook
              exact Option.some.inj (show some existing.id = some j from hlook)
    · have ha' : pa.ativo = false := by simpa using ha
      refine ⟨0, db, [], ?_,
        ⟨rfl, rfl, rfl, rfl, rfl, rfl, rfl, rfl, rfl, rfl, rfl, rfl, rfl, rfl, rfl⟩,
        hInv, TPres_refl _ _ _, Or.inl ⟨ha', rfl⟩, ?_⟩
      · unfold resolvePrecoAluguel
        dsimp only
        rw [if_neg ha]
      · intro j hj
        rcases hj with ⟨-, hj⟩ | ⟨hat, -, -⟩ | ⟨hat, -, -⟩
        · exact hj.symm
        · exact absurd hat ha
        · exact absurd hat ha

set_option maxHeartbeats 1600000 in
/-- One broker resolution (with its organization sub-step) against any
well-formed database. -/
theorem corResolveStep (db : DB) (c : ExternalCorretor)
    (hInv : TInv (fun r : CorretorPrincipal => r.id) db.corretores
      db.nextCorId) :
    ∃ i dbD tD,
      resolveCorretorPrincipal Oracle.ok db c = (i, dbD, tD) ∧
      OnlyCorOrg db dbD ∧
      TInv (fun r : CorretorPrincipal => r.id) dbD.corretores dbD.nextCorId ∧
      TPres (fun r : CorretorPrincipal => r.idIntegracao) (fun r => r.id)
        db.corretores dbD.corretores ∧
      CorCert dbD.corretores c i ∧
      (∀ j, CorCert db.corretores c j → i = j) := by
  by_cases he : c.email = ""
  · refine ⟨0, db, [], ?_,
      ⟨rfl, rfl, rfl, rfl, rfl, rfl, rfl, rfl, rfl, rfl, rfl, rfl, rfl⟩,
      hInv, TPres_refl _ _ _, Or.inl ⟨he, rfl⟩, ?_⟩
    · unfold resolveCorretorPrincipal
      rw [if_neg (by simp [he])]
    · intro j hj
      rcases hj with ⟨-, hj⟩ | ⟨hne, -⟩
      · exact hj.symm
      · exact absurd he hne
  · obtain ⟨g, dbO, horg, hOO⟩ :
        ∃ g dbO, (if c.organizacao.nome ≠ "" then
            upsertOrganizacao Oracle.ok db c.organizacao else (.ok 0, db))
          = (.ok g, dbO) ∧ OnlyOrg db dbO := by
      by_cases hn : c.organizacao.nome = ""
      · exact ⟨0, db, by rw [if_neg (by simpa using hn)],
          ⟨rfl, rfl, rfl, rfl, rfl, rfl, rfl, rfl, rfl, rfl, rfl, rfl, rfl, rfl, rfl⟩⟩
      · obtain ⟨g, dbO, heq, hOO⟩ := upsertOrg_ok Oracle.ok db c.organizacao hn rfl
        exact ⟨g, dbO, by rw [if_pos (by simpa using hn)]; exact heq, hOO⟩
    obtain ⟨oo1, oo2, oo3, oo4, oo5, oo6, oo7, oo8, oo9, oo10, oo11, oo12, oo13,
      oo14, oo15⟩ := hOO
    have hfind' : db.corretores.find? (fun r => r.idIntegracao == toString c.id)
        = findCorByKey db (toString c.id) := rfl
    rcases hfind : findCorByKey db (toString c.id) with _ | existing
    · have hfindO : findCorByKey dbO (toString c.id) = none := by
        unfold findCorByKey
        rw [oo5]
        exact hfind
      have h5 : ({ dbO with
            corretores := dbO.corretores ++ [corRowG db.nextCorId c g]
            nextCorId := dbO.nextCorId + 1 } : DB).corretores
          = db.corretores ++ [corRowG db.nextCorId c g] := by
        show dbO.corretores ++ _ = _
        rw [oo5]
      have h12 : ({ dbO with
            corretores := dbO.corretores ++ [corRowG db.nextCorId c g]
            nextCorId := dbO.nextCorId + 1 } : DB).nextCorId
          = db.nextCorId + 1 := by
        show dbO.nextCorId + 1 = _
        rw [oo12]
      refine ⟨db.nextCorId,
        { dbO with
            corretores := dbO.corretores ++ [corRowG db.nextCorId c g]
            nextCorId := dbO.nextCorId + 1 },
        [.corUpsert], ?_,
        ⟨oo1, oo2, oo3, oo4, oo6, oo7, oo8, oo9, oo10, oo11, oo13, oo14, oo15⟩,
        ?_, ?_, Or.inr ⟨he, ?_⟩, ?_⟩
      · unfold resolveCorretorPrincipal upsertCorretorPrincipal
        rw [if_pos (by simpa using he), if_neg he]
        simp only [horg]
        simp only [hfindO]
        rw [oo12]
        rfl
      · rw [h5, h12]
        exact TInv_append _ hInv rfl
      · rw [h5]
        exact TPres_append _ _ _ _
      · rw [h5]
        unfold tLookup
        rw [find?_append_none _ (by rw [hfind']; exact hfind)]
        simp [corRowG]
      · intro j hj
        rcases hj with ⟨hz, -⟩ | ⟨-, hlook⟩
        · exact absurd hz he
        · unfold tLookup at hlook
          rw [hfind', hfind] at hlook
          cases hlook
    · have hfindO : findCorByKey dbO (toString c.id) = some existing := by
        unfold findCorByKey
        rw [oo5]
        exact hfind
      have hmem : existing ∈ db.corretores :=
        List.mem_of_find?_eq_some (by rw [hfind']; exact hfind)
      by_cases hch : corApplyUpdates existing c g ≠ existing
      · have hig : ∀ a ∈ db.corretores,
            ((fun r => if r.id = existing.id then corApplyUpdates existing c g
              else r) a).id = a.id := by
          intro a ha2
          show (if a.id = existing.id then corApplyUpdates existing c g else a).id
            = a.id
          by_cases h : a.id = existing.id
          · rw [if_pos h]
            exact h.symm
          · simp [h]
        have hkg : ∀ a ∈ db.corretores,
            ((fun r => if r.id = existing.id then corApplyUpdates existing c g
              else r) a).idIntegracao = a.idIntegracao := by
          intro a ha2
          by_cases h : a.id = existing.id
          · rcases pairwise_id_unique hInv.2.2 hmem ha2 h with rfl
            simp [corApplyUpdates]
          · simp [h]
        have h5 : ({ dbO with
              corretores := dbO.corretores.map
                (fun r => if r.id = existing.id then corApplyUpdates existing c g
                  else r) } : DB).corretores
            = db.corretores.map
                (fun r => if r.id = existing.id then corApplyUpdates existing c g
                  else r) := by
          show dbO.corretores.map _ = _
          rw [oo5]
        have h12 : ({ dbO with
              corretores := dbO.corretores.map
                (fun r => if r.id = existing.id then corApplyUpdates existing c g
                  else r) } : DB).nextCorId = db.nextCorId := by
          show dbO.nextCorId = _
          rw [oo12]
        refine ⟨existing.id,
          { dbO with
              corretores := dbO.corretores.map
                (fun r => if r.id = existing.id then corApplyUpdates existing c g
                  else r) },
          [.corUpsert], ?_,
          ⟨oo1, oo2, oo3, oo4, oo6, oo7, oo8, oo9, oo10, oo11, oo13, oo14, oo15⟩,
          ?_, ?_, Or.inr ⟨he, ?_⟩, ?_⟩
        · unfold resolveCorretorPrincipal upsertCorretorPrincipal
          rw [if_pos (by simpa using he), if_neg he]
          simp only [horg]
          simp only [hfindO]
          rw [if_pos hch]
          rfl
        · rw [h5, h12]
          exact TInv_map _ hInv hig
        · rw [h5]
          exact TPres_map _ _ hkg hig
        · rw [h5, tLookup_map _ _ _ _ _ hkg hig]
          unfold tLookup
          rw [hfind', hfind]
          rfl
        · intro j hj
          rcases hj with ⟨hz, -⟩ | ⟨-, hlook⟩
          · exact absurd hz he
          · unfold tLookup at hlook
            rw [hfind', hfind] at hlook
            exact Option.some.inj (show some existing.id = some j from hlook)
      · refine ⟨existing.id, dbO, [.corUpsert], ?_,
          ⟨oo1, oo2, oo3, oo4, oo6, oo7, oo8, oo9, oo10, oo11, oo13, oo14, oo15⟩,
          ?_, ?_, Or.inr ⟨he, ?_⟩, ?_⟩
        · unfold resolveCorretorPrincipal upsertCorretorPrincipal
          rw [if_pos (by simpa using he), if_neg he]
          simp only [horg]
          simp only [hfindO]
          rw [if_neg hch]
        · rw [oo5, oo12]
          exact hInv
        · rw [oo5]
          exact TPres_refl _ _ _
        · rw [oo5]
          unfold tLookup
          rw [hfind', hfind]
          rfl
        · intro j hj
          rcases hj with ⟨hz, -⟩ | ⟨-, hlook⟩
          · exact absurd hz he
          · unfold tLookup at hlook
            rw [hfind', hfind] at hlook
            exact Option.some.inj (show some existing.id = some j from hlook)

/-- Everything one run records about a created property row: its correlation
key, a usable primary key, its exact shape as an insert from the external
record with the resolved relationship ids, and certificates that those ids
keep resolving. -/
def ItemCert (d : ExternalDetailedImovel) (db : DB) (r : Imovel) : Prop :=
  r.idIntegracao = toString d.id ∧ r.id ≠ 0 ∧
  ∃ dbX endId eID pvID paID corID,
    r = createdRow dbX
      (transformExternalToCreateRequest d endId eID pvID paID corID) ∧
    EmpCert db.empreendimentos d.empreendimento eID ∧
    PvCert db.precoVendas d.precoVenda pvID ∧
    PaCert db.precoAlugueis d.precoAluguel paID ∧
    CorCert db.corretores d.corretorPrincipal corID

theorem ItemCert_mono {d : ExternalDetailedImovel} {db db' : DB} {r : Imovel}
    (h : ItemCert d db r) (hp : DBPres db db') : ItemCert d db' r := by
  obtain ⟨h1, h2, dbX, endId, eID, pvID, paID, corID, hr, hE, hPv, hPa, hC⟩ := h
  exact ⟨h1, h2, dbX, endId, eID, pvID, paID, corID, hr,
    EmpCert_mono hE hp.1, PvCert_mono hPv hp.2.1, PaCert_mono hPa hp.2.2.1,
    CorCert_mono hC hp.2.2.2⟩

/-- `db'` differs from `db` at most in the address table/sequence and the
property rows (whose address reference the update-branch address step may
re-point). -/
def OnlyEndIm (db db' : DB) : Prop :=
  db'.empreendimentos = db.empreendimentos ∧ db'.precoVendas = db.precoVendas ∧
  db'.precoAlugueis = db.precoAlugueis ∧ db'.corretores = db.corretores ∧
  db'.organizacoes = db.organizacoes ∧ db'.anexos = db.anexos ∧
  db'.nextImovelId = db.nextImovelId ∧ db'.nextEmpId = db.nextEmpId ∧
  db'.nextPvId = db.nextPvId ∧ db'.nextPaId = db.nextPaId ∧
  db'.nextCorId = db.nextCorId ∧ db'.nextOrgId = db.nextOrgId ∧
  db'.nextAnexoId = db.nextAnexoId ∧ db'.clock = db.clock

theorem AttachEndereco_frame (o : Oracle) (db : DB) (pid e : Nat) :
    OnlyEndIm db (AttachEndereco o db pid e).2 := by
  unfold AttachEndereco
  repeat' split
  all_goals exact ⟨rfl, rfl, rfl, rfl, rfl, rfl, rfl, rfl, rfl, rfl, rfl, rfl,
    rfl, rfl⟩

theorem updateEnderecoStep_frame (o : Oracle) (db : DB) (pid : Nat)
    (x : ExternalEndereco) : OnlyEndIm db (updateEnderecoStep o db pid x).2 := by
  unfold updateEnderecoStep
  by_cases hrua : x.rua ≠ ""
  · rw [if_pos hrua]
    unfold upsertEndereco
    rcases hc : createEndereco o db x with ⟨rc, dbc⟩
    have hOE := createEndereco_onlyEnd o db x
    rw [hc] at hOE
    obtain ⟨e1, e2, e3, e4, e5, e6, e7, e8, e9, e10, e11, e12, e13, e14,
      e15⟩ := hOE
    simp only [hc]
    cases rc with
    | error u =>
      exact ⟨e2, e3, e4, e5, e6, e7, e8, e9, e10, e11, e12, e13, e14, e15⟩
    | ok eid =>
      dsimp only
      rcases ha : AttachEndereco o dbc pid eid with ⟨ra, dba⟩
      have hAF := AttachEndereco_frame o dbc pid eid
      rw [ha] at hAF
      obtain ⟨a1, a2, a3, a4, a5, a6, a7, a8, a9, a10, a11, a12, a13,
        a14⟩ := hAF
      cases ra with
      | error u =>
        exact ⟨a1.trans e2, a2.trans e3, a3.trans e4, a4.trans e5, a5.trans e6,
          a6.trans e7, a7.trans e8, a8.trans e9, a9.trans e10, a10.trans e11,
          a11.trans e12, a12.trans e13, a13.trans e14, a14.trans e15⟩
      | ok u =>
        exact ⟨a1.trans e2, a2.trans e3, a3.trans e4, a4.trans e5, a5.trans e6,
          a6.trans e7, a7.trans e8, a8.trans e9, a9.trans e10, a10.trans e11,
          a11.trans e12, a12.trans e13, a13.trans e14, a14.trans e15⟩
  · rw [if_neg hrua]
    exact ⟨rfl, rfl, rfl, rfl, rfl, rfl, rfl, rfl, rfl, rfl, rfl, rfl, rfl, rfl⟩

set_option maxHeartbeats 4000000 in
/-- One driver-loop iteration on an item whose key and codigo are not yet
stored: it takes the create branch, succeeds under the price guard, appends
exactly one property row, preserves well-formedness and all correlation
lookups, and leaves a full certificate for the created row. -/
theorem item_creates (env : FetchEnv) (s : Nat) (d : ExternalDetailedImovel)
    (db : DB)
    (hd : env.detail s = some d) (ho : env.oracle s = Oracle.ok)
    (hfind : findImovelByKey db (toString d.id) = none)
    (hcod : existsByCodigo db d.codigo = false)
    (hpa : d.objetivo = "ALUGAR" → paResolvable Oracle.ok d.precoAluguel = true)
    (hpv : d.objetivo = "VENDER" → pvResolvable Oracle.ok d.precoVenda = true)
    (hInv : DBInv db) :
    ∃ r db', processItem env db s = (.created, db') ∧
      db'.imoveis = db.imoveis ++ [r] ∧
      r.id = db.nextImovelId ∧ db'.nextImovelId = db.nextImovelId + 1 ∧
      r.idIntegracao = toString d.id ∧ r.codigo = d.codigo ∧
      DBInv db' ∧ DBPres db db' ∧ ItemCert d db' r := by
  obtain ⟨hIm, hEm, hPvI, hPaI, hCoI⟩ := hInv
  obtain ⟨eID, dbA, tA, hA, hFA, hIA, hPA, hCA, -⟩ :=
    empResolveStep db d.empreendimento hEm
  obtain ⟨fa1, fa2, fa3, fa4, fa5, fa6, fa7, fa8, fa9, fa10, fa11, fa12, fa13,
    fa14, fa15⟩ := hFA
  obtain ⟨pvID, dbB, tB, hB, hFB, hIB, hPB, hCB, -⟩ :=
    pvResolveStep dbA d.precoVenda (by rw [fa2, fa9]; exact hPvI)
  obtain ⟨fb1, fb2, fb3, fb4, fb5, fb6, fb7, fb8, fb9, fb10, fb11, fb12, fb13,
    fb14, fb15⟩ := hFB
  obtain ⟨paID, dbC, tC, hC, hFC, hIC, hPC, hCC, -⟩ :=
    paResolveStep dbB d.precoAluguel (by rw [fb3, fa3, fb10, fa10]; exact hPaI)
  obtain ⟨fc1, fc2, fc3, fc4, fc5, fc6, fc7, fc8, fc9, fc10, fc11, fc12, fc13,
    fc14, fc15⟩ := hFC
  obtain ⟨corID, dbD, tD, hD, hFD, hID, hPD, hCD, -⟩ :=
    corResolveStep dbC d.corretorPrincipal
      (by rw [fc4, fb4, fa4, fc11, fb11, fa11]; exact hCoI)
  obtain ⟨fd1, fd2, fd3, fd4, fd5, fd6, fd7, fd8, fd9, fd10, fd11, fd12,
    fd13⟩ := hFD
  obtain ⟨endId, dbE, tE, hE, hFE⟩ := createEnderecoStep_ok Oracle.ok dbD
    d.endereco rfl
  obtain ⟨fe1, fe2, fe3, fe4, fe5, fe6, fe7, fe8, fe9, fe10, fe11, fe12, fe13,
    fe14, fe15⟩ := hFE
  have himE : dbE.imoveis = db.imoveis := by rw [fe1, fd1, fc1, fb1, fa1]
  have hnexE : dbE.nextImovelId = db.nextImovelId := by
    rw [fe8, fd7, fc8, fb8, fa8]
  have hpaNZ : d.objetivo = "ALUGAR" → paID ≠ 0 := by
    intro hobj
    have hwf : ∀ r ∈ dbB.precoAlugueis, r.id ≠ 0 := by
      intro r hr
      rw [fb3, fa3] at hr
      exact (hPaI.2.1 r hr).1
    have hn : dbB.nextPaId ≠ 0 := by
      rw [fb10, fa10]
      exact hPaI.1
    have hiff := resolvePa_nonzero Oracle.ok dbB d.precoAluguel hwf hn
    rw [hC] at hiff
    exact hiff.mpr (hpa hobj)
  have hpvNZ : d.objetivo = "VENDER" → pvID ≠ 0 := by
    intro hobj
    have hwf : ∀ r ∈ dbA.precoVendas, r.id ≠ 0 := by
      intro r hr
      rw [fa2] at hr
      exact (hPvI.2.1 r hr).1
    have hn : dbA.nextPvId ≠ 0 := by
      rw [fa9]
      exact hPvI.1
    have hiff := resolvePv_nonzero Oracle.ok dbA d.precoVenda hwf hn
    rw [hB] at hiff
    exact hiff.mpr (hpv hobj)
  have hval1 : ¬((transformExternalToCreateRequest d endId eID pvID paID
        corID).objetivo = "ALUGAR" ∧
      (transformExternalToCreateRequest d endId eID pvID paID
        corID).precoAluguelID = 0) := by
    unfold transformExternalToCreateRequest
    dsimp only
    rintro ⟨hobj, hz⟩
    have hne := hpaNZ hobj
    rw [if_pos hne] at hz
    exact hne hz
  have hval2 : ¬((transformExternalToCreateRequest d endId eID pvID paID
        corID).objetivo = "VENDER" ∧
      (transformExternalToCreateRequest d endId eID pvID paID
        corID).precoVendaID = 0) := by
    unfold transformExternalToCreateRequest
    dsimp only
    rintro ⟨hobj, hz⟩
    have hne := hpvNZ hobj
    rw [if_pos hne] at hz
    exact hne hz
  have hcod5 : existsByCodigo dbE
      (transformExternalToCreateRequest d endId eID pvID paID corID).codigo
      = false := by
    unfold existsByCodigo
    rw [himE]
    exact hcod
  have hkey5 : existsByIdIntegracao dbE
      (transformExternalToCreateRequest d endId eID pvID paID
        corID).idIntegracao = false := by
    unfold existsByIdIntegracao
    rw [himE]
    exact any_false_of_find?_none
      (show db.imoveis.find? (fun r => r.idIntegracao == toString d.id) = none
        from hfind)
  have hcreate := CreateImovel_ok Oracle.ok dbE
    (transformExternalToCreateRequest d endId eID pvID paID corID)
    hval1 hval2 hcod5 hkey5 rfl
  rcases hS : syncAnexosFromImages Oracle.ok
      { dbE with
        imoveis := dbE.imoveis ++
          [createdRow dbE
            (transformExternalToCreateRequest d endId eID pvID paID corID)]
        nextImovelId := dbE.nextImovelId + 1, clock := dbE.clock + 1 }
      dbE.nextImovelId d.imagens with ⟨rS, db7⟩
  have hFS := syncAnexos_onlyAnexo Oracle.ok
      { dbE with
        imoveis := dbE.imoveis ++
          [createdRow dbE
            (transformExternalToCreateRequest d endId eID pvID paID corID)]
        nextImovelId := dbE.nextImovelId + 1, clock := dbE.clock + 1 }
      dbE.nextImovelId d.imagens
  rw [hS] at hFS
  obtain ⟨fs1, fs2, fs3, fs4, fs5, fs6, fs7, fs8, fs9, fs10, fs11, fs12, fs13,
    fs14, fs15⟩ := hFS
  have him7 : db7.imoveis = db.imoveis ++
      [createdRow dbE
        (transformExternalToCreateRequest d endId eID pvID paID corID)] := by
    rw [fs1]
    show dbE.imoveis ++ _ = _
    rw [himE]
  have hnext7 : db7.nextImovelId = db.nextImovelId + 1 := by
    rw [fs8]
    show dbE.nextImovelId + 1 = _
    rw [hnexE]
  have hemp7 : db7.empreendimentos = dbA.empreendimentos := by
    rw [fs2]
    show dbE.empreendimentos = _
    rw [fe2, fd2, fc2, fb2]
  have hempN7 : db7.nextEmpId = dbA.nextEmpId := by
    rw [fs9]
    show dbE.nextEmpId = _
    rw [fe9, fd8, fc9, fb9]
  have hpv7 : db7.precoVendas = dbB.precoVendas := by
    rw [fs3]
    show dbE.precoVendas = _
    rw [fe3, fd3, fc3]
  have hpvN7 : db7.nextPvId = dbB.nextPvId := by
    rw [fs10]
    show dbE.nextPvId = _
    rw [fe10, fd9, fc10]
  have hpa7 : db7.precoAlugueis = dbC.precoAlugueis := by
    rw [fs4]
    show dbE.precoAlugueis = _
    rw [fe4, fd4]
  have hpaN7 : db7.nextPaId = dbC.nextPaId := by
    rw [fs11]
    show dbE.nextPaId = _
    rw [fe11, fd10]
  have hcor7 : db7.corretores = dbD.corretores := by
    rw [fs5]
    show dbE.corretores = _
    rw [fe5]
  have hcorN7 : db7.nextCorId = dbD.nextCorId := by
    rw [fs12]
    show dbE.nextCorId = _
    rw [fe12]
  have hitem : processItem env db s = (.created, db7) := by
    unfold processItem
    simp only [hd]
    simp only [hfind]
    rw [ho]
    unfold upsertImovelAndRelationships
    simp only [hA, hB, hC, hD, Bool.false_eq_true, if_false, hE]
    rw [hcreate]
    dsimp only
    rw [hS]
  refine ⟨createdRow dbE
      (transformExternalToCreateRequest d endId eID pvID paID corID),
    db7, hitem, him7, hnexE, hnext7, rfl, rfl, ?_, ?_, ?_⟩
  · refine ⟨?_, ?_, ?_, ?_, ?_⟩
    · rw [him7, hnext7]
      exact TInv_append _ hIm hnexE
    · rw [hemp7, hempN7]
      exact hIA
    · rw [hpv7, hpvN7]
      exact hIB
    · rw [hpa7, hpaN7]
      exact hIC
    · rw [hcor7, hcorN7]
      exact hID
  · refine ⟨?_, ?_, ?_, ?_⟩
    · rw [hemp7]
      exact hPA
    · rw [hpv7, show db.precoVendas = dbA.precoVendas from fa2.symm]
      exact hPB
    · rw [hpa7,
        show db.precoAlugueis = dbB.precoAlugueis from (fb3.trans fa3).symm]
      exact hPC
    · rw [hcor7,
        show db.corretores = dbC.corretores
          from (fc4.trans (fb4.trans fa4)).symm]
      exact hPD
  · refine ⟨rfl, ?_, dbE, endId, eID, pvID, paID, corID, rfl, ?_, ?_, ?_, ?_⟩
    · show dbE.nextImovelId ≠ 0
      rw [hnexE]
      exact hIm.1
    · rw [hemp7]
      exact hCA
    · rw [hpv7]
      exact hCB
    · rw [hpa7]
      exact hCC
    · rw [hcor7]
      exact hCD

set_option maxHeartbeats 4000000 in
/-- One driver-loop iteration on an item whose row was created by a previous
run from the same external record: it takes the update branch, re-resolves
the same relationship ids, merges the row with itself (a no-op), and at most
re-points the row's address reference; counts, well-formedness and lookups
behave accordingly. -/
theorem item_updates (env : FetchEnv) (s : Nat) (d : ExternalDetailedImovel)
    (db : DB) (pre post : List Imovel) (r : Imovel)
    (hd : env.detail s = some d) (ho : env.oracle s = Oracle.ok)
    (hsplit : db.imoveis = pre ++ r :: post)
    (hpre : ∀ a ∈ pre, (a.idIntegracao == toString d.id) = false)
    (hcert : ItemCert d db r)
    (hInv : DBInv db) :
    ∃ r' db', processItem env db s = (.updated, db') ∧
      db'.imoveis = pre ++ r' :: post ∧
      r' = { r with enderecoID := r'.enderecoID } ∧
      db'.nextImovelId = db.nextImovelId ∧
      DBInv db' ∧ DBPres db db' := by
  obtain ⟨hkey, hidNZ, dbX, endId, eID, pvID, paID, corID, hshape, hcE, hcPv,
    hcPa, hcC⟩ := hcert
  obtain ⟨hIm, hEm, hPvI, hPaI, hCoI⟩ := hInv
  have hfound : findImovelByKey db (toString d.id) = some r := by
    unfold findImovelByKey
    rw [hsplit]
    exact find?_split post r hpre (by simp [hkey])
  obtain ⟨eID', dbA, tA, hA, hFA, hIA, hPA, hCA, hdetA⟩ :=
    empResolveStep db d.empreendimento hEm
  rw [hdetA eID hcE] at hA
  obtain ⟨fa1, fa2, fa3, fa4, fa5, fa6, fa7, fa8, fa9, fa10, fa11, fa12, fa13,
    fa14, fa15⟩ := hFA
  obtain ⟨pvID', dbB, tB, hB, hFB, hIB, hPB, hCB, hdetB⟩ :=
    pvResolveStep dbA d.precoVenda (by rw [fa2, fa9]; exact hPvI)
  rw [hdetB pvID (by rw [fa2]; exact hcPv)] at hB
  obtain ⟨fb1, fb2, fb3, fb4, fb5, fb6, fb7, fb8, fb9, fb10, fb11, fb12, fb13,
    fb14, fb15⟩ := hFB
  obtain ⟨paID', dbC, tC, hC, hFC, hIC, hPC, hCC, hdetC⟩ :=
    paResolveStep dbB d.precoAluguel (by rw [fb3, fa3, fb10, fa10]; exact hPaI)
  rw [hdetC paID (by rw [fb3, fa3]; exact hcPa)] at hC
  obtain ⟨fc1, fc2, fc3, fc4, fc5, fc6, fc7, fc8, fc9, fc10, fc11, fc12, fc13,
    fc14, fc15⟩ := hFC
  obtain ⟨corID', dbD, tD, hD, hFD, hID, hPD, hCD, hdetD⟩ :=
    corResolveStep dbC d.corretorPrincipal
      (by rw [fc4, fb4, fa4, fc11, fb11, fa11]; exact hCoI)
  rw [hdetD corID (by rw [fc4, fb4, fa4]; exact hcC)] at hD
  obtain ⟨fd1, fd2, fd3, fd4, fd5, fd6, fd7, fd8, fd9, fd10, fd11, fd12,
    fd13⟩ := hFD
  have him4 : dbD.imoveis = db.imoveis := by rw [fd1, fc1, fb1, fa1]
  have hnex4 : dbD.nextImovelId = db.nextImovelId := by
    rw [fd7, fc8, fb8, fa8]
  have hpw : (pre ++ r :: post).Pairwise (fun a b => a.id ≠ b.id) := by
    have h := hIm.2.2
    rw [hsplit] at h
    exact h
  have hprei : ∀ a ∈ pre, a.id ≠ r.id := by
    intro a ha
    exact (List.pairwise_append.mp hpw).2.2 a ha r (by simp)
  have hposti : ∀ a ∈ post, a.id ≠ r.id := by
    intro a ha h
    exact (List.pairwise_cons.mp (List.pairwise_append.mp hpw).2.1).1 a ha
      h.symm
  have hfoundById : findImovelById dbD r.id = some r := by
    unfold findImovelById
    rw [him4, hsplit]
    exact find?_split post r (fun a ha => by simpa using hprei a ha) (by simp)
  have hupd := UpdateImovel_ok Oracle.ok dbD r.id
    (buildImportUpdateReq d eID pvID paID corID) r hidNZ hfoundById rfl rfl
  have hmerge : updatesNonZero r
      (applyUpdateReq r (buildImportUpdateReq d eID pvID paID corID)) = r := by
    rw [hshape]
    exact mergedRoundTrip dbX d endId eID pvID paID corID
  have hrepo : repoUpdateImovel dbD r.id
      (applyUpdateReq r (buildImportUpdateReq d eID pvID paID corID))
      = dbD := by
    unfold repoUpdateImovel
    have hnoop : dbD.imoveis.map
        (fun x => if x.id = r.id then
          updatesNonZero x
            (applyUpdateReq r (buildImportUpdateReq d eID pvID paID corID))
          else x) = dbD.imoveis := by
      apply map_noop
      intro a ha
      rw [him4, hsplit] at ha
      by_cases h : a.id = r.id
      · rcases pairwise_id_unique hpw (by simp) ha h with rfl
        rw [if_pos h]
        exact hmerge
      · rw [if_neg h]
    rw [hnoop]
  rcases hE2 : updateEnderecoStep Oracle.ok dbD r.id d.endereco with ⟨et, db6⟩
  have h6i := updateEnderecoStep_imoveis Oracle.ok dbD r.id d.endereco
  rw [hE2] at h6i
  have h6f := updateEnderecoStep_frame Oracle.ok dbD r.id d.endereco
  rw [hE2] at h6f
  obtain ⟨g1, g2, g3, g4, g5, g6, g7, g8, g9, g10, g11, g12, g13, g14⟩ := h6f
  rcases hS2 : syncAnexosFromImages Oracle.ok db6 r.id d.imagens with ⟨rS, db7⟩
  have hFS := syncAnexos_onlyAnexo Oracle.ok db6 r.id d.imagens
  rw [hS2] at hFS
  obtain ⟨fs1, fs2, fs3, fs4, fs5, fs6, fs7, fs8, fs9, fs10, fs11, fs12, fs13,
    fs14, fs15⟩ := hFS
  have hitem : processItem env db s = (.updated, db7) := by
    unfold processItem
    simp only [hd]
    simp only [hfound]
    rw [ho]
    unfold upsertImovelAndRelationships
    simp only [hA, hB, hC, hD, if_true]
    rw [hupd, hrepo]
    dsimp only
    rw [hE2]
    dsimp only
    rw [hS2]
  have hnext7 : db7.nextImovelId = db.nextImovelId := by
    rw [fs8, g7, hnex4]
  have hemp7 : db7.empreendimentos = dbA.empreendimentos := by
    rw [fs2, g1, fd2, fc2, fb2]
  have hempN7 : db7.nextEmpId = dbA.nextEmpId := by
    rw [fs9, g8, fd8, fc9, fb9]
  have hpv7 : db7.precoVendas = dbB.precoVendas := by
    rw [fs3, g2, fd3, fc3]
  have hpvN7 : db7.nextPvId = dbB.nextPvId := by
    rw [fs10, g9, fd9, fc10]
  have hpa7 : db7.precoAlugueis = dbC.precoAlugueis := by
    rw [fs4, g3, fd4]
  have hpaN7 : db7.nextPaId = dbC.nextPaId := by
    rw [fs11, g10, fd10]
  have hcor7 : db7.corretores = dbD.corretores := by
    rw [fs5, g4]
  have hcorN7 : db7.nextCorId = dbD.nextCorId := by
    rw [fs12, g11]
  have hInvRest : TInv (fun r : Empreendimento => r.id) db7.empreendimentos
        db7.nextEmpId ∧
      TInv (fun r : PrecoVenda => r.id) db7.precoVendas db7.nextPvId ∧
      TInv (fun r : PrecoAluguel => r.id) db7.precoAlugueis db7.nextPaId ∧
      TInv (fun r : CorretorPrincipal => r.id) db7.corretores db7.nextCorId := by
    refine ⟨?_, ?_, ?_, ?_⟩
    · rw [hemp7, hempN7]
      exact hIA
    · rw [hpv7, hpvN7]
      exact hIB
    · rw [hpa7, hpaN7]
      exact hIC
    · rw [hcor7, hcorN7]
      exact hID
  have hPres : DBPres db db7 := by
    refine ⟨?_, ?_, ?_, ?_⟩
    · rw [hemp7]
      exact hPA
    · rw [hpv7, show db.precoVendas = dbA.precoVendas from fa2.symm]
      exact hPB
    · rw [hpa7,
        show db.precoAlugueis = dbB.precoAlugueis from (fb3.trans fa3).symm]
      exact hPC
    · rw [hcor7,
        show db.corretores = dbC.corretores
          from (fc4.trans (fb4.trans fa4)).symm]
      exact hPD
  rcases h6i with hcase | ⟨e, hcase⟩
  · refine ⟨r, db7, hitem, ?_, rfl, hnext7, ⟨?_, hInvRest.1, hInvRest.2.1,
      hInvRest.2.2.1, hInvRest.2.2.2⟩, hPres⟩
    · rw [fs1, hcase, him4, hsplit]
    · rw [fs1, hcase, him4, hnext7]
      exact hIm
  · have hmapeq : db6.imoveis
        = pre ++ { r with enderecoID := e } :: post := by
      rw [hcase, him4, hsplit]
      rw [map_seg _ pre post r
        (fun a ha => by rw [if_neg (hprei a ha)])
        (fun a ha => by rw [if_neg (hposti a ha)])]
      rw [if_pos rfl]
    refine ⟨{ r with enderecoID := e }, db7, hitem, ?_, rfl, hnext7,
      ⟨?_, hInvRest.1, hInvRest.2.1, hInvRest.2.2.1, hInvRest.2.2.2⟩, hPres⟩
    · rw [fs1, hmapeq]
    · rw [fs1, hcase, him4, hnext7]
      refine TInv_map _ hIm ?_
      intro a ha
      show (if a.id = r.id then { a with enderecoID := e } else a).id = a.id
      by_cases h : a.id = r.id
      · rw [if_pos h]
      · rw [if_neg h]

set_option maxHeartbeats 4000000 in
/-- First run over a batch of fresh items: every item is created, one row is
appended per item in order, and each row leaves a certificate valid in the
final state. -/
theorem run1_go (env : FetchEnv) (ds : Nat → ExternalDetailedImovel) :
    ∀ (l : List Nat) (db : DB),
    (∀ s ∈ l, env.detail s = some (ds s)) →
    (∀ s ∈ l, env.oracle s = Oracle.ok) →
    (∀ s ∈ l, findImovelByKey db (toString (ds s).id) = none) →
    (∀ s ∈ l, existsByCodigo db (ds s).codigo = false) →
    (∀ s ∈ l, (ds s).objetivo = "ALUGAR" →
      paResolvable Oracle.ok (ds s).precoAluguel = true) →
    (∀ s ∈ l, (ds s).objetivo = "VENDER" →
      pvResolvable Oracle.ok (ds s).precoVenda = true) →
    l.Pairwise (fun a b => toString (ds a).id ≠ toString (ds b).id) →
    l.Pairwise (fun a b => (ds a).codigo ≠ (ds b).codigo) →
    DBInv db →
    ∃ rows db', processItems env db l = (⟨l.length, 0, 0⟩, db') ∧
      db'.imoveis = db.imoveis ++ rows ∧
      List.Forall₂ (fun s r => ItemCert (ds s) db' r ∧ r.codigo = (ds s).codigo)
        l rows ∧
      DBInv db' ∧ DBPres db db'
  | [], db, _, _, _, _, _, _, _, _, hInv =>
    ⟨[], db, rfl, by simp, List.Forall₂.nil, hInv, DBPres_refl db⟩
  | s :: l, db, hdet, hora, hfresh, hcodF, hpa, hpv, hkeyN, hcodN, hInv => by
    obtain ⟨r, db1, hitem, him1, hrid, hnext1, hrkey, hrcod, hInv1, hPres1,
      hcert1⟩ := item_creates env s (ds s) db (hdet s (by simp))
      (hora s (by simp)) (hfresh s (by simp)) (hcodF s (by simp))
      (hpa s (by simp)) (hpv s (by simp)) hInv
    obtain ⟨hkhead, hktail⟩ := List.pairwise_cons.mp hkeyN
    obtain ⟨hchead, hctail⟩ := List.pairwise_cons.mp hcodN
    obtain ⟨rows, db2, hrun, him2, hfa, hInv2, hPres2⟩ :=
      run1_go env ds l db1
        (fun t ht => hdet t (by simp [ht]))
        (fun t ht => hora t (by simp [ht]))
        (fun t ht => by
          unfold findImovelByKey
          rw [him1]
          rw [find?_append_none _ (hfresh t (by simp [ht]))]
          simp [hrkey, hkhead t ht])
        (fun t ht => by
          unfold existsByCodigo
          rw [him1, List.any_append]
          rw [show db.imoveis.any (fun x => x.codigo == (ds t).codigo) = false
            from hcodF t (by simp [ht])]
          simp [hrcod, hchead t ht])
        (fun t ht => hpa t (by simp [ht]))
        (fun t ht => hpv t (by simp [ht]))
        hktail hctail hInv1
    refine ⟨r :: rows, db2, ?_, ?_,
      List.Forall₂.cons ⟨ItemCert_mono hcert1 hPres2, hrcod⟩ hfa,
      hInv2, DBPres_trans hPres1 hPres2⟩
    · rw [processItems_cons, hitem]
      dsimp only
      rw [hrun]
      rfl
    · rw [him2, him1, List.append_assoc]
      rfl

set_option maxHeartbeats 4000000 in
/-- Second run over the same batch: every item is updated in place, each
stored row changing at most its address reference. -/
theorem run2_go (env : FetchEnv) (ds : Nat → ExternalDetailedImovel) :
    ∀ (l : List Nat) (db : DB) (pre rows : List Imovel),
    (∀ s ∈ l, env.detail s = some (ds s)) →
    (∀ s ∈ l, env.oracle s = Oracle.ok) →
    db.imoveis = pre ++ rows →
    List.Forall₂ (fun s r => ItemCert (ds s) db r) l rows →
    (∀ s ∈ l, ∀ a ∈ pre, (a.idIntegracao == toString (ds s).id) = false) →
    l.Pairwise (fun a b => toString (ds a).id ≠ toString (ds b).id) →
    DBInv db →
    ∃ rows' db', processItems env db l = (⟨0, l.length, 0⟩, db') ∧
      db'.imoveis = pre ++ rows' ∧
      List.Forall₂ (fun x y => y = { x with enderecoID := y.enderecoID })
        rows rows'
  | [], db, pre, rows, _, _, hsplit, hfa, _, _, _ => by
    cases hfa
    exact ⟨[], db, rfl, hsplit, List.Forall₂.nil⟩
  | s :: l, db, pre, rows, hdet, hora, hsplit, hfa, hpre, hkeyN, hInv => by
    rcases hfa with _ | @⟨_, r, _, rowsT, hcert, hfarest⟩
    obtain ⟨r', db1, hitem, him1, hrel, hnext1, hInv1, hPres1⟩ :=
      item_updates env s (ds s) db pre rowsT r (hdet s (by simp))
        (hora s (by simp)) hsplit (hpre s (by simp)) hcert hInv
    have hfarest1 : List.Forall₂ (fun t x => ItemCert (ds t) db1 x) l rowsT :=
      List.Forall₂.imp (fun t x h => ItemCert_mono h hPres1) hfarest
    obtain ⟨hkhead, hktail⟩ := List.pairwise_cons.mp hkeyN
    have hr'key : r'.idIntegracao = toString (ds s).id := by
      rw [hrel]
      exact hcert.1
    obtain ⟨rowsT', db2, hrun, him2, hfa'⟩ :=
      run2_go env ds l db1 (pre ++ [r']) rowsT
        (fun t ht => hdet t (by simp [ht]))
        (fun t ht => hora t (by simp [ht]))
        (by rw [him1, List.append_assoc]; rfl)
        hfarest1
        (fun t ht a ha => by
          rcases List.mem_append.mp ha with ha' | ha'
          · exact hpre t (by simp [ht]) a ha'
          · rcases List.mem_singleton.mp ha' with rfl
            rw [hr'key]
            simpa using hkhead t ht)
        hktail hInv1
    refine ⟨r' :: rowsT', db2, ?_, ?_, List.Forall₂.cons hrel hfa'⟩
    · rw [processItems_cons, hitem]
      dsimp only
      rw [hrun]
      rfl
    · rw [him2, List.append_assoc]
      rfl

/-- Pointwise-reflexive relations hold along the diagonal. -/
theorem forall₂_refl_of {α : Type} {R : α → α → Prop} (h : ∀ a, R a a) :
    ∀ l : List α, List.Forall₂ R l l
  | [] => List.Forall₂.nil
  | a :: t => List.Forall₂.cons (h a) (forall₂_refl_of h t)

/-- `Forall₂` is closed under appending related lists. -/
theorem forall₂_append_of {α β : Type} {R : α → β → Prop} :
    ∀ {l₁ u₁ : List α} {l₂ u₂ : List β}, List.Forall₂ R l₁ l₂ →
      List.Forall₂ R u₁ u₂ → List.Forall₂ R (l₁ ++ u₁) (l₂ ++ u₂)
  | _, _, _, _, List.Forall₂.nil, h₂ => h₂
  | _, _, _, _, List.Forall₂.cons hab h, h₂ =>
    List.Forall₂.cons hab (forall₂_append_of h h₂)

set_option maxHeartbeats 4000000 in
/-- C1 (amended): for every upstream dataset of N properties — distinct
external ids and codigos, none already stored — over any well-formed initial
database, if every ALUGAR/VENDER property has a resolvable rent/sale price
(otherwise the create-time validation counts it failed, not created), then
two consecutive unchanged runs report `created N, updated 0, failed 0` and
`created 0, updated N, failed 0`; after the first run the property table is
the initial table plus one row per item keyed by its external id, and the
second run leaves every stored property row unchanged except possibly the
address reference, which it re-points at a freshly created address row. -/
theorem c1_batch_idempotency (env : FetchEnv)
    (ds : Nat → ExternalDetailedImovel) (l : List Nat) (db0 : DB)
    (hlist : env.list = .ok l) (hne : l ≠ [])
    (hdet : ∀ s ∈ l, env.detail s = some (ds s))
    (hora : ∀ s ∈ l, env.oracle s = Oracle.ok)
    (hfresh : ∀ s ∈ l, existsByIdIntegracao db0 (toString (ds s).id) = false)
    (hcodF : ∀ s ∈ l, existsByCodigo db0 (ds s).codigo = false)
    (hkeyN : l.Pairwise (fun a b => toString (ds a).id ≠ toString (ds b).id))
    (hcodN : l.Pairwise (fun a b => (ds a).codigo ≠ (ds b).codigo))
    (hpa : ∀ s ∈ l, (ds s).objetivo = "ALUGAR" →
      paResolvable Oracle.ok (ds s).precoAluguel = true)
    (hpv : ∀ s ∈ l, (ds s).objetivo = "VENDER" →
      pvResolvable Oracle.ok (ds s).precoVenda = true)
    (hInv : DBInv db0) :
    ∃ db1 db2,
      ImportPublishedProperties env db0 = (.completed l.length 0 0, db1) ∧
      ImportPublishedProperties env db1 = (.completed 0 l.length 0, db2) ∧
      db1.imoveis.map (fun r => r.idIntegracao)
        = db0.imoveis.map (fun r => r.idIntegracao)
          ++ l.map (fun s => toString (ds s).id) ∧
      List.Forall₂ (fun r1 r2 => r2 = { r1 with enderecoID := r2.enderecoID })
        db1.imoveis db2.imoveis := by
  have h0 : ¬ l.length = 0 := fun h => hne (List.length_eq_zero.mp h)
  have hfresh' : ∀ s ∈ l, findImovelByKey db0 (toString (ds s).id) = none :=
    fun s hs => find?_none_of_any_false (hfresh s hs)
  obtain ⟨rows, db1, hrun1, him1, hfa1, hInv1, hPres1⟩ :=
    run1_go env ds l db0 hdet hora hfresh' hcodF hpa hpv hkeyN hcodN hInv
  obtain ⟨rows', db2, hrun2, him2, hfa2⟩ :=
    run2_go env ds l db1 db0.imoveis rows hdet hora him1
      (List.Forall₂.imp (fun s r h => h.1) hfa1)
      (fun s hs a ha => by
        have := List.any_eq_false.mp (hfresh s hs) a ha
        simpa using this)
      hkeyN hInv1
  refine ⟨db1, db2, ?_, ?_, ?_, ?_⟩
  · unfold ImportPublishedProperties
    simp only [hlist]
    rw [if_neg h0]
    simp only [hrun1]
  · unfold ImportPublishedProperties
    simp only [hlist]
    rw [if_neg h0]
    simp only [hrun2]
  · rw [him1, List.map_append]
    rw [forall₂_map_eq (fun s r h => h.1.1) hfa1]
  · rw [him1, him2]
    exact forall₂_append_of
      (forall₂_refl_of
        (R := fun r1 r2 => r2 = { r1 with enderecoID := r2.enderecoID })
        (fun a => rfl) db0.imoveis) hfa2

/-- The fresh database is well-formed. -/
theorem DBInv_empty : DBInv DB.empty :=
  ⟨⟨Nat.one_ne_zero, fun r hr => absurd hr (List.not_mem_nil r),
      List.Pairwise.nil⟩,
   ⟨Nat.one_ne_zero, fun r hr => absurd hr (List.not_mem_nil r),
      List.Pairwise.nil⟩,
   ⟨Nat.one_ne_zero, fun r hr => absurd hr (List.not_mem_nil r),
      List.Pairwise.nil⟩,
   ⟨Nat.one_ne_zero, fun r hr => absurd hr (List.not_mem_nil r),
      List.Pairwise.nil⟩,
   ⟨Nat.one_ne_zero, fun r hr => absurd hr (List.not_mem_nil r),
      List.Pairwise.nil⟩⟩

/-- A two-property witness dataset: `extSample` under two distinct external
ids and codigos. -/
def c1W (sid : Nat) : ExternalDetailedImovel :=
  { extSample with id := sid, codigo := "C" ++ toString sid }

/-- A two-item batch environment whose upstream data never changes. -/
def c1Env2 : FetchEnv :=
  { list := .ok [900, 901], detail := fun s => some (c1W s)
    oracle := fun _ => Oracle.ok }

/-- Witness for the amended C1 at a concrete input: importing the two-item
dataset twice from the fresh database. -/
theorem c1_batch_idempotency_witness :
    ∃ db1 db2,
      ImportPublishedProperties c1Env2 DB.empty = (.completed 2 0 0, db1) ∧
      ImportPublishedProperties c1Env2 db1 = (.completed 0 2 0, db2) ∧
      db1.imoveis.map (fun r => r.idIntegracao)
        = DB.empty.imoveis.map (fun r => r.idIntegracao)
          ++ [900, 901].map (fun s => toString (c1W s).id) ∧
      List.Forall₂ (fun r1 r2 => r2 = { r1 with enderecoID := r2.enderecoID })
        db1.imoveis db2.imoveis :=
  c1_batch_idempotency c1Env2 c1W [900, 901] DB.empty rfl (by decide)
    (fun s _ => rfl) (fun s _ => rfl) (fun s _ => rfl) (fun s _ => rfl)
    (by decide) (by decide)
    (fun s _ h =>
      absurd (show ("VENDER" : String) = "ALUGAR" from h) (by decide))
    (fun s _ _ => rfl)
    DBInv_empty

/-- A VENDER property with no upstream sale price. -/
def c1BadExt : ExternalDetailedImovel := { extSample with precoVenda := none }

/-- A one-item batch of the sale-price-less VENDER property. -/
def c1BadEnv : FetchEnv :=
  { list := .ok [900], detail := fun _ => some c1BadExt, oracle := fun _ => Oracle.ok }

/-- Counterexample to C1 as stated: (i) a one-property unchanged dataset
whose property is for sale without an active sale price yields
`created 0, updated 0, failed 1` on the first run, not `created = N`; and
(ii) for a well-behaved property the stored rows are not identical after the
two runs — the second run re-points the address reference (1 → 2) at a
freshly created address row. -/
theorem c1_batch_idempotency_cex :
    (ImportPublishedProperties c1BadEnv DB.empty).1 = .completed 0 0 1 ∧
    ImportReturn.completed 0 0 1 ≠ .completed 1 0 0 ∧
    (ImportPublishedProperties (c1Env 900 extSample) DB.empty).2.imoveis.map
      (fun r => r.enderecoID) = [1] ∧
    (ImportPublishedProperties (c1Env 900 extSample)
        (ImportPublishedProperties (c1Env 900 extSample) DB.empty).2).2.imoveis.map
      (fun r => r.enderecoID) = [2] ∧
    (ImportPublishedProperties (c1Env 900 extSample)
        (ImportPublishedProperties (c1Env 900 extSample) DB.empty).2).2.imoveis
      ≠ (ImportPublishedProperties (c1Env 900 extSample) DB.empty).2.imoveis :=
  ⟨rfl, by decide, rfl, rfl, by decide⟩

end Imoveis
